import Mathlib

/-!
# spaint: pose-recovery core

A shallow embedding of the per-frame tracking / relocalisation state machine of
`SLAMComponent` (modules/spaint/src/pipelinecomponents/SLAMComponent.cpp).

Modelling conventions.

* The state machine only stores and copies poses, so it is parametric in the type
  `Pose` of camera poses (`ORUtils::SE3Pose` in the source).
* `size_t` members are natural numbers below `SIZE_MODULUS`; `++` wraps modulo
  `SIZE_MODULUS`, as unsigned arithmetic does.
* External collaborators (image source, tracker, relocaliser, dense mappers, view
  builder, fiducial detector, mapping client) are not part of the repository core.
  What they return in one frame is supplied in a `FrameInput`; every call the
  component makes on them is appended, in program order, to a list of `Call`s.
* Code guarded by `WITH_VICON` is a compile-time option and is left out.
-/

namespace spaint

/-! ## Data model -/

/-- The tracking quality `ITMTrackingState::TrackingResult`. -/
inductive TrackingResult where
  | TRACKING_GOOD
  | TRACKING_POOR
  | TRACKING_FAILED
  deriving DecidableEq, Repr

/-- The failure-handling policy `ITMLibSettings::FailureMode`. -/
inductive FailureMode where
  | FAILUREMODE_RELOCALISE
  | FAILUREMODE_IGNORE
  | FAILUREMODE_STOP_INTEGRATION
  deriving DecidableEq, Repr

/-- The input status `SLAMState::InputStatus`. -/
inductive InputStatus where
  | IS_ACTIVE
  | IS_IDLE
  | IS_TERMINATED
  deriving DecidableEq, Repr

/-- The label `Relocaliser::Quality` of a relocalisation candidate. -/
inductive Quality where
  | RELOCALISATION_GOOD
  | RELOCALISATION_POOR
  deriving DecidableEq, Repr

/-- The mapping mode of a SLAM component. -/
inductive MappingMode where
  | MAP_BOTH
  | MAP_VOXELS_ONLY
  deriving DecidableEq, Repr

/-- The tracking mode of a SLAM component. -/
inductive TrackingMode where
  | TRACK_SURFELS
  | TRACK_VOXELS
  deriving DecidableEq, Repr

/-- A relocalisation candidate `Relocaliser::Result`. -/
structure Result (Pose : Type) where
  pose : Pose
  quality : Quality
  deriving DecidableEq, Repr

/-- The part of `ITMTrackingState` the component reads and writes. -/
structure ITMTrackingState (Pose : Type) where
  pose_d : Pose
  trackerResult : TrackingResult
  deriving DecidableEq, Repr

/-- The part of a scene's `SLAMState` the component reads and writes. -/
structure SLAMState (Pose : Type) where
  m_inputStatus : InputStatus
  m_trackingState : ITMTrackingState Pose
  deriving DecidableEq, Repr

/-- The settings the component consults: `behaviourOnFailure`, and whether the
    `globalPosesSpecifier` setting is a non-empty string. -/
structure Settings where
  behaviourOnFailure : FailureMode
  usingGlobalPoses : Bool
  deriving DecidableEq, Repr

/-- The shared `SLAMContext`: the SLAM states of the scenes by scene id, the
    settings, and for each scene whether it has a fiducial detector and a
    mapping client (both are optional collaborators). -/
structure SLAMContext (Pose : Type) where
  m_slamStates : String → SLAMState Pose
  settings : Settings
  m_fiducialDetectors : String → Bool
  m_mappingClients : String → Bool

/-- The members of `SLAMComponent` that `process_frame` and `reset_scene` use.
    `m_fallibleTracker` records whether the pointer is non-null. -/
structure SLAMComponent where
  m_detectFiducials : Bool
  m_fallibleTracker : Bool
  m_finishTrainingEnabled : Bool
  m_fusedFramesCount : Nat
  m_fusionEnabled : Bool
  m_initialFramesToFuse : Nat
  m_mappingMode : MappingMode
  m_mirrorSceneID : String
  m_relocaliseEveryFrame : Bool
  m_relocaliserTrainingCount : Nat
  m_relocaliserTrainingSkip : Nat
  m_sceneID : String
  m_trackingMode : TrackingMode
  deriving DecidableEq, Repr

/-- What the external collaborators answer during one call of `process_frame`.

* `hasImagesNow`, `hasMoreImages`: the image source engine.
* `inputMaskApplies`: the scene has an input mask of the depth image's size.
* `tracked`: the tracking state as `m_trackingController->Track` leaves it.
* `relocalisationResults`: what `relocaliser->relocalise` returns.
* `lost_tracking`: the answer of the fallible tracker, if there is one.
* `pushHandlerHasElt`: the mapping client's push handler offers a message slot.
* `currentSubengineExhausted`: the image source is a composite engine whose
  current sub-engine has no more images. -/
structure FrameInput (Pose : Type) where
  hasImagesNow : Bool
  hasMoreImages : Bool
  inputMaskApplies : Bool
  tracked : ITMTrackingState Pose
  relocalisationResults : List (Result Pose)
  lost_tracking : Bool
  pushHandlerHasElt : Bool
  currentSubengineExhausted : Bool

/-- The calls the component makes on its collaborators. -/
inductive Call (Pose : Type) where
  /-- The call relocaliser->finish_training(). -/
  | finish_training
  /-- The call m_imageSourceEngine->getImages(..). -/
  | getImages
  /-- The call m_viewBuilder->UpdateView(..). -/
  | UpdateView (useBilateralFilter : Bool)
  /-- Masking the depth image before tracking. -/
  | apply_mask
  /-- Swapping the original depth image back after tracking. -/
  | restore_depth
  /-- The call m_trackingController->Track(..). -/
  | Track
  /-- The call relocaliser->update(). -/
  | update
  /-- The call relocaliser->relocalise(..). -/
  | relocalise
  /-- The call relocaliser->train(.., pose). -/
  | train (pose : Pose)
  /-- The call m_denseVoxelMapper->ProcessFrame(..): fusion. -/
  | ProcessFrame
  /-- The call m_denseSurfelMapper->ProcessFrame(..). -/
  | SurfelProcessFrame
  /-- Filling the frame message sent to the remote mapping server. -/
  | push_frame_message (frameIndex : Int) (pose : Pose)
  /-- The call m_denseVoxelMapper->UpdateVisibleList(..). -/
  | UpdateVisibleList
  /-- The call m_trackingController->Prepare(..) of prepare_for_tracking. -/
  | Prepare (trackingMode : TrackingMode)
  /-- The call FindSurfaceSuper(.., pose, ..) of the surfel visualisation engine. -/
  | FindSurfaceSuper (pose : Pose)
  /-- The call fiducialDetector->detect_fiducials(view, pose). -/
  | detect_fiducials (pose : Pose)
  /-- The call m_denseVoxelMapper->ResetScene(..). -/
  | ResetScene
  /-- The call Reset() on the surfel scene. -/
  | SurfelReset
  /-- The call relocaliser->reset(). -/
  | reset
  deriving DecidableEq, Repr

/-- One more than the largest `size_t` value. -/
def SIZE_MODULUS : Nat := 2 ^ 64

/-- The conversion `static_cast<int>(n)` of a `size_t` to a 32-bit `int`. -/
def static_cast_int (n : Nat) : Int :=
  ((n : Int) + 2 ^ 31) % 2 ^ 32 - 2 ^ 31

/-- Whether a call is the fusion call `m_denseVoxelMapper->ProcessFrame`. -/
def Call.isProcessFrame {Pose : Type} : Call Pose → Bool
  | .ProcessFrame => true
  | _ => false

/-- Whether a call is `m_denseVoxelMapper->UpdateVisibleList`. -/
def Call.isUpdateVisibleList {Pose : Type} : Call Pose → Bool
  | .UpdateVisibleList => true
  | _ => false

/-- Whether a call is `relocaliser->relocalise`. -/
def Call.isRelocalise {Pose : Type} : Call Pose → Bool
  | .relocalise => true
  | _ => false

/-- Whether a call is `relocaliser->train`. -/
def Call.isTrain {Pose : Type} : Call Pose → Bool
  | .train _ => true
  | _ => false

/-- Whether a call is `relocaliser->update`. -/
def Call.isUpdate {Pose : Type} : Call Pose → Bool
  | .update => true
  | _ => false

/-- Whether a call is `relocaliser->finish_training`. -/
def Call.isFinishTraining {Pose : Type} : Call Pose → Bool
  | .finish_training => true
  | _ => false

/-- Whether a call is `m_trackingController->Track`. -/
def Call.isTrack {Pose : Type} : Call Pose → Bool
  | .Track => true
  | _ => false

/-! ## Context accessors -/

/-- The accessor `SLAMContext::get_slam_state`. -/
def SLAMContext.get_slam_state {Pose : Type} (ctx : SLAMContext Pose) (sceneID : String) :
    SLAMState Pose :=
  ctx.m_slamStates sceneID

/-- Writing through the pointer returned by `get_slam_state(sceneID)`. -/
def SLAMContext.set_slam_state {Pose : Type} (ctx : SLAMContext Pose) (sceneID : String)
    (st : SLAMState Pose) : SLAMContext Pose :=
  { ctx with m_slamStates := fun i => if i = sceneID then st else ctx.m_slamStates i }

/-- The accessor `SLAMState::get_pose`: the pose of the scene's tracking state. -/
def SLAMState.get_pose {Pose : Type} (st : SLAMState Pose) : Pose :=
  st.m_trackingState.pose_d

/-! ## Operations of `SLAMComponent` -/

/-- The outcome of `process_relocalisation`: the component (its training counter
    may have advanced), the tracking state, and the calls made. -/
structure RelocalisationOutcome (Pose : Type) where
  component : SLAMComponent
  trackingState : ITMTrackingState Pose
  calls : List (Call Pose)

/-- The decision `performTraining` of `process_relocalisation`, together with the
    value of `m_relocaliserTrainingCount` after evaluating it. The operators `||`
    and `&&` short-circuit, so the post-increment of the counter is evaluated only
    when relocalise-every-frame is off, the tracking is good and the skip is not 0. -/
def performTraining (c : SLAMComponent) (trackerResult : TrackingResult) : Bool × Nat :=
  if c.m_relocaliseEveryFrame then (true, c.m_relocaliserTrainingCount)
  else if trackerResult = TrackingResult.TRACKING_GOOD then
    if c.m_relocaliserTrainingSkip = 0 then (true, c.m_relocaliserTrainingCount)
    else
      (decide (c.m_relocaliserTrainingCount % c.m_relocaliserTrainingSkip = 0),
       (c.m_relocaliserTrainingCount + 1) % SIZE_MODULUS)
  else (false, c.m_relocaliserTrainingCount)

/-- The function `SLAMComponent::process_relocalisation`, run on the tracking state
    `ts` of the component's scene; `relocalisationResults` is what the relocaliser
    returns if it is asked to relocalise. -/
def process_relocalisation {Pose : Type} (c : SLAMComponent) (ts : ITMTrackingState Pose)
    (relocalisationResults : List (Result Pose)) : RelocalisationOutcome Pose :=
  -- Save the current pose in case we need to restore it later.
  let oldPose := ts.pose_d
  -- Decide whether or not to perform training in this frame.
  let pt := performTraining c ts.trackerResult
  let c1 : SLAMComponent := { c with m_relocaliserTrainingCount := pt.2 }
  -- If we're not training in this frame, let the relocaliser do its bookkeeping.
  let calls1 : List (Call Pose) := if pt.1 then [] else [Call.update]
  -- Relocalise if the tracking has failed or we're relocalising every frame.
  let performRelocalisation : Bool :=
    c1.m_relocaliseEveryFrame || decide (ts.trackerResult = TrackingResult.TRACKING_FAILED)
  let ts2 : ITMTrackingState Pose :=
    if performRelocalisation then
      match relocalisationResults with
      | [] => ts
      | bestRelocalisationResult :: _ =>
        { pose_d := bestRelocalisationResult.pose,
          trackerResult :=
            if bestRelocalisationResult.quality = Quality.RELOCALISATION_GOOD
            then TrackingResult.TRACKING_GOOD else TrackingResult.TRACKING_POOR }
    else ts
  let calls2 : List (Call Pose) :=
    if performRelocalisation then calls1 ++ [Call.relocalise] else calls1
  -- Train the relocaliser if necessary.
  let calls3 : List (Call Pose) := if pt.1 then calls2 ++ [Call.train oldPose] else calls2
  -- If we're relocalising and training every frame, restore the original pose.
  let ts3 : ITMTrackingState Pose :=
    if c1.m_relocaliseEveryFrame then
      { pose_d := oldPose, trackerResult := TrackingResult.TRACKING_GOOD }
    else ts2
  { component := c1, trackingState := ts3, calls := calls3 }

/-- The outcome of `process_frame`: the component and the context after the call,
    the value returned, and the calls made on the collaborators, in order. -/
structure FrameOutcome (Pose : Type) where
  component : SLAMComponent
  context : SLAMContext Pose
  returned : Bool
  calls : List (Call Pose)

/-- The tracking state after the pose-acquisition step of `process_frame`: when a
    mirror scene is set, the pose of that scene with quality GOOD; otherwise what
    the tracking controller leaves. The second component is the call made. -/
def acquire_pose {Pose : Type} (c : SLAMComponent) (ctx : SLAMContext Pose)
    (fi : FrameInput Pose) : ITMTrackingState Pose × List (Call Pose) :=
  if c.m_mirrorSceneID ≠ "" then
    ({ pose_d := (ctx.get_slam_state c.m_mirrorSceneID).get_pose,
       trackerResult := TrackingResult.TRACKING_GOOD }, [])
  else
    (fi.tracked, [Call.Track])

/-- The step of `process_frame` that determines the tracking quality, taking the
    failure mode into account (the `switch` on `behaviourOnFailure`). -/
def determine_tracking_quality {Pose : Type} (c : SLAMComponent) (ctx : SLAMContext Pose)
    (ts : ITMTrackingState Pose) (fi : FrameInput Pose) : RelocalisationOutcome Pose :=
  match ctx.settings.behaviourOnFailure with
  | FailureMode.FAILUREMODE_RELOCALISE =>
    process_relocalisation c ts fi.relocalisationResults
  | FailureMode.FAILUREMODE_STOP_INTEGRATION =>
    { component := c,
      trackingState :=
        if ts.trackerResult = TrackingResult.TRACKING_FAILED
        then { ts with trackerResult := TrackingResult.TRACKING_POOR } else ts,
      calls := [] }
  | FailureMode.FAILUREMODE_IGNORE =>
    { component := c,
      trackingState := { ts with trackerResult := TrackingResult.TRACKING_GOOD },
      calls := [] }

/-- The decision `runFusion` of `process_frame`. -/
def runFusion {Pose : Type} (c : SLAMComponent) (ts : ITMTrackingState Pose)
    (fi : FrameInput Pose) : Bool :=
  if decide (ts.trackerResult = TrackingResult.TRACKING_FAILED) ||
     (decide (ts.trackerResult = TrackingResult.TRACKING_POOR) &&
        decide (c.m_fusedFramesCount ≥ c.m_initialFramesToFuse)) ||
     (c.m_fallibleTracker && fi.lost_tracking)
  then false
  else c.m_fusionEnabled

/-- Whether the frame was fused: the fusion engine `m_denseVoxelMapper->ProcessFrame`
    was invoked during the call. -/
def FrameOutcome.fused {Pose : Type} (r : FrameOutcome Pose) : Bool :=
  r.calls.any Call.isProcessFrame

/-- The state of `process_frame` when it reaches the fusion decision: the component,
    the context, the pose noted at the start of the frame, the tracking state of the
    component's scene, and the calls made so far. -/
structure TrackedFrame (Pose : Type) where
  component : SLAMComponent
  context : SLAMContext Pose
  oldPose : Pose
  trackingState : ITMTrackingState Pose
  calls : List (Call Pose)

/-- The first part of `SLAMComponent::process_frame` on an available frame, from
    setting the input status to `IS_ACTIVE` up to and including the `switch` on the
    failure mode. -/
def track_frame {Pose : Type} (c : SLAMComponent) (ctx : SLAMContext Pose)
    (fi : FrameInput Pose) : TrackedFrame Pose :=
  let slamState := ctx.get_slam_state c.m_sceneID
  let ctx1 := ctx.set_slam_state c.m_sceneID
    { slamState with m_inputStatus := InputStatus.IS_ACTIVE }
  -- Get the next frame.
  let calls0 : List (Call Pose) :=
    [Call.getImages, Call.UpdateView (decide (c.m_trackingMode = TrackingMode.TRACK_SURFELS))]
  -- If there's an active input mask of the right size, apply it to the depth image.
  let calls1 := if fi.inputMaskApplies then calls0 ++ [Call.apply_mask] else calls0
  -- Make a note of the current pose in case tracking fails.
  let oldPose := (ctx1.get_slam_state c.m_sceneID).m_trackingState.pose_d
  -- Mirror the pose of another scene, or use our own tracker.
  let acquired := acquire_pose c ctx1 fi
  let calls2 := calls1 ++ acquired.2
  -- If there was an active input mask, restore the original depth image.
  let calls3 := if fi.inputMaskApplies then calls2 ++ [Call.restore_depth] else calls2
  -- Determine the tracking quality, taking into account the failure mode.
  let q := determine_tracking_quality c ctx1 acquired.1 fi
  { component := q.component, context := ctx1, oldPose := oldPose,
    trackingState := q.trackingState, calls := calls3 ++ q.calls }

/-- The branch of `process_frame` taken once `runFusion` is decided: fuse the frame
    and count it, or update the visible list when the tracking has not completely
    failed, or restore the pose noted at the start of the frame. Returns the
    component, the tracking state and the calls made. -/
def fuse_or_restore {Pose : Type} (t : TrackedFrame Pose) (fi : FrameInput Pose) :
    SLAMComponent × ITMTrackingState Pose × List (Call Pose) :=
  if runFusion t.component t.trackingState fi then
    -- Run the fusion process.
    let callsA : List (Call Pose) :=
      if t.component.m_mappingMode ≠ MappingMode.MAP_VOXELS_ONLY
      then [Call.ProcessFrame, Call.SurfelProcessFrame] else [Call.ProcessFrame]
    -- If a mapping client is active, send the current frame to the remote mapping server.
    let callsB : List (Call Pose) :=
      if t.context.m_mappingClients t.component.m_sceneID && fi.pushHandlerHasElt
      then callsA ++ [Call.push_frame_message
        (static_cast_int t.component.m_fusedFramesCount) t.trackingState.pose_d]
      else callsA
    ({ t.component with
        m_fusedFramesCount := (t.component.m_fusedFramesCount + 1) % SIZE_MODULUS },
     t.trackingState, callsB)
  else if t.trackingState.trackerResult ≠ TrackingResult.TRACKING_FAILED then
    -- Not fusing, but the tracking has not completely failed: update the visible list.
    (t.component, t.trackingState, [Call.UpdateVisibleList])
  else
    -- If the tracking has completely failed, restore the pose from the previous frame.
    (t.component, { t.trackingState with pose_d := t.oldPose }, [])

/-- The last part of `process_frame`: prepare for tracking the next frame, disable
    fusion when the current sub-engine of a composite image source has run out of
    images and global poses are not in use, and detect fiducials when there is a
    detector, the user wants to and the tracking is good. -/
def finish_frame {Pose : Type} (c2 : SLAMComponent) (ctx1 : SLAMContext Pose)
    (ts2 : ITMTrackingState Pose) (fi : FrameInput Pose) : SLAMComponent × List (Call Pose) :=
  -- Render from the live camera position to prepare for tracking in the next frame.
  let calls6 : List (Call Pose) := [Call.Prepare c2.m_trackingMode]
  let calls7 :=
    if c2.m_mappingMode ≠ MappingMode.MAP_VOXELS_ONLY
    then calls6 ++ [Call.FindSurfaceSuper ts2.pose_d] else calls6
  let c3 : SLAMComponent :=
    if fi.currentSubengineExhausted && !ctx1.settings.usingGlobalPoses
    then { c2 with m_fusionEnabled := false } else c2
  let calls8 :=
    if ctx1.m_fiducialDetectors c3.m_sceneID && c3.m_detectFiducials &&
       decide (ts2.trackerResult = TrackingResult.TRACKING_GOOD)
    then calls7 ++ [Call.detect_fiducials ts2.pose_d] else calls7
  (c3, calls8)

/-- The function `SLAMComponent::process_frame`. -/
def process_frame {Pose : Type} (c : SLAMComponent) (ctx : SLAMContext Pose)
    (fi : FrameInput Pose) : FrameOutcome Pose :=
  let slamState := ctx.get_slam_state c.m_sceneID
  if fi.hasImagesNow then
    let t := track_frame c ctx fi
    let step := fuse_or_restore t fi
    let fin := finish_frame step.1 t.context step.2.1 fi
    { component := fin.1,
      context := t.context.set_slam_state c.m_sceneID
        { (t.context.get_slam_state c.m_sceneID) with m_trackingState := step.2.1 },
      returned := true,
      calls := t.calls ++ step.2.2 ++ fin.2 }
  else
    let inputStatus :=
      if fi.hasMoreImages then InputStatus.IS_IDLE else InputStatus.IS_TERMINATED
    -- If finish training is enabled and no more images are expected, let the relocaliser know.
    let calls : List (Call Pose) :=
      if c.m_finishTrainingEnabled && decide (inputStatus = InputStatus.IS_TERMINATED) &&
         decide (slamState.m_inputStatus ≠ InputStatus.IS_TERMINATED)
      then [Call.finish_training] else []
    let ctx1 := ctx.set_slam_state c.m_sceneID { slamState with m_inputStatus := inputStatus }
    { component := c, context := ctx1, returned := false, calls := calls }

/-- The function `SLAMComponent::reset_scene`; `resetTrackingState` is the tracking
    state as the external `ITMTrackingState::Reset` leaves it. -/
def reset_scene {Pose : Type} (c : SLAMComponent) (ctx : SLAMContext Pose)
    (resetTrackingState : ITMTrackingState Pose) :
    SLAMComponent × SLAMContext Pose × List (Call Pose) :=
  let slamState := ctx.get_slam_state c.m_sceneID
  let calls : List (Call Pose) :=
    if c.m_mappingMode ≠ MappingMode.MAP_VOXELS_ONLY
    then [Call.ResetScene, Call.SurfelReset, Call.reset] else [Call.ResetScene, Call.reset]
  ({ c with m_relocaliserTrainingCount := 0, m_fusedFramesCount := 0, m_fusionEnabled := true },
   ctx.set_slam_state c.m_sceneID { slamState with m_trackingState := resetTrackingState },
   calls)

/-- The function `SLAMComponent::set_fusion_enabled`. -/
def set_fusion_enabled (c : SLAMComponent) (fusionEnabled : Bool) : SLAMComponent :=
  { c with m_fusionEnabled := fusionEnabled }

/-- The function `SLAMComponent::mirror_pose_of`. -/
def mirror_pose_of (c : SLAMComponent) (mirrorSceneID : String) : SLAMComponent :=
  { c with m_mirrorSceneID := mirrorSceneID }

/-- Successive calls of `process_frame`, one per frame input: the component and the
    context after the last call, and all the calls made, in order. -/
def process_frames {Pose : Type} (c : SLAMComponent) (ctx : SLAMContext Pose) :
    List (FrameInput Pose) → SLAMComponent × SLAMContext Pose × List (Call Pose)
  | [] => (c, ctx, [])
  | fi :: rest =>
    let r := process_frame c ctx fi
    let s := process_frames r.component r.context rest
    (s.1, s.2.1, r.calls ++ s.2.2)

/-! ## Vocabulary of the properties -/

/-- Whether the relocaliser was trained during a call of `process_frame`. -/
def FrameOutcome.trained {Pose : Type} (r : FrameOutcome Pose) : Bool :=
  r.calls.any Call.isTrain

/-- Whether a frame input gives a GOOD frame: a frame is available and the tracking
    quality on entry to the policy step (from the tracker, or GOOD when mirroring) is
    GOOD. -/
def isGoodFrame {Pose : Type} (c : SLAMComponent) (ctx : SLAMContext Pose)
    (fi : FrameInput Pose) : Bool :=
  fi.hasImagesNow &&
    decide ((acquire_pose c ctx fi).1.trackerResult = TrackingResult.TRACKING_GOOD)

/-- The members that are fixed at setup agree in two components: everything except
    the fused-frame count, the fusion-enabled flag and the training counter. -/
def sameConfig (c c1 : SLAMComponent) : Prop :=
  c1.m_detectFiducials = c.m_detectFiducials ∧
  c1.m_fallibleTracker = c.m_fallibleTracker ∧
  c1.m_finishTrainingEnabled = c.m_finishTrainingEnabled ∧
  c1.m_initialFramesToFuse = c.m_initialFramesToFuse ∧
  c1.m_mappingMode = c.m_mappingMode ∧
  c1.m_mirrorSceneID = c.m_mirrorSceneID ∧
  c1.m_relocaliseEveryFrame = c.m_relocaliseEveryFrame ∧
  c1.m_relocaliserTrainingSkip = c.m_relocaliserTrainingSkip ∧
  c1.m_sceneID = c.m_sceneID ∧
  c1.m_trackingMode = c.m_trackingMode

/-- Whether the image source is exhausted at a call of `process_frame`: it has no
    frame now and expects no more. -/
def FrameInput.exhausted {Pose : Type} (fi : FrameInput Pose) : Bool :=
  !fi.hasImagesNow && !fi.hasMoreImages

/-! ## Concrete data used to evaluate the operations -/

/-- A component for scene "World" with the constructor's defaults: 50 initial frames
    to fuse, no training skip, no mirroring, fusion enabled, no frames fused. -/
def exampleComponent : SLAMComponent :=
  { m_detectFiducials := false, m_fallibleTracker := false, m_finishTrainingEnabled := false,
    m_fusedFramesCount := 0, m_fusionEnabled := true, m_initialFramesToFuse := 50,
    m_mappingMode := MappingMode.MAP_VOXELS_ONLY, m_mirrorSceneID := "",
    m_relocaliseEveryFrame := false, m_relocaliserTrainingCount := 0,
    m_relocaliserTrainingSkip := 0, m_sceneID := "World",
    m_trackingMode := TrackingMode.TRACK_VOXELS }

/-- A context whose scenes all have pose 0, quality GOOD and an active input, with
    the given failure mode, no fiducial detectors and no mapping clients. -/
def exampleContext (mode : FailureMode) : SLAMContext Nat :=
  { m_slamStates := fun _ =>
      { m_inputStatus := InputStatus.IS_ACTIVE,
        m_trackingState := { pose_d := 0, trackerResult := TrackingResult.TRACKING_GOOD } },
    settings := { behaviourOnFailure := mode, usingGlobalPoses := false },
    m_fiducialDetectors := fun _ => false,
    m_mappingClients := fun _ => false }

/-- A frame input with a frame available, on which the tracker leaves pose 7 and the
    given quality and the relocaliser would return the given candidates. -/
def exampleFrame (quality : TrackingResult) (results : List (Result Nat)) : FrameInput Nat :=
  { hasImagesNow := true, hasMoreImages := true, inputMaskApplies := false,
    tracked := { pose_d := 7, trackerResult := quality },
    relocalisationResults := results, lost_tracking := false,
    pushHandlerHasElt := false, currentSubengineExhausted := false }

/-- A frame input with no frame available; `more` tells whether the image source
    expects more frames. -/
def exampleNoFrame (more : Bool) : FrameInput Nat :=
  { hasImagesNow := false, hasMoreImages := more, inputMaskApplies := false,
    tracked := { pose_d := 7, trackerResult := TrackingResult.TRACKING_GOOD },
    relocalisationResults := [], lost_tracking := false,
    pushHandlerHasElt := false, currentSubengineExhausted := false }

/-- A context with the given failure mode in which scene "World" has pose 0 and every
    other scene has pose 5 with quality POOR and an idle input. -/
def exampleMirrorContext (mode : FailureMode) : SLAMContext Nat :=
  { m_slamStates := fun sceneID =>
      if sceneID = "World" then
        { m_inputStatus := InputStatus.IS_ACTIVE,
          m_trackingState := { pose_d := 0, trackerResult := TrackingResult.TRACKING_GOOD } }
      else
        { m_inputStatus := InputStatus.IS_IDLE,
          m_trackingState := { pose_d := 5, trackerResult := TrackingResult.TRACKING_POOR } },
    settings := { behaviourOnFailure := mode, usingGlobalPoses := false },
    m_fiducialDetectors := fun _ => false,
    m_mappingClients := fun _ => false }

/-! ## Geometric consensus (`GeometryUtil`)

`GeometryUtil.cpp` (module orx). Poses are compared through helpers that are not
among the sources (`SE3Pose::GetParams`, `DualQuatd::from_rotation`,
`DualQuatd::angle_between_rotations`, vector subtraction and `length`); what they
compute is supplied in a `PoseOps`. The `double` and `float` values that are compared
are finite machine numbers, hence rationals, and the comparisons on them are exact.
A `std::map<std::string,SE3Pose>` is given by its entries in iteration order, which
is the ascending order of the keys.
-/

/-- The helpers that `poses_are_similar` calls, for a pose type `Pose`, the type
    `Vector3f` of parameter vectors and the type `DualQuatd` of dual quaternions. -/
structure PoseOps (Pose Vector3f DualQuatd : Type) where
  /-- The call pose.GetParams(t, r): the translation and the rotation parameters. -/
  GetParams : Pose → Vector3f × Vector3f
  /-- The function DualQuatd::from_rotation. -/
  from_rotation : Vector3f → DualQuatd
  /-- The function DualQuatd::angle_between_rotations. -/
  angle_between_rotations : DualQuatd → DualQuatd → ℚ
  /-- The subtraction t1 - t2 of two vectors. -/
  sub : Vector3f → Vector3f → Vector3f
  /-- The function length. -/
  length : Vector3f → ℚ

/-- The function `GeometryUtil::poses_are_similar`. -/
def GeometryUtil.poses_are_similar {Pose Vector3f DualQuatd : Type}
    (ops : PoseOps Pose Vector3f DualQuatd) (pose1 pose2 : Pose)
    (rotThreshold transThreshold : ℚ) : Bool :=
  let t1 := (ops.GetParams pose1).1
  let r1 := (ops.GetParams pose1).2
  let t2 := (ops.GetParams pose2).1
  let r2 := (ops.GetParams pose2).2
  let rot := ops.angle_between_rotations (ops.from_rotation r1) (ops.from_rotation r2)
  let trans := ops.length (ops.sub t1 t2)
  decide (rot ≤ rotThreshold) && decide (trans ≤ transThreshold)

/-- The inner loop of `find_best_hypothesis` (map overload): the inliers of the
    hypothesis `it`, that is the poses of the map, in iteration order, that are
    similar to it. -/
def GeometryUtil.inliers_of {Pose Vector3f DualQuatd : Type}
    (ops : PoseOps Pose Vector3f DualQuatd) (poseHypotheses : List (String × Pose))
    (it : String × Pose) (rotThreshold transThreshold : ℚ) : List Pose :=
  (poseHypotheses.filter (fun jt =>
    GeometryUtil.poses_are_similar ops it.2 jt.2 rotThreshold transThreshold)).map Prod.snd

/-- The function `GeometryUtil::find_best_hypothesis`, overload on a map from ids to
    poses. The result is the returned id together with the final contents of the
    in/out argument `inliersForBestHypothesis`, which the function does not clear. -/
def GeometryUtil.find_best_hypothesis {Pose Vector3f DualQuatd : Type}
    (ops : PoseOps Pose Vector3f DualQuatd) (poseHypotheses : List (String × Pose))
    (inliersForBestHypothesis : List Pose) (rotThreshold transThreshold : ℚ) :
    String × List Pose :=
  -- For each pose hypothesis:
  poseHypotheses.foldl
    (fun state it =>
      -- Calculate the inliers for the hypothesis.
      let inliers := GeometryUtil.inliers_of ops poseHypotheses it rotThreshold transThreshold
      -- Update the current best hypothesis as necessary.
      if inliers.length > state.2.length then (it.1, inliers) else state)
    ("", inliersForBestHypothesis)

/-- Insertion into a `std::map<std::string,V>` given by its entries in ascending key
    order; `std::string` keys are ordered lexicographically by their characters, and
    inserting a key that is already present changes nothing. -/
def map_insert {V : Type} (m : List (String × V)) (k : String) (v : V) : List (String × V) :=
  match m with
  | [] => [(k, v)]
  | e :: rest =>
    if k.data < e.1.data then (k, v) :: e :: rest
    else if e.1.data < k.data then e :: map_insert rest k v
    else e :: rest

/-- The map that the vector overload of `find_best_hypothesis` builds: hypothesis `i`
    is inserted under the key `boost::lexical_cast<std::string>(i)`, the decimal
    numeral of `i`. -/
def GeometryUtil.poseHypothesesMap {Pose : Type} (poseHypotheses : List Pose) :
    List (String × Pose) :=
  poseHypotheses.enum.foldl (fun m ip => map_insert m (toString ip.1) ip.2) []

/-- The function `GeometryUtil::find_best_hypothesis`, overload on a vector of poses.
    `lookup` is the helper `MapUtil::lookup` (tvgutil), which is not among the
    sources: it either returns a pose or raises an error. The result is what the
    function returns together with the final contents of `inliersForBestHypothesis`. -/
def GeometryUtil.find_best_hypothesis_vector {Pose Vector3f DualQuatd : Type}
    (ops : PoseOps Pose Vector3f DualQuatd)
    (lookup : List (String × Pose) → String → Except String Pose)
    (poseHypotheses : List Pose) (inliersForBestHypothesis : List Pose)
    (rotThreshold transThreshold : ℚ) : Except String Pose × List Pose :=
  let poseHypothesesMap := GeometryUtil.poseHypothesesMap poseHypotheses
  let r := GeometryUtil.find_best_hypothesis ops poseHypothesesMap inliersForBestHypothesis
    rotThreshold transThreshold
  (lookup poseHypothesesMap r.1, r.2)

/-- The number of hypotheses of the map that are similar to the pose `p`, `p` itself
    included when it is similar to itself. -/
def GeometryUtil.similarity_count {Pose Vector3f DualQuatd : Type}
    (ops : PoseOps Pose Vector3f DualQuatd) (poseHypotheses : List (String × Pose))
    (p : Pose) (rotThreshold transThreshold : ℚ) : Nat :=
  poseHypotheses.countP (fun jt =>
    GeometryUtil.poses_are_similar ops p jt.2 rotThreshold transThreshold)

/-- A pose that rotates by `angle` units about one fixed axis and translates by
    `offset` units along one fixed axis, both whole numbers of units. -/
structure AxisPose where
  angle : Int
  offset : Int
  deriving DecidableEq, Repr

/-- The helpers on axis poses: the angle between two rotations about the same axis is
    the absolute difference of their angles, and the distance between two
    translations along the same axis is the absolute difference of their offsets. -/
def axisPoseOps : PoseOps AxisPose Int Int :=
  { GetParams := fun p => (p.offset, p.angle),
    from_rotation := fun r => r,
    angle_between_rotations := fun q1 q2 => ((|q1 - q2| : Int) : ℚ),
    sub := fun t1 t2 => t1 - t2,
    length := fun t => ((|t| : Int) : ℚ) }

/-- A lookup in a map given by its entries that raises an error when the key is not
    present. -/
def lookupOrRaise {V : Type} (m : List (String × V)) (k : String) : Except String V :=
  match m.lookup k with
  | some v => Except.ok v
  | none => Except.error ("The map does not contain the specified key: " ++ k)

/-- Eleven hypotheses at rotation 0: hypothesis `i` has offset `100 * i`, except the
    last one (index 10), which lies at offset 201, next to hypothesis 2. -/
def elevenHypotheses : List AxisPose :=
  [⟨0, 0⟩, ⟨0, 100⟩, ⟨0, 200⟩, ⟨0, 300⟩, ⟨0, 400⟩, ⟨0, 500⟩, ⟨0, 600⟩, ⟨0, 700⟩, ⟨0, 800⟩,
   ⟨0, 900⟩, ⟨0, 201⟩]

/-! ## Forest evaluation (`ScoreForest_Shared.h`)

The kernel `evaluate_forest_shared` (module spaint). C arrays are lists, and reading
or writing outside an array, which is undefined behaviour, is the error
`outOfBounds`. The `int` indices are integers; `float` values are finite machine
numbers, hence rationals, and are only compared. The number of trees
`SCOREFOREST_NTREES` is a macro defined outside the sources and is a parameter. The
`while` loop of the kernel need not terminate on an arbitrary forest texture: the
model runs at most `fuel` iterations per tree and reports `outOfFuel` beyond.
-/

/-- A node of the forest texture, `ScoreForest::NodeEntry`: the index of the left
    child, the index of the leaf (negative for an internal node), the index of the
    feature to test and the threshold to test it against. -/
structure NodeEntry where
  leftChildIdx : Int
  leafIdx : Int
  featureIdx : Int
  featureThreshold : ℚ
  deriving DecidableEq, Repr

/-- A descriptor `RGBDPatchDescriptor`: its feature values `data`. -/
structure RGBDPatchDescriptor where
  data : List ℚ
  deriving DecidableEq, Repr

/-- How a run of the kernel can fail: an access outside an array, or a `while` loop
    still running after the allotted number of iterations. -/
inductive KernelError where
  | outOfBounds
  | outOfFuel
  deriving DecidableEq, Repr

/-- Reading element `i` of an array: `none` outside the array. -/
def readAt {α : Type} (a : List α) (i : Int) : Option α :=
  if 0 ≤ i then a[i.toNat]? else none

/-- The `while (!isLeaf)` loop of `evaluate_forest_shared` for the tree `treeIdx`,
    entered with the node `node`, running at most `fuel` iterations: the `leafIdx`
    of the node on which the loop exits. -/
def descend (NTREES : Nat) (forestTexture : List NodeEntry)
    (currentFeature : RGBDPatchDescriptor) (treeIdx : Nat) :
    Nat → NodeEntry → Except KernelError Int
  | 0, node =>
    if node.leafIdx ≥ 0 then Except.ok node.leafIdx else Except.error KernelError.outOfFuel
  | fuel + 1, node =>
    if node.leafIdx ≥ 0 then Except.ok node.leafIdx
    else
      -- Evaluate feature
      match readAt currentFeature.data node.featureIdx with
      | none => Except.error KernelError.outOfBounds
      | some value =>
        let currentNodeIdx : Int :=
          node.leftChildIdx + (if value > node.featureThreshold then 1 else 0)
        -- Update node
        match readAt forestTexture (currentNodeIdx * NTREES + treeIdx) with
        | none => Except.error KernelError.outOfBounds
        | some node1 => descend NTREES forestTexture currentFeature treeIdx fuel node1

/-- The body of the loop over the trees in `evaluate_forest_shared`, up to the write:
    the leaf index found for the tree `treeIdx`, starting from node 0 of that tree. -/
def evaluate_tree (NTREES : Nat) (fuel : Nat) (forestTexture : List NodeEntry)
    (currentFeature : RGBDPatchDescriptor) (treeIdx : Nat) : Except KernelError Int :=
  let currentNodeIdx : Int := 0
  match readAt forestTexture (currentNodeIdx * NTREES + treeIdx) with
  | none => Except.error KernelError.outOfBounds
  | some node => descend NTREES forestTexture currentFeature treeIdx fuel node

/-- The write `leafData[linear_feature_idx][treeIdx] = leafIdx`. -/
def writeLeaf (leafData : List (List Int)) (linear_feature_idx : Int) (treeIdx : Nat)
    (leafIdx : Int) : Option (List (List Int)) :=
  match readAt leafData linear_feature_idx with
  | none => none
  | some row =>
    if treeIdx < row.length
    then some (leafData.set linear_feature_idx.toNat (row.set treeIdx leafIdx))
    else none

/-- The loop over the trees in `evaluate_forest_shared`, for the trees listed. -/
def evaluate_trees (NTREES : Nat) (fuel : Nat) (forestTexture : List NodeEntry)
    (currentFeature : RGBDPatchDescriptor) (linear_feature_idx : Int) :
    List Nat → List (List Int) → Except KernelError (List (List Int))
  | [], leafData => Except.ok leafData
  | treeIdx :: rest, leafData =>
    match evaluate_tree NTREES fuel forestTexture currentFeature treeIdx with
    | Except.error e => Except.error e
    | Except.ok leafIdx =>
      match writeLeaf leafData linear_feature_idx treeIdx leafIdx with
      | none => Except.error KernelError.outOfBounds
      | some leafData1 =>
        evaluate_trees NTREES fuel forestTexture currentFeature linear_feature_idx rest leafData1

/-- The function `evaluate_forest_shared`: the contents of `leafData` after the call.
    `width` is `imgSize.width`. -/
def evaluate_forest_shared (NTREES : Nat) (fuel : Nat) (forestTexture : List NodeEntry)
    (descriptorsData : List RGBDPatchDescriptor) (width : Int) (leafData : List (List Int))
    (x y : Int) : Except KernelError (List (List Int)) :=
  let linear_feature_idx := y * width + x
  match readAt descriptorsData linear_feature_idx with
  | none => Except.error KernelError.outOfBounds
  | some currentFeature =>
    evaluate_trees NTREES fuel forestTexture currentFeature linear_feature_idx
      (List.range NTREES) leafData

/-- The descent in the words of the specification. `ReachesLeaf .. treeIdx i k leaf`:
    starting at node `i` of the tree `treeIdx` (read at index `i * NTREES + treeIdx`),
    moving, while the current node is not a leaf, to `leftChildIdx + 1` if the
    descriptor value at the node's `featureIdx` is strictly greater than the node's
    threshold and to `leftChildIdx` otherwise, the first leaf is reached after `k`
    moves and its `leafIdx` is `leaf`. -/
inductive ReachesLeaf (NTREES : Nat) (forestTexture : List NodeEntry)
    (currentFeature : RGBDPatchDescriptor) (treeIdx : Nat) : Int → Nat → Int → Prop where
  | leaf (i : Int) (node : NodeEntry) :
      readAt forestTexture (i * NTREES + treeIdx) = some node →
      node.leafIdx ≥ 0 →
      ReachesLeaf NTREES forestTexture currentFeature treeIdx i 0 node.leafIdx
  | move (i : Int) (node : NodeEntry) (value : ℚ) (k : Nat) (leaf : Int) :
      readAt forestTexture (i * NTREES + treeIdx) = some node →
      node.leafIdx < 0 →
      readAt currentFeature.data node.featureIdx = some value →
      ReachesLeaf NTREES forestTexture currentFeature treeIdx
        (if value > node.featureThreshold then node.leftChildIdx + 1 else node.leftChildIdx)
        k leaf →
      ReachesLeaf NTREES forestTexture currentFeature treeIdx i (k + 1) leaf

/-- The value recorded in `leafData` for the pixel with linear index `i` and the tree
    `treeIdx`, if there is such an entry. -/
def recordedLeaf (leafData : List (List Int)) (i : Int) (treeIdx : Nat) : Option Int :=
  (readAt leafData i).bind (fun row => row[treeIdx]?)

/-- A forest texture for two trees with three nodes each (node `i` of tree `t` at index
    `2 * i + t`): in each tree node 0 tests a feature and nodes 1 and 2 are leaves. -/
def exampleForest : List NodeEntry :=
  [⟨1, -1, 0, 5⟩, ⟨1, -1, 1, 2⟩,
   ⟨0, 10, 0, 0⟩, ⟨0, 20, 0, 0⟩,
   ⟨0, 11, 0, 0⟩, ⟨0, 21, 0, 0⟩]

/-- The descriptors of a 2 x 1 image: pixel (0,0) has features 7 and 1, pixel (1,0)
    has features 3 and 9. -/
def exampleDescriptors : List RGBDPatchDescriptor :=
  [⟨[7, 1]⟩, ⟨[3, 9]⟩]

/-! ## The forest kernel: merging the modes of the selected leaves

`get_prediction_for_leaf_shared` of `ScoreForest_Shared.h`. The types
`Prediction3DColour` and its `Mode`, and the constants `MAX_MODES` and
`SCOREFOREST_NTREES`, are declared outside the sources: the constants are parameters
and a mode is its inlier count together with the rest of its contents. The cursors
`treeModeIdx` and the count `nbModes` start at 0 and only grow by 1 up to `MAX_MODES`,
so their arithmetic does not wrap. -/

/-- A mode of a leaf prediction: the field `nbInliers` and the other fields. -/
structure Mode (Payload : Type) where
  nbInliers : Int
  payload : Payload
  deriving DecidableEq, Repr

/-- The type `Prediction3DColour`: the number of modes `nbModes` and the array `modes`
    (of `MAX_MODES` entries). -/
structure Prediction3DColour (Payload : Type) where
  nbModes : Int
  modes : List (Mode Payload)
  deriving DecidableEq, Repr

/-- How the model of `get_prediction_for_leaf_shared` can fail: an access outside the
    pixel arrays, the leaf predictions or the mode array of a leaf; a write outside
    the mode array of the output; the merge loop not finishing in the iterations
    allotted. -/
inductive MergeError where
  | outOfBounds
  | modeWriteOutOfBounds
  | outOfFuel
  deriving DecidableEq, Repr

/-- The loop of `get_prediction_for_leaf_shared` that sets `selectedPredictions`, for
    the trees listed: `selectedPredictions[treeIdx]` points to
    `leafPredictions[selectedLeaves[treeIdx]]`. -/
def select_predictions {Payload : Type} (leafPredictions : List (Prediction3DColour Payload))
    (selectedLeaves : List Int) : List Nat → Option (List (Prediction3DColour Payload))
  | [] => some []
  | treeIdx :: rest =>
    match selectedLeaves[treeIdx]? with
    | none => none
    | some leafIdx =>
      match readAt leafPredictions leafIdx with
      | none => none
      | some prediction =>
        match select_predictions leafPredictions selectedLeaves rest with
        | none => none
        | some predictions => some (prediction :: predictions)

/-- The inner loop of the merge ("find the tree with most inliers"), for the trees
    listed, entered with `best = (bestTreeIdx, bestTreeNbInliers)`. -/
def find_best_tree {Payload : Type} (selectedPredictions : List (Prediction3DColour Payload))
    (treeModeIdx : List Nat) : List Nat → Nat × Int → Except MergeError (Nat × Int)
  | [], best => Except.ok best
  | treeIdx :: rest, best =>
    match selectedPredictions[treeIdx]?, treeModeIdx[treeIdx]? with
    | some prediction, some modeIdx =>
      if prediction.nbModes > (modeIdx : Int) then
        match prediction.modes[modeIdx]? with
        | none => Except.error MergeError.outOfBounds
        | some mode =>
          if mode.nbInliers > best.2
          then find_best_tree selectedPredictions treeModeIdx rest (treeIdx, mode.nbInliers)
          else find_best_tree selectedPredictions treeModeIdx rest best
      else find_best_tree selectedPredictions treeModeIdx rest best
    | _, _ => Except.error MergeError.outOfBounds

/-- The loop `while (outPrediction.nbModes < MAX_MODES)` of
    `get_prediction_for_leaf_shared`, running at most `fuel` iterations: the cursors
    `treeModeIdx` and the output prediction on exit. -/
def merge_modes {Payload : Type} (MAX_MODES NTREES : Nat)
    (selectedPredictions : List (Prediction3DColour Payload)) :
    Nat → List Nat → Prediction3DColour Payload →
      Except MergeError (List Nat × Prediction3DColour Payload)
  | 0, treeModeIdx, outPrediction =>
    if outPrediction.nbModes < (MAX_MODES : Int) then Except.error MergeError.outOfFuel
    else Except.ok (treeModeIdx, outPrediction)
  | fuel + 1, treeModeIdx, outPrediction =>
    if outPrediction.nbModes < (MAX_MODES : Int) then
      -- Find the tree with most inliers
      match find_best_tree selectedPredictions treeModeIdx (List.range NTREES) (0, 0) with
      | Except.error e => Except.error e
      | Except.ok best =>
        if best.2 = 0 then
          -- No more modes
          Except.ok (treeModeIdx, outPrediction)
        else
          -- Copy its mode into the output array, increment its index
          match selectedPredictions[best.1]?, treeModeIdx[best.1]? with
          | some prediction, some modeIdx =>
            match prediction.modes[modeIdx]? with
            | none => Except.error MergeError.outOfBounds
            | some mode =>
              if 0 ≤ outPrediction.nbModes ∧
                  outPrediction.nbModes.toNat < outPrediction.modes.length then
                merge_modes MAX_MODES NTREES selectedPredictions fuel
                  (treeModeIdx.set best.1 (modeIdx + 1))
                  { nbModes := outPrediction.nbModes + 1,
                    modes := outPrediction.modes.set outPrediction.nbModes.toNat mode }
              else Except.error MergeError.modeWriteOutOfBounds
          | _, _ => Except.error MergeError.outOfBounds
    else Except.ok (treeModeIdx, outPrediction)

/-- The function `get_prediction_for_leaf_shared`: the contents of `outPredictions`
    after the call. `width` is `imgSize.width`. The merge loop is given `MAX_MODES`
    iterations, which it never exceeds. -/
def get_prediction_for_leaf_shared {Payload : Type} (MAX_MODES NTREES : Nat)
    (leafPredictions : List (Prediction3DColour Payload)) (leafIndices : List (List Int))
    (outPredictions : List (Prediction3DColour Payload)) (width x y : Int) :
    Except MergeError (List (Prediction3DColour Payload)) :=
  let linearIdx := y * width + x
  match readAt leafIndices linearIdx with
  | none => Except.error MergeError.outOfBounds
  | some selectedLeaves =>
    -- Setup the indices of the selected mode for each prediction
    let treeModeIdx : List Nat := List.replicate NTREES 0
    match select_predictions leafPredictions selectedLeaves (List.range NTREES) with
    | none => Except.error MergeError.outOfBounds
    | some selectedPredictions =>
      match readAt outPredictions linearIdx with
      | none => Except.error MergeError.outOfBounds
      | some outPrediction =>
        -- Merge first MAX_MODES from the sorted mode arrays
        match merge_modes MAX_MODES NTREES selectedPredictions MAX_MODES treeModeIdx
            { outPrediction with nbModes := 0 } with
        | Except.error e => Except.error e
        | Except.ok merged => Except.ok (outPredictions.set linearIdx.toNat merged.2)

/-- The modes of a prediction: the first `nbModes` entries of its mode array. -/
def validModes {Payload : Type} (p : Prediction3DColour Payload) : List (Mode Payload) :=
  p.modes.take p.nbModes.toNat

/-- The modes of the tree `treeIdx` that are still unemitted: those from the tree's
    cursor on. -/
def remainingModes {Payload : Type} (selectedPredictions : List (Prediction3DColour Payload))
    (treeModeIdx : List Nat) (treeIdx : Nat) : List (Mode Payload) :=
  match selectedPredictions[treeIdx]?, treeModeIdx[treeIdx]? with
  | some p, some c => (validModes p).drop c
  | _, _ => []

/-- The modes of all the trees that are still unemitted. -/
def allRemaining {Payload : Type} (NTREES : Nat)
    (selectedPredictions : List (Prediction3DColour Payload)) (treeModeIdx : List Nat) :
    List (Mode Payload) :=
  (List.range NTREES).flatMap (remainingModes selectedPredictions treeModeIdx)

/-- The mode at the cursor of the tree `treeIdx`, if the tree still has an unemitted
    mode. -/
def cursorMode {Payload : Type} (selectedPredictions : List (Prediction3DColour Payload))
    (treeModeIdx : List Nat) (treeIdx : Nat) : Option (Mode Payload) :=
  match selectedPredictions[treeIdx]?, treeModeIdx[treeIdx]? with
  | some p, some c => (validModes p)[c]?
  | _, _ => none

/-- The merge in the words of the specification.
    `MergeRun .. treeModeIdx out emitted treeModeIdx1 out1`: from the cursors
    `treeModeIdx` and the output `out`, the merge stops when `MAX_MODES` is reached or
    when no tree has a mode with a positive inlier count at its cursor; otherwise it
    picks the tree whose cursor mode has the largest inlier count (the lowest tree
    index on a tie), emits that mode at position `nbModes` of the output (a position
    of the output's mode array), advances
    that tree's cursor by one and goes on. `emitted` lists the trees picked and the
    modes emitted, in order; `treeModeIdx1` and `out1` are the cursors and the output
    at the end. -/
inductive MergeRun {Payload : Type} (MAX_MODES NTREES : Nat)
    (selectedPredictions : List (Prediction3DColour Payload)) :
    List Nat → Prediction3DColour Payload → List (Nat × Mode Payload) →
      List Nat → Prediction3DColour Payload → Prop where
  | full (treeModeIdx : List Nat) (out : Prediction3DColour Payload) :
      ¬ out.nbModes < (MAX_MODES : Int) →
      MergeRun MAX_MODES NTREES selectedPredictions treeModeIdx out [] treeModeIdx out
  | exhausted (treeModeIdx : List Nat) (out : Prediction3DColour Payload) :
      out.nbModes < (MAX_MODES : Int) →
      (∀ t, t < NTREES → ∀ m, cursorMode selectedPredictions treeModeIdx t = some m →
        m.nbInliers ≤ 0) →
      MergeRun MAX_MODES NTREES selectedPredictions treeModeIdx out [] treeModeIdx out
  | emit (treeModeIdx : List Nat) (out : Prediction3DColour Payload) (b c : Nat)
      (mode : Mode Payload) (emitted : List (Nat × Mode Payload))
      (treeModeIdx1 : List Nat) (out1 : Prediction3DColour Payload) :
      out.nbModes < (MAX_MODES : Int) →
      0 ≤ out.nbModes ∧ out.nbModes.toNat < out.modes.length →
      b < NTREES →
      treeModeIdx[b]? = some c →
      cursorMode selectedPredictions treeModeIdx b = some mode →
      0 < mode.nbInliers →
      (∀ t, t < NTREES → ∀ m, cursorMode selectedPredictions treeModeIdx t = some m →
        m.nbInliers ≤ mode.nbInliers) →
      (∀ t, t < b → ∀ m, cursorMode selectedPredictions treeModeIdx t = some m →
        m.nbInliers < mode.nbInliers) →
      MergeRun MAX_MODES NTREES selectedPredictions (treeModeIdx.set b (c + 1))
        { nbModes := out.nbModes + 1, modes := out.modes.set out.nbModes.toNat mode }
        emitted treeModeIdx1 out1 →
      MergeRun MAX_MODES NTREES selectedPredictions treeModeIdx out ((b, mode) :: emitted)
        treeModeIdx1 out1

/-- The predictions of the leaves selected for the pixel with linear index
    `linearIdx`, one per tree, as `get_prediction_for_leaf_shared` gathers them. -/
def selectedPredictionsAt {Payload : Type} (NTREES : Nat)
    (leafPredictions : List (Prediction3DColour Payload)) (leafIndices : List (List Int))
    (linearIdx : Int) : Option (List (Prediction3DColour Payload)) :=
  match readAt leafIndices linearIdx with
  | none => none
  | some selectedLeaves =>
    select_predictions leafPredictions selectedLeaves (List.range NTREES)

/-- A list of modes is in non-increasing order of inlier count: every mode has at
    least as many inliers as each mode after it. -/
def sortedByInliers {Payload : Type} (modes : List (Mode Payload)) : Prop :=
  modes.Pairwise (fun a b => a.nbInliers ≥ b.nbInliers)

/-- The inlier counts of a list of modes. -/
def inlierCounts {Payload : Type} (modes : List (Mode Payload)) : List Int :=
  modes.map Mode.nbInliers

/-- Leaf predictions for the examples: leaf 0 has the modes a (9 inliers), b (4) and
    c (1); leaf 1 has the modes d (7) and e (4); leaf 2 has no mode. Each mode array
    has three entries. -/
def exampleLeafPredictions : List (Prediction3DColour String) :=
  [⟨3, [⟨9, "a"⟩, ⟨4, "b"⟩, ⟨1, "c"⟩]⟩,
   ⟨2, [⟨7, "d"⟩, ⟨4, "e"⟩, ⟨0, ""⟩]⟩,
   ⟨0, [⟨0, ""⟩, ⟨0, ""⟩, ⟨0, ""⟩]⟩]

/-- An output array for the examples: one pixel, whose prediction holds three stale
    modes. -/
def exampleOutPredictions : List (Prediction3DColour String) :=
  [⟨3, [⟨5, "x"⟩, ⟨5, "y"⟩, ⟨5, "z"⟩]⟩]


/-! ## The tracker composition factory

`TrackerFactory.h` declares `make_simple_tracker` and `make_tracker`; their bodies
(`TrackerFactory.cpp`) are not among the sources. -/

/-- Modelled from the spec: a node of the hierarchical tracker configuration, which is
    missing from the sources together with the body of `make_tracker`: the value of
    its "type" field, its parameter string, its policy attribute and its nested
    elements, in order. -/
inductive ConfigNode where
  | node (trackerType : String) (trackerParams : String) (policy : String)
      (children : List ConfigNode)

/-- Modelled from the spec: the tracker tree that the factory builds, which is missing
    from the sources: a primitive tracker (name and parameter string) or a composite
    (policy and ordered children). -/
inductive Tracker where
  | primitive (name : String) (params : String)
  | composite (policy : String) (children : List Tracker)

/-- Modelled from the spec: whether the value of a "type" field is a recognised tracker
    type, the list of recognised types being missing from the sources: it is
    "composite", the type of the nodes that load another configuration document, or
    one of the primitive tracker names `primitiveTypes`. -/
def recognisedTrackerType (primitiveTypes : List String) (trackerType : String) : Prop :=
  trackerType = "composite" ∨ trackerType = "import" ∨ trackerType ∈ primitiveTypes

/-- Modelled from the spec: `TrackerFactory::make_simple_tracker`, whose body is missing
    from the sources. It makes a tracker that is not a composite: a node that loads
    another configuration document is expanded by `expand`, a primitive tracker is
    built from its name and parameter string, and an unknown type is a configuration
    error naming the offending value. -/
def make_simple_tracker (primitiveTypes : List String)
    (expand : String → Except String Tracker) (trackerType trackerParams : String) :
    Except String Tracker :=
  if trackerType = "import" then expand trackerParams
  else if trackerType ∈ primitiveTypes then
    Except.ok (Tracker.primitive trackerType trackerParams)
  else Except.error ("Unknown tracker type: " ++ trackerType)

/-- Modelled from the spec: the dispatch of `TrackerFactory::make_tracker` on the "type"
    field of a node, whose body is missing from the sources; `recurse` makes the
    tracker of a nested or loaded node and `load` loads a configuration document by
    name. -/
def make_tracker_node (primitiveTypes : List String) (load : String → Option ConfigNode)
    (recurse : ConfigNode → Except String Tracker) : ConfigNode → Except String Tracker
  | ConfigNode.node trackerType trackerParams policy children =>
    if trackerType = "composite" then
      match children.mapM recurse with
      | Except.error e => Except.error e
      | Except.ok trackers => Except.ok (Tracker.composite policy trackers)
    else
      make_simple_tracker primitiveTypes
        (fun name =>
          match load name with
          | none => Except.error ("Cannot load tracker configuration: " ++ name)
          | some tree => recurse tree)
        trackerType trackerParams

/-- Modelled from the spec: `TrackerFactory::make_tracker`, whose body is missing from
    the sources. The factory does not bound the recursion depth itself; here the
    nesting of composites and loaded documents is followed to the depth `fuel`. -/
def make_tracker (primitiveTypes : List String) (load : String → Option ConfigNode) :
    Nat → ConfigNode → Except String Tracker
  | 0, trackerTree =>
    make_tracker_node primitiveTypes load
      (fun _ => Except.error "The tracker configuration is nested too deeply") trackerTree
  | fuel + 1, trackerTree =>
    make_tracker_node primitiveTypes load (make_tracker primitiveTypes load fuel) trackerTree


/-! ## Auxiliary facts -/

section aux
variable {Pose : Type}

theorem acquire_pose_trackerResult (c : SLAMComponent) (ctx : SLAMContext Pose)
    (fi : FrameInput Pose) :
    (acquire_pose c ctx fi).1.trackerResult =
      if c.m_mirrorSceneID ≠ "" then TrackingResult.TRACKING_GOOD
      else fi.tracked.trackerResult := by
  unfold acquire_pose
  split <;> rfl

theorem process_relocalisation_calls (c : SLAMComponent) (ts : ITMTrackingState Pose)
    (rs : List (Result Pose)) :
    (process_relocalisation c ts rs).calls =
      (if (performTraining c ts.trackerResult).1 then [] else [Call.update]) ++
      (if (c.m_relocaliseEveryFrame ||
            decide (ts.trackerResult = TrackingResult.TRACKING_FAILED)) = true
        then [Call.relocalise] else []) ++
      (if (performTraining c ts.trackerResult).1 then [Call.train ts.pose_d] else []) := by
  unfold process_relocalisation
  simp only []
  split <;> split <;> simp

theorem determine_tracking_quality_calls_no_mapper (c : SLAMComponent) (ctx : SLAMContext Pose)
    (ts : ITMTrackingState Pose) (fi : FrameInput Pose) :
    (determine_tracking_quality c ctx ts fi).calls.all
      (fun x => !x.isProcessFrame && !x.isUpdateVisibleList) = true := by
  unfold determine_tracking_quality
  split
  · rw [process_relocalisation_calls]
    simp only [List.all_append]
    split <;> split <;> simp [Call.isProcessFrame, Call.isUpdateVisibleList]
  · rfl
  · rfl

theorem track_frame_calls_no_mapper (c : SLAMComponent) (ctx : SLAMContext Pose)
    (fi : FrameInput Pose) :
    (track_frame c ctx fi).calls.all
      (fun x => !x.isProcessFrame && !x.isUpdateVisibleList) = true := by
  unfold track_frame
  simp only [List.all_append, determine_tracking_quality_calls_no_mapper, Bool.and_true]
  unfold acquire_pose
  split <;> split <;> simp [Call.isProcessFrame, Call.isUpdateVisibleList]

theorem finish_frame_calls_no_mapper (c2 : SLAMComponent) (ctx1 : SLAMContext Pose)
    (ts2 : ITMTrackingState Pose) (fi : FrameInput Pose) :
    (finish_frame c2 ctx1 ts2 fi).2.all
      (fun x => !x.isProcessFrame && !x.isUpdateVisibleList) = true := by
  unfold finish_frame
  simp only []
  split_ifs <;> simp [Call.isProcessFrame, Call.isUpdateVisibleList]

theorem finish_frame_fusedFramesCount (c2 : SLAMComponent) (ctx1 : SLAMContext Pose)
    (ts2 : ITMTrackingState Pose) (fi : FrameInput Pose) :
    (finish_frame c2 ctx1 ts2 fi).1.m_fusedFramesCount = c2.m_fusedFramesCount := by
  unfold finish_frame
  simp only []
  split <;> rfl

theorem not_mem_of_all_no_mapper {l : List (Call Pose)}
    (h : l.all (fun x => !x.isProcessFrame && !x.isUpdateVisibleList) = true) :
    Call.ProcessFrame ∉ l ∧ Call.UpdateVisibleList ∉ l := by
  rw [List.all_eq_true] at h
  constructor
  · intro hm
    have := h _ hm
    simp [Call.isProcessFrame] at this
  · intro hm
    have := h _ hm
    simp [Call.isUpdateVisibleList] at this

theorem fuse_or_restore_ProcessFrame_mem (t : TrackedFrame Pose) (fi : FrameInput Pose) :
    Call.ProcessFrame ∈ (fuse_or_restore t fi).2.2 ↔
      runFusion t.component t.trackingState fi = true := by
  unfold fuse_or_restore
  split
  · simp only [*, iff_true]
    split <;> split <;> simp
  · split <;> simp [*]

theorem fuse_or_restore_UpdateVisibleList_mem (t : TrackedFrame Pose) (fi : FrameInput Pose) :
    Call.UpdateVisibleList ∈ (fuse_or_restore t fi).2.2 ↔
      runFusion t.component t.trackingState fi = false ∧
      t.trackingState.trackerResult ≠ TrackingResult.TRACKING_FAILED := by
  unfold fuse_or_restore
  split
  · simp only [*]
    split <;> split <;> simp
  · split <;> simp_all

theorem process_frame_ProcessFrame_mem (c : SLAMComponent) (ctx : SLAMContext Pose)
    (fi : FrameInput Pose) :
    Call.ProcessFrame ∈ (process_frame c ctx fi).calls ↔
      fi.hasImagesNow = true ∧
      runFusion (track_frame c ctx fi).component (track_frame c ctx fi).trackingState fi
        = true := by
  unfold process_frame
  split
  · simp only [List.mem_append, fuse_or_restore_ProcessFrame_mem,
      (not_mem_of_all_no_mapper (track_frame_calls_no_mapper c ctx fi)).1,
      (not_mem_of_all_no_mapper (finish_frame_calls_no_mapper _ _ _ fi)).1, *]
    simp
  · simp only [*]
    split <;> simp

theorem process_frame_UpdateVisibleList_mem (c : SLAMComponent) (ctx : SLAMContext Pose)
    (fi : FrameInput Pose) :
    Call.UpdateVisibleList ∈ (process_frame c ctx fi).calls ↔
      fi.hasImagesNow = true ∧
      runFusion (track_frame c ctx fi).component (track_frame c ctx fi).trackingState fi
        = false ∧
      (track_frame c ctx fi).trackingState.trackerResult ≠ TrackingResult.TRACKING_FAILED := by
  unfold process_frame
  split
  · simp only [List.mem_append, fuse_or_restore_UpdateVisibleList_mem,
      (not_mem_of_all_no_mapper (track_frame_calls_no_mapper c ctx fi)).2,
      (not_mem_of_all_no_mapper (finish_frame_calls_no_mapper _ _ _ fi)).2, *]
    simp
  · simp only [*]
    split <;> simp

theorem track_frame_component_fields (c : SLAMComponent) (ctx : SLAMContext Pose)
    (fi : FrameInput Pose) :
    (track_frame c ctx fi).component =
      { c with m_relocaliserTrainingCount :=
          (track_frame c ctx fi).component.m_relocaliserTrainingCount } := by
  unfold track_frame determine_tracking_quality
  simp only []
  split <;> rfl

theorem process_frame_fused (c : SLAMComponent) (ctx : SLAMContext Pose)
    (fi : FrameInput Pose) :
    (process_frame c ctx fi).fused = true ↔
      fi.hasImagesNow = true ∧
      runFusion (track_frame c ctx fi).component (track_frame c ctx fi).trackingState fi
        = true := by
  rw [← process_frame_ProcessFrame_mem]
  unfold FrameOutcome.fused
  rw [List.any_eq_true]
  constructor
  · rintro ⟨x, hx, hp⟩
    cases x <;> simp [Call.isProcessFrame] at hp
    exact hx
  · intro h
    exact ⟨_, h, rfl⟩

theorem process_frame_fusedFramesCount (c : SLAMComponent) (ctx : SLAMContext Pose)
    (fi : FrameInput Pose) :
    (process_frame c ctx fi).component.m_fusedFramesCount =
      if (process_frame c ctx fi).fused
      then (c.m_fusedFramesCount + 1) % SIZE_MODULUS
      else c.m_fusedFramesCount := by
  have hc : (track_frame c ctx fi).component.m_fusedFramesCount = c.m_fusedFramesCount := by
    rw [track_frame_component_fields]
  have hf := process_frame_fused c ctx fi
  by_cases hi : fi.hasImagesNow = true
  · by_cases hr : runFusion (track_frame c ctx fi).component
        (track_frame c ctx fi).trackingState fi = true
    · rw [hf.2 ⟨hi, hr⟩]
      simp only [process_frame, hi, if_true, finish_frame_fusedFramesCount, fuse_or_restore, hr,
        hc]
    · have hnf : (process_frame c ctx fi).fused = false := by
        rw [← Bool.not_eq_true]; intro h; exact hr (hf.1 h).2
      rw [hnf]
      simp only [process_frame, hi, if_true, finish_frame_fusedFramesCount, fuse_or_restore, hr]
      split_ifs <;> simp [hc]
  · have hnf : (process_frame c ctx fi).fused = false := by
      rw [← Bool.not_eq_true]; intro h; exact hi (hf.1 h).1
    rw [hnf]
    simp [process_frame, hi]


theorem track_frame_fusion_fields (c : SLAMComponent) (ctx : SLAMContext Pose)
    (fi : FrameInput Pose) :
    (track_frame c ctx fi).component.m_fusionEnabled = c.m_fusionEnabled ∧
    (track_frame c ctx fi).component.m_fusedFramesCount = c.m_fusedFramesCount ∧
    (track_frame c ctx fi).component.m_initialFramesToFuse = c.m_initialFramesToFuse ∧
    (track_frame c ctx fi).component.m_fallibleTracker = c.m_fallibleTracker := by
  rw [track_frame_component_fields]
  exact ⟨rfl, rfl, rfl, rfl⟩

theorem runFusion_eq_true_iff (c : SLAMComponent) (ts : ITMTrackingState Pose)
    (fi : FrameInput Pose) :
    runFusion c ts fi = true ↔
      c.m_fusionEnabled = true ∧
      ts.trackerResult ≠ TrackingResult.TRACKING_FAILED ∧
      (ts.trackerResult = TrackingResult.TRACKING_GOOD ∨
        (ts.trackerResult = TrackingResult.TRACKING_POOR ∧
          c.m_fusedFramesCount < c.m_initialFramesToFuse)) ∧
      ¬ (c.m_fallibleTracker = true ∧ fi.lost_tracking = true) := by
  unfold runFusion
  cases hq : ts.trackerResult <;> cases c.m_fallibleTracker <;> cases fi.lost_tracking <;>
    cases c.m_fusionEnabled <;> simp

theorem runFusion_congr (c c1 : SLAMComponent) (ts : ITMTrackingState Pose)
    (fi : FrameInput Pose)
    (h1 : c1.m_fusionEnabled = c.m_fusionEnabled)
    (h2 : c1.m_fusedFramesCount = c.m_fusedFramesCount)
    (h3 : c1.m_initialFramesToFuse = c.m_initialFramesToFuse)
    (h4 : c1.m_fallibleTracker = c.m_fallibleTracker) :
    runFusion c1 ts fi = runFusion c ts fi := by
  unfold runFusion
  rw [h1, h2, h3, h4]

theorem track_frame_runFusion (c : SLAMComponent) (ctx : SLAMContext Pose)
    (fi : FrameInput Pose) :
    runFusion (track_frame c ctx fi).component (track_frame c ctx fi).trackingState fi =
      runFusion c (track_frame c ctx fi).trackingState fi := by
  obtain ⟨h1, h2, h3, h4⟩ := track_frame_fusion_fields c ctx fi
  exact runFusion_congr _ _ _ _ h1 h2 h3 h4

theorem process_frame_final_trackingState (c : SLAMComponent) (ctx : SLAMContext Pose)
    (fi : FrameInput Pose) (h : fi.hasImagesNow = true) :
    ((process_frame c ctx fi).context.get_slam_state c.m_sceneID).m_trackingState =
      (fuse_or_restore (track_frame c ctx fi) fi).2.1 := by
  simp [process_frame, h, SLAMContext.get_slam_state, SLAMContext.set_slam_state]

theorem track_frame_oldPose (c : SLAMComponent) (ctx : SLAMContext Pose)
    (fi : FrameInput Pose) :
    (track_frame c ctx fi).oldPose = (ctx.get_slam_state c.m_sceneID).m_trackingState.pose_d := by
  simp [track_frame, SLAMContext.get_slam_state, SLAMContext.set_slam_state]

end aux

/-! ## The fusion gate of `process_frame` -/

/-- C1, as stated, fails: with fusion disabled by `set_fusion_enabled(false)`, a frame
    tracked GOOD under the IGNORE policy, with no fallible tracker, satisfies the
    stated condition on quality, grace threshold and lost tracking, and yet the
    frame is not fused. -/
theorem process_frame_fusion_disabled_not_fused :
    (exampleFrame TrackingResult.TRACKING_GOOD []).hasImagesNow = true ∧
    (process_frame (set_fusion_enabled exampleComponent false)
      (exampleContext FailureMode.FAILUREMODE_IGNORE)
      (exampleFrame TrackingResult.TRACKING_GOOD [])).fused = false ∧
    ((track_frame (set_fusion_enabled exampleComponent false)
        (exampleContext FailureMode.FAILUREMODE_IGNORE)
        (exampleFrame TrackingResult.TRACKING_GOOD [])).trackingState.trackerResult
        ≠ TrackingResult.TRACKING_FAILED ∧
     ((track_frame (set_fusion_enabled exampleComponent false)
        (exampleContext FailureMode.FAILUREMODE_IGNORE)
        (exampleFrame TrackingResult.TRACKING_GOOD [])).trackingState.trackerResult
        = TrackingResult.TRACKING_GOOD ∨
      ((track_frame (set_fusion_enabled exampleComponent false)
        (exampleContext FailureMode.FAILUREMODE_IGNORE)
        (exampleFrame TrackingResult.TRACKING_GOOD [])).trackingState.trackerResult
        = TrackingResult.TRACKING_POOR ∧
       (set_fusion_enabled exampleComponent false).m_fusedFramesCount <
         (set_fusion_enabled exampleComponent false).m_initialFramesToFuse)) ∧
     ¬ ((set_fusion_enabled exampleComponent false).m_fallibleTracker = true ∧
        (exampleFrame TrackingResult.TRACKING_GOOD []).lost_tracking = true)) := by
  decide

/-- C1, amended: on an available frame, `process_frame` runs fusion if and only if
    fusion is enabled (`m_fusionEnabled` at the start of the call), the tracking
    quality after the policy / relocalisation step is not FAILED, it is GOOD or it is
    POOR with the fused-frame count below `m_initialFramesToFuse`, and it is not the
    case that there is a fallible tracker that reports lost tracking. -/
theorem process_frame_fuses_iff {Pose : Type} (c : SLAMComponent) (ctx : SLAMContext Pose)
    (fi : FrameInput Pose) (h : fi.hasImagesNow = true) :
    (process_frame c ctx fi).fused = true ↔
      c.m_fusionEnabled = true ∧
      (track_frame c ctx fi).trackingState.trackerResult ≠ TrackingResult.TRACKING_FAILED ∧
      ((track_frame c ctx fi).trackingState.trackerResult = TrackingResult.TRACKING_GOOD ∨
        ((track_frame c ctx fi).trackingState.trackerResult = TrackingResult.TRACKING_POOR ∧
          c.m_fusedFramesCount < c.m_initialFramesToFuse)) ∧
      ¬ (c.m_fallibleTracker = true ∧ fi.lost_tracking = true) := by
  rw [process_frame_fused, track_frame_runFusion, runFusion_eq_true_iff]
  simp [h]

/-- Witness for C1 amended: a GOOD frame with fusion enabled. -/
theorem process_frame_fuses_iff_witness :
    (process_frame exampleComponent (exampleContext FailureMode.FAILUREMODE_IGNORE)
      (exampleFrame TrackingResult.TRACKING_GOOD [])).fused = true ↔
      exampleComponent.m_fusionEnabled = true ∧
      (track_frame exampleComponent (exampleContext FailureMode.FAILUREMODE_IGNORE)
        (exampleFrame TrackingResult.TRACKING_GOOD [])).trackingState.trackerResult
          ≠ TrackingResult.TRACKING_FAILED ∧
      ((track_frame exampleComponent (exampleContext FailureMode.FAILUREMODE_IGNORE)
        (exampleFrame TrackingResult.TRACKING_GOOD [])).trackingState.trackerResult
          = TrackingResult.TRACKING_GOOD ∨
        ((track_frame exampleComponent (exampleContext FailureMode.FAILUREMODE_IGNORE)
          (exampleFrame TrackingResult.TRACKING_GOOD [])).trackingState.trackerResult
            = TrackingResult.TRACKING_POOR ∧
          exampleComponent.m_fusedFramesCount < exampleComponent.m_initialFramesToFuse)) ∧
      ¬ (exampleComponent.m_fallibleTracker = true ∧
          (exampleFrame TrackingResult.TRACKING_GOOD []).lost_tracking = true) :=
  process_frame_fuses_iff exampleComponent (exampleContext FailureMode.FAILUREMODE_IGNORE)
    (exampleFrame TrackingResult.TRACKING_GOOD []) rfl

/-- C2: when the tracking quality at the fusion decision of `process_frame` is
    FAILED, the frame is not fused: the fusion engine is not invoked and the
    fused-frame counter keeps its value. -/
theorem process_frame_failed_never_fused {Pose : Type} (c : SLAMComponent)
    (ctx : SLAMContext Pose) (fi : FrameInput Pose)
    (hq : (track_frame c ctx fi).trackingState.trackerResult
            = TrackingResult.TRACKING_FAILED) :
    (process_frame c ctx fi).fused = false ∧
    Call.ProcessFrame ∉ (process_frame c ctx fi).calls ∧
    (process_frame c ctx fi).component.m_fusedFramesCount = c.m_fusedFramesCount := by
  have hr : runFusion (track_frame c ctx fi).component (track_frame c ctx fi).trackingState fi
      ≠ true := by
    rw [track_frame_runFusion]
    intro hh
    exact ((runFusion_eq_true_iff _ _ _).1 hh).2.1 hq
  have hnf : (process_frame c ctx fi).fused = false := by
    rw [← Bool.not_eq_true]; intro hf; exact hr ((process_frame_fused c ctx fi).1 hf).2
  refine ⟨hnf, ?_, ?_⟩
  · intro hm; exact hr ((process_frame_ProcessFrame_mem c ctx fi).1 hm).2
  · rw [process_frame_fusedFramesCount, hnf]; rfl

/-- Witness for C2: a FAILED frame under RELOCALISE with no relocalisation candidate. -/
theorem process_frame_failed_never_fused_witness :
    (process_frame exampleComponent (exampleContext FailureMode.FAILUREMODE_RELOCALISE)
      (exampleFrame TrackingResult.TRACKING_FAILED [])).fused = false ∧
    Call.ProcessFrame ∉
      (process_frame exampleComponent (exampleContext FailureMode.FAILUREMODE_RELOCALISE)
        (exampleFrame TrackingResult.TRACKING_FAILED [])).calls ∧
    (process_frame exampleComponent (exampleContext FailureMode.FAILUREMODE_RELOCALISE)
      (exampleFrame TrackingResult.TRACKING_FAILED [])).component.m_fusedFramesCount
      = exampleComponent.m_fusedFramesCount :=
  process_frame_failed_never_fused exampleComponent
    (exampleContext FailureMode.FAILUREMODE_RELOCALISE)
    (exampleFrame TrackingResult.TRACKING_FAILED []) (by decide)

/-- C3: the policy step of `process_frame`. Under STOP_INTEGRATION a quality of FAILED
    becomes POOR while GOOD and POOR are left unchanged; under IGNORE the quality
    becomes GOOD whatever the tracker reported. In both cases the pose is kept and no
    relocaliser call is made. -/
theorem determine_tracking_quality_policy {Pose : Type} (c : SLAMComponent)
    (ctx : SLAMContext Pose) (ts : ITMTrackingState Pose) (fi : FrameInput Pose) :
    (ctx.settings.behaviourOnFailure = FailureMode.FAILUREMODE_STOP_INTEGRATION →
      (ts.trackerResult = TrackingResult.TRACKING_FAILED →
        (determine_tracking_quality c ctx ts fi).trackingState.trackerResult
          = TrackingResult.TRACKING_POOR) ∧
      (ts.trackerResult ≠ TrackingResult.TRACKING_FAILED →
        (determine_tracking_quality c ctx ts fi).trackingState.trackerResult
          = ts.trackerResult) ∧
      (determine_tracking_quality c ctx ts fi).trackingState.pose_d = ts.pose_d ∧
      (determine_tracking_quality c ctx ts fi).calls = []) ∧
    (ctx.settings.behaviourOnFailure = FailureMode.FAILUREMODE_IGNORE →
      (determine_tracking_quality c ctx ts fi).trackingState.trackerResult
        = TrackingResult.TRACKING_GOOD ∧
      (determine_tracking_quality c ctx ts fi).trackingState.pose_d = ts.pose_d ∧
      (determine_tracking_quality c ctx ts fi).calls = []) := by
  constructor
  · intro hm
    unfold determine_tracking_quality
    rw [hm]
    refine ⟨?_, ?_, ?_, rfl⟩
    · intro hf; simp [hf]
    · intro hf; simp [hf]
    · simp only []; split <;> rfl
  · intro hm
    unfold determine_tracking_quality
    rw [hm]
    exact ⟨rfl, rfl, rfl⟩

/-- Witness for C3: a FAILED tracking state under STOP_INTEGRATION becomes POOR, and
    under IGNORE it becomes GOOD. -/
theorem determine_tracking_quality_policy_witness :
    (determine_tracking_quality exampleComponent
        (exampleContext FailureMode.FAILUREMODE_STOP_INTEGRATION)
        { pose_d := 7, trackerResult := TrackingResult.TRACKING_FAILED }
        (exampleFrame TrackingResult.TRACKING_FAILED [])).trackingState.trackerResult
      = TrackingResult.TRACKING_POOR ∧
    (determine_tracking_quality exampleComponent
        (exampleContext FailureMode.FAILUREMODE_IGNORE)
        { pose_d := 7, trackerResult := TrackingResult.TRACKING_FAILED }
        (exampleFrame TrackingResult.TRACKING_FAILED [])).trackingState.trackerResult
      = TrackingResult.TRACKING_GOOD :=
  ⟨((determine_tracking_quality_policy exampleComponent
      (exampleContext FailureMode.FAILUREMODE_STOP_INTEGRATION)
      { pose_d := 7, trackerResult := TrackingResult.TRACKING_FAILED }
      (exampleFrame TrackingResult.TRACKING_FAILED [])).1 rfl).1 rfl,
   ((determine_tracking_quality_policy exampleComponent
      (exampleContext FailureMode.FAILUREMODE_IGNORE)
      { pose_d := 7, trackerResult := TrackingResult.TRACKING_FAILED }
      (exampleFrame TrackingResult.TRACKING_FAILED [])).2 rfl).1⟩

/-- C4: whenever the tracking quality is FAILED at the fusion decision of an available
    frame, `process_frame` ends with the pose of the scene equal to the pose it held
    at the start of the call, and invokes neither fusion nor the visibility refresh. -/
theorem process_frame_failed_restores_pose {Pose : Type} (c : SLAMComponent)
    (ctx : SLAMContext Pose) (fi : FrameInput Pose) (h : fi.hasImagesNow = true)
    (hq : (track_frame c ctx fi).trackingState.trackerResult
            = TrackingResult.TRACKING_FAILED) :
    ((process_frame c ctx fi).context.get_slam_state c.m_sceneID).m_trackingState.pose_d
      = (ctx.get_slam_state c.m_sceneID).m_trackingState.pose_d ∧
    Call.ProcessFrame ∉ (process_frame c ctx fi).calls ∧
    Call.UpdateVisibleList ∉ (process_frame c ctx fi).calls := by
  have hr : runFusion (track_frame c ctx fi).component (track_frame c ctx fi).trackingState fi
      ≠ true := by
    rw [track_frame_runFusion]
    intro hh
    exact ((runFusion_eq_true_iff _ _ _).1 hh).2.1 hq
  refine ⟨?_, ?_, ?_⟩
  · rw [process_frame_final_trackingState c ctx fi h, ← track_frame_oldPose c ctx fi]
    unfold fuse_or_restore
    rw [if_neg hr, if_neg (by simp [hq])]
  · intro hm; exact hr ((process_frame_ProcessFrame_mem c ctx fi).1 hm).2
  · intro hm; exact ((process_frame_UpdateVisibleList_mem c ctx fi).1 hm).2.2 hq

/-- Witness for C4: a FAILED frame under RELOCALISE with no relocalisation candidate;
    the tracker had moved the pose to 7, the scene ends at its starting pose 0. -/
theorem process_frame_failed_restores_pose_witness :
    ((process_frame exampleComponent (exampleContext FailureMode.FAILUREMODE_RELOCALISE)
        (exampleFrame TrackingResult.TRACKING_FAILED [])).context.get_slam_state
          exampleComponent.m_sceneID).m_trackingState.pose_d
      = ((exampleContext FailureMode.FAILUREMODE_RELOCALISE).get_slam_state
          exampleComponent.m_sceneID).m_trackingState.pose_d ∧
    Call.ProcessFrame ∉
      (process_frame exampleComponent (exampleContext FailureMode.FAILUREMODE_RELOCALISE)
        (exampleFrame TrackingResult.TRACKING_FAILED [])).calls ∧
    Call.UpdateVisibleList ∉
      (process_frame exampleComponent (exampleContext FailureMode.FAILUREMODE_RELOCALISE)
        (exampleFrame TrackingResult.TRACKING_FAILED [])).calls :=
  process_frame_failed_restores_pose exampleComponent
    (exampleContext FailureMode.FAILUREMODE_RELOCALISE)
    (exampleFrame TrackingResult.TRACKING_FAILED []) rfl (by decide)

/-- C5: `process_frame` increments the fused-frame counter by one (in `size_t`
    arithmetic) when it fuses the frame and leaves it unchanged in every other
    case, whether the frame was processed without fusing or no frame was available;
    short of the largest `size_t` value the increment is exactly one. -/
theorem process_frame_counts_fused_frames {Pose : Type} (c : SLAMComponent)
    (ctx : SLAMContext Pose) (fi : FrameInput Pose) :
    ((process_frame c ctx fi).fused = true →
      (process_frame c ctx fi).component.m_fusedFramesCount
        = (c.m_fusedFramesCount + 1) % SIZE_MODULUS ∧
      (c.m_fusedFramesCount + 1 < SIZE_MODULUS →
        (process_frame c ctx fi).component.m_fusedFramesCount = c.m_fusedFramesCount + 1)) ∧
    ((process_frame c ctx fi).fused = false →
      (process_frame c ctx fi).component.m_fusedFramesCount = c.m_fusedFramesCount) ∧
    (fi.hasImagesNow = false →
      (process_frame c ctx fi).fused = false ∧
      (process_frame c ctx fi).component.m_fusedFramesCount = c.m_fusedFramesCount) := by
  have hcount := process_frame_fusedFramesCount c ctx fi
  refine ⟨?_, ?_, ?_⟩
  · intro hf
    rw [hf] at hcount
    refine ⟨hcount, fun hlt => ?_⟩
    rw [hcount]
    exact Nat.mod_eq_of_lt hlt
  · intro hf
    rw [hf] at hcount
    exact hcount
  · intro hi
    have hnf : (process_frame c ctx fi).fused = false := by
      rw [← Bool.not_eq_true]; intro hf
      have := ((process_frame_fused c ctx fi).1 hf).1
      rw [hi] at this; exact Bool.noConfusion this
    rw [hnf] at hcount
    exact ⟨hnf, hcount⟩

/-- Witness for C5: a GOOD frame under IGNORE is fused and the count goes from 0 to 1;
    a FAILED frame under RELOCALISE is not fused and the count stays 0. -/
theorem process_frame_counts_fused_frames_witness :
    (process_frame exampleComponent (exampleContext FailureMode.FAILUREMODE_IGNORE)
      (exampleFrame TrackingResult.TRACKING_GOOD [])).component.m_fusedFramesCount
      = exampleComponent.m_fusedFramesCount + 1 ∧
    (process_frame exampleComponent (exampleContext FailureMode.FAILUREMODE_RELOCALISE)
      (exampleFrame TrackingResult.TRACKING_FAILED [])).component.m_fusedFramesCount
      = exampleComponent.m_fusedFramesCount :=
  ⟨((process_frame_counts_fused_frames exampleComponent
      (exampleContext FailureMode.FAILUREMODE_IGNORE)
      (exampleFrame TrackingResult.TRACKING_GOOD [])).1 (by decide)).2 (by decide),
   (process_frame_counts_fused_frames exampleComponent
      (exampleContext FailureMode.FAILUREMODE_RELOCALISE)
      (exampleFrame TrackingResult.TRACKING_FAILED [])).2.1 (by decide)⟩

/-- C6: `process_frame` returns false if and only if the image source has no frame
    available now (whether idle or exhausted); when a frame is available it returns
    true. -/
theorem process_frame_returned {Pose : Type} (c : SLAMComponent) (ctx : SLAMContext Pose)
    (fi : FrameInput Pose) :
    ((process_frame c ctx fi).returned = false ↔ fi.hasImagesNow = false) ∧
    ((process_frame c ctx fi).returned = true ↔ fi.hasImagesNow = true) := by
  unfold process_frame
  cases h : fi.hasImagesNow <;> simp


section aux2
variable {Pose : Type}

theorem acquire_pose_set_inputStatus (c : SLAMComponent) (ctx : SLAMContext Pose)
    (fi : FrameInput Pose) (id : String) (st : InputStatus) :
    acquire_pose c
      (ctx.set_slam_state id { (ctx.get_slam_state id) with m_inputStatus := st }) fi =
    acquire_pose c ctx fi := by
  unfold acquire_pose SLAMContext.set_slam_state SLAMContext.get_slam_state SLAMState.get_pose
  split
  · simp only []
    split <;> simp_all
  · rfl

theorem determine_tracking_quality_set_slam_state (c : SLAMComponent) (ctx : SLAMContext Pose)
    (ts : ITMTrackingState Pose) (fi : FrameInput Pose) (id : String) (st : SLAMState Pose) :
    determine_tracking_quality c (ctx.set_slam_state id st) ts fi =
    determine_tracking_quality c ctx ts fi := by
  unfold determine_tracking_quality SLAMContext.set_slam_state
  rfl

theorem track_frame_quality (c : SLAMComponent) (ctx : SLAMContext Pose)
    (fi : FrameInput Pose) :
    (track_frame c ctx fi).trackingState =
      (determine_tracking_quality c ctx (acquire_pose c ctx fi).1 fi).trackingState ∧
    (track_frame c ctx fi).component =
      (determine_tracking_quality c ctx (acquire_pose c ctx fi).1 fi).component := by
  constructor <;>
    simp only [track_frame, acquire_pose_set_inputStatus,
      determine_tracking_quality_set_slam_state]

theorem track_frame_calls_countP (p : Call Pose → Bool)
    (h1 : p Call.getImages = false) (h2 : ∀ b, p (Call.UpdateView b) = false)
    (h3 : p Call.apply_mask = false) (h4 : p Call.restore_depth = false)
    (h5 : p Call.Track = false)
    (c : SLAMComponent) (ctx : SLAMContext Pose) (fi : FrameInput Pose) :
    (track_frame c ctx fi).calls.countP p =
      (determine_tracking_quality c ctx (acquire_pose c ctx fi).1 fi).calls.countP p := by
  unfold track_frame
  simp only [acquire_pose_set_inputStatus, determine_tracking_quality_set_slam_state,
    List.countP_append]
  unfold acquire_pose
  split_ifs <;> simp [h1, h2, h3, h4, h5]

theorem fuse_or_restore_calls_countP (p : Call Pose → Bool)
    (h1 : p Call.ProcessFrame = false) (h2 : p Call.SurfelProcessFrame = false)
    (h3 : ∀ i q, p (Call.push_frame_message i q) = false)
    (h4 : p Call.UpdateVisibleList = false)
    (t : TrackedFrame Pose) (fi : FrameInput Pose) :
    (fuse_or_restore t fi).2.2.countP p = 0 := by
  unfold fuse_or_restore
  simp only []
  split_ifs <;> simp [h1, h2, h3, h4]

theorem finish_frame_calls_countP (p : Call Pose → Bool)
    (h1 : ∀ m, p (Call.Prepare m) = false) (h2 : ∀ q, p (Call.FindSurfaceSuper q) = false)
    (h3 : ∀ q, p (Call.detect_fiducials q) = false)
    (c2 : SLAMComponent) (ctx1 : SLAMContext Pose) (ts2 : ITMTrackingState Pose)
    (fi : FrameInput Pose) :
    (finish_frame c2 ctx1 ts2 fi).2.countP p = 0 := by
  unfold finish_frame
  simp only []
  split_ifs <;> simp [h1, h2, h3]

theorem process_frame_countP_isRelocalise (c : SLAMComponent) (ctx : SLAMContext Pose)
    (fi : FrameInput Pose) (h : fi.hasImagesNow = true) :
    (process_frame c ctx fi).calls.countP Call.isRelocalise =
      (determine_tracking_quality c ctx (acquire_pose c ctx fi).1 fi).calls.countP
        Call.isRelocalise := by
  simp only [process_frame, h, if_true, List.countP_append]
  rw [track_frame_calls_countP _ rfl (fun _ => rfl) rfl rfl rfl,
    fuse_or_restore_calls_countP _ rfl rfl (fun _ _ => rfl) rfl,
    finish_frame_calls_countP _ (fun _ => rfl) (fun _ => rfl) (fun _ => rfl)]
  rfl

theorem process_frame_countP_isTrain (c : SLAMComponent) (ctx : SLAMContext Pose)
    (fi : FrameInput Pose) (h : fi.hasImagesNow = true) :
    (process_frame c ctx fi).calls.countP Call.isTrain =
      (determine_tracking_quality c ctx (acquire_pose c ctx fi).1 fi).calls.countP
        Call.isTrain := by
  simp only [process_frame, h, if_true, List.countP_append]
  rw [track_frame_calls_countP _ rfl (fun _ => rfl) rfl rfl rfl,
    fuse_or_restore_calls_countP _ rfl rfl (fun _ _ => rfl) rfl,
    finish_frame_calls_countP _ (fun _ => rfl) (fun _ => rfl) (fun _ => rfl)]
  rfl

theorem process_frame_countP_isUpdate (c : SLAMComponent) (ctx : SLAMContext Pose)
    (fi : FrameInput Pose) (h : fi.hasImagesNow = true) :
    (process_frame c ctx fi).calls.countP Call.isUpdate =
      (determine_tracking_quality c ctx (acquire_pose c ctx fi).1 fi).calls.countP
        Call.isUpdate := by
  simp only [process_frame, h, if_true, List.countP_append]
  rw [track_frame_calls_countP _ rfl (fun _ => rfl) rfl rfl rfl,
    fuse_or_restore_calls_countP _ rfl rfl (fun _ _ => rfl) rfl,
    finish_frame_calls_countP _ (fun _ => rfl) (fun _ => rfl) (fun _ => rfl)]
  rfl

theorem process_relocalisation_countP_isRelocalise (c : SLAMComponent)
    (ts : ITMTrackingState Pose) (rs : List (Result Pose)) :
    (process_relocalisation c ts rs).calls.countP Call.isRelocalise =
      if c.m_relocaliseEveryFrame = true ∨ ts.trackerResult = TrackingResult.TRACKING_FAILED
      then 1 else 0 := by
  rw [process_relocalisation_calls]
  simp only [List.countP_append]
  split_ifs <;> simp_all [Call.isRelocalise]

theorem process_relocalisation_countP_isTrain (c : SLAMComponent)
    (ts : ITMTrackingState Pose) (rs : List (Result Pose)) :
    (process_relocalisation c ts rs).calls.countP Call.isTrain =
      if (performTraining c ts.trackerResult).1 = true then 1 else 0 := by
  rw [process_relocalisation_calls]
  simp only [List.countP_append]
  split_ifs <;> simp_all [Call.isTrain]

theorem process_relocalisation_countP_isUpdate (c : SLAMComponent)
    (ts : ITMTrackingState Pose) (rs : List (Result Pose)) :
    (process_relocalisation c ts rs).calls.countP Call.isUpdate =
      if (performTraining c ts.trackerResult).1 = true then 0 else 1 := by
  rw [process_relocalisation_calls]
  simp only [List.countP_append]
  split_ifs <;> simp_all [Call.isUpdate]

theorem performTraining_fst (c : SLAMComponent) (q : TrackingResult) :
    (performTraining c q).1 = true ↔
      c.m_relocaliseEveryFrame = true ∨
      (q = TrackingResult.TRACKING_GOOD ∧
        (c.m_relocaliserTrainingSkip = 0 ∨
          c.m_relocaliserTrainingCount % c.m_relocaliserTrainingSkip = 0)) := by
  unfold performTraining
  split_ifs <;> simp_all

theorem performTraining_snd (c : SLAMComponent) (q : TrackingResult) :
    (performTraining c q).2 =
      if c.m_relocaliseEveryFrame = false ∧ q = TrackingResult.TRACKING_GOOD ∧
         c.m_relocaliserTrainingSkip ≠ 0
      then (c.m_relocaliserTrainingCount + 1) % SIZE_MODULUS
      else c.m_relocaliserTrainingCount := by
  unfold performTraining
  split_ifs <;> simp_all

end aux2


/-! ## The relocalisation scheduling protocol -/

/-- C7: under the RELOCALISE policy, on an available frame, the relocaliser's
    `relocalise` is called exactly once when relocalise-every-frame mode is active or
    the tracker's quality is FAILED, and not at all otherwise (quality GOOD or POOR
    without relocalise-every-frame mode). -/
theorem process_frame_relocalise_count {Pose : Type} (c : SLAMComponent)
    (ctx : SLAMContext Pose) (fi : FrameInput Pose)
    (hm : ctx.settings.behaviourOnFailure = FailureMode.FAILUREMODE_RELOCALISE)
    (h : fi.hasImagesNow = true) :
    (process_frame c ctx fi).calls.countP Call.isRelocalise =
      if c.m_relocaliseEveryFrame = true ∨
         (acquire_pose c ctx fi).1.trackerResult = TrackingResult.TRACKING_FAILED
      then 1 else 0 := by
  rw [process_frame_countP_isRelocalise c ctx fi h]
  unfold determine_tracking_quality
  rw [hm]
  exact process_relocalisation_countP_isRelocalise _ _ _

/-- Witness for C7: a FAILED frame under RELOCALISE. -/
theorem process_frame_relocalise_count_witness :
    (process_frame exampleComponent (exampleContext FailureMode.FAILUREMODE_RELOCALISE)
      (exampleFrame TrackingResult.TRACKING_FAILED [])).calls.countP Call.isRelocalise =
      if exampleComponent.m_relocaliseEveryFrame = true ∨
         (acquire_pose exampleComponent (exampleContext FailureMode.FAILUREMODE_RELOCALISE)
           (exampleFrame TrackingResult.TRACKING_FAILED [])).1.trackerResult
           = TrackingResult.TRACKING_FAILED
      then 1 else 0 :=
  process_frame_relocalise_count exampleComponent
    (exampleContext FailureMode.FAILUREMODE_RELOCALISE)
    (exampleFrame TrackingResult.TRACKING_FAILED []) rfl rfl

/-- C8: when `process_relocalisation` relocalises outside relocalise-every-frame mode
    (so the tracking has FAILED) and the relocaliser returns a non-empty candidate
    list, the pose becomes the first candidate's pose and the quality becomes GOOD
    if that candidate is labelled GOOD and POOR otherwise; when the list is empty,
    the pose and the quality are left exactly as the tracker produced them. -/
theorem process_relocalisation_adopts_best {Pose : Type} (c : SLAMComponent)
    (ts : ITMTrackingState Pose) (best : Result Pose) (others : List (Result Pose))
    (hr : c.m_relocaliseEveryFrame = false)
    (hf : ts.trackerResult = TrackingResult.TRACKING_FAILED) :
    (process_relocalisation c ts (best :: others)).calls.countP Call.isRelocalise = 1 ∧
    (process_relocalisation c ts (best :: others)).trackingState.pose_d = best.pose ∧
    (process_relocalisation c ts (best :: others)).trackingState.trackerResult =
      (if best.quality = Quality.RELOCALISATION_GOOD
       then TrackingResult.TRACKING_GOOD else TrackingResult.TRACKING_POOR) ∧
    (process_relocalisation c ts []).calls.countP Call.isRelocalise = 1 ∧
    (process_relocalisation c ts []).trackingState = ts := by
  refine ⟨?_, ?_, ?_, ?_, ?_⟩
  · rw [process_relocalisation_countP_isRelocalise]; simp [hf]
  · simp [process_relocalisation, hr, hf]
  · simp [process_relocalisation, hr, hf]
  · rw [process_relocalisation_countP_isRelocalise]; simp [hf]
  · simp [process_relocalisation, hr, hf]

/-- Witness for C8: a FAILED tracking state at pose 7 and a first candidate at pose 3
    labelled POOR. -/
theorem process_relocalisation_adopts_best_witness :
    (process_relocalisation exampleComponent
      { pose_d := 7, trackerResult := TrackingResult.TRACKING_FAILED }
      [{ pose := 3, quality := Quality.RELOCALISATION_POOR },
       { pose := 4, quality := Quality.RELOCALISATION_GOOD }]).trackingState
      = { pose_d := 3, trackerResult := TrackingResult.TRACKING_POOR } ∧
    (process_relocalisation exampleComponent
      { pose_d := 7, trackerResult := TrackingResult.TRACKING_FAILED }
      ([] : List (Result Nat))).trackingState
      = { pose_d := 7, trackerResult := TrackingResult.TRACKING_FAILED } :=
  have h := process_relocalisation_adopts_best exampleComponent
    { pose_d := 7, trackerResult := TrackingResult.TRACKING_FAILED }
    { pose := 3, quality := Quality.RELOCALISATION_POOR }
    [{ pose := 4, quality := Quality.RELOCALISATION_GOOD }] rfl rfl
  ⟨by rw [ITMTrackingState.mk.injEq]; exact ⟨h.2.1, h.2.2.1⟩, h.2.2.2.2⟩

/-- C10: in every invocation of `process_relocalisation` exactly one of the
    relocaliser's `train` and `update` is called, exactly once: `update` if and only
    if no training is performed in that frame, `train` otherwise. -/
theorem process_relocalisation_train_xor_update {Pose : Type} (c : SLAMComponent)
    (ts : ITMTrackingState Pose) (rs : List (Result Pose)) :
    (process_relocalisation c ts rs).calls.countP Call.isTrain +
      (process_relocalisation c ts rs).calls.countP Call.isUpdate = 1 ∧
    ((process_relocalisation c ts rs).calls.countP Call.isUpdate = 1 ↔
      (performTraining c ts.trackerResult).1 = false) ∧
    ((process_relocalisation c ts rs).calls.countP Call.isTrain = 1 ↔
      (performTraining c ts.trackerResult).1 = true) := by
  rw [process_relocalisation_countP_isTrain, process_relocalisation_countP_isUpdate]
  cases (performTraining c ts.trackerResult).1 <;> simp


section aux3
variable {Pose : Type}

theorem sameConfig_refl (c : SLAMComponent) : sameConfig c c :=
  ⟨rfl, rfl, rfl, rfl, rfl, rfl, rfl, rfl, rfl, rfl⟩

theorem sameConfig_trans {a b c : SLAMComponent} (h1 : sameConfig a b) (h2 : sameConfig b c) :
    sameConfig a c := by
  obtain ⟨a1, a2, a3, a4, a5, a6, a7, a8, a9, a10⟩ := h1
  obtain ⟨b1, b2, b3, b4, b5, b6, b7, b8, b9, b10⟩ := h2
  exact ⟨b1.trans a1, b2.trans a2, b3.trans a3, b4.trans a4, b5.trans a5, b6.trans a6,
    b7.trans a7, b8.trans a8, b9.trans a9, b10.trans a10⟩

theorem process_relocalisation_sameConfig (c : SLAMComponent) (ts : ITMTrackingState Pose)
    (rs : List (Result Pose)) : sameConfig c (process_relocalisation c ts rs).component :=
  ⟨rfl, rfl, rfl, rfl, rfl, rfl, rfl, rfl, rfl, rfl⟩

theorem determine_tracking_quality_sameConfig (c : SLAMComponent) (ctx : SLAMContext Pose)
    (ts : ITMTrackingState Pose) (fi : FrameInput Pose) :
    sameConfig c (determine_tracking_quality c ctx ts fi).component := by
  unfold determine_tracking_quality
  split
  · exact process_relocalisation_sameConfig _ _ _
  · exact sameConfig_refl c
  · exact sameConfig_refl c

theorem fuse_or_restore_sameConfig (t : TrackedFrame Pose) (fi : FrameInput Pose) :
    sameConfig t.component (fuse_or_restore t fi).1 := by
  unfold fuse_or_restore
  split_ifs <;> exact ⟨rfl, rfl, rfl, rfl, rfl, rfl, rfl, rfl, rfl, rfl⟩

theorem fuse_or_restore_trainingCount (t : TrackedFrame Pose) (fi : FrameInput Pose) :
    (fuse_or_restore t fi).1.m_relocaliserTrainingCount =
      t.component.m_relocaliserTrainingCount := by
  unfold fuse_or_restore
  split_ifs <;> rfl

theorem finish_frame_sameConfig (c2 : SLAMComponent) (ctx1 : SLAMContext Pose)
    (ts2 : ITMTrackingState Pose) (fi : FrameInput Pose) :
    sameConfig c2 (finish_frame c2 ctx1 ts2 fi).1 := by
  unfold finish_frame
  simp only []
  split_ifs <;> exact ⟨rfl, rfl, rfl, rfl, rfl, rfl, rfl, rfl, rfl, rfl⟩

theorem finish_frame_trainingCount (c2 : SLAMComponent) (ctx1 : SLAMContext Pose)
    (ts2 : ITMTrackingState Pose) (fi : FrameInput Pose) :
    (finish_frame c2 ctx1 ts2 fi).1.m_relocaliserTrainingCount =
      c2.m_relocaliserTrainingCount := by
  unfold finish_frame
  simp only []
  split_ifs <;> rfl

theorem process_frame_sameConfig (c : SLAMComponent) (ctx : SLAMContext Pose)
    (fi : FrameInput Pose) : sameConfig c (process_frame c ctx fi).component := by
  unfold process_frame
  split
  · have h1 : sameConfig c (track_frame c ctx fi).component := by
      rw [(track_frame_quality c ctx fi).2]
      exact determine_tracking_quality_sameConfig _ _ _ _
    have h2 := fuse_or_restore_sameConfig (track_frame c ctx fi) fi
    have h3 := finish_frame_sameConfig (fuse_or_restore (track_frame c ctx fi) fi).1
      (track_frame c ctx fi).context (fuse_or_restore (track_frame c ctx fi) fi).2.1 fi
    exact sameConfig_trans h1 (sameConfig_trans h2 h3)
  · exact sameConfig_refl c

theorem process_frame_settings (c : SLAMComponent) (ctx : SLAMContext Pose)
    (fi : FrameInput Pose) : (process_frame c ctx fi).context.settings = ctx.settings := by
  unfold process_frame
  split
  · simp [track_frame, SLAMContext.set_slam_state]
  · simp [SLAMContext.set_slam_state]

theorem process_frame_trainingCount (c : SLAMComponent) (ctx : SLAMContext Pose)
    (fi : FrameInput Pose) (h : fi.hasImagesNow = true) :
    (process_frame c ctx fi).component.m_relocaliserTrainingCount =
      (determine_tracking_quality c ctx
        (acquire_pose c ctx fi).1 fi).component.m_relocaliserTrainingCount := by
  simp only [process_frame, h, if_true, finish_frame_trainingCount,
    fuse_or_restore_trainingCount, (track_frame_quality c ctx fi).2]

theorem process_frame_trainingCount_of_no_frame (c : SLAMComponent) (ctx : SLAMContext Pose)
    (fi : FrameInput Pose) (h : fi.hasImagesNow = false) :
    (process_frame c ctx fi).component = c ∧ (process_frame c ctx fi).trained = false := by
  unfold FrameOutcome.trained
  simp only [process_frame, h]
  constructor
  · simp
  · simp only [Bool.false_eq_true, if_false]
    split_ifs <;> simp [Call.isTrain]

theorem any_isTrain_iff_countP (l : List (Call Pose)) :
    l.any Call.isTrain = true ↔ 0 < l.countP Call.isTrain := by
  rw [List.countP_pos_iff, List.any_eq_true]

theorem process_frame_trained_iff (c : SLAMComponent) (ctx : SLAMContext Pose)
    (fi : FrameInput Pose)
    (hm : ctx.settings.behaviourOnFailure = FailureMode.FAILUREMODE_RELOCALISE)
    (h : fi.hasImagesNow = true) :
    (process_frame c ctx fi).trained = true ↔
      (performTraining c (acquire_pose c ctx fi).1.trackerResult).1 = true := by
  unfold FrameOutcome.trained
  rw [any_isTrain_iff_countP, process_frame_countP_isTrain c ctx fi h]
  unfold determine_tracking_quality
  rw [hm]
  simp only [process_relocalisation_countP_isTrain]
  split_ifs <;> simp_all

theorem process_frame_trainingCount_relocalise (c : SLAMComponent) (ctx : SLAMContext Pose)
    (fi : FrameInput Pose)
    (hm : ctx.settings.behaviourOnFailure = FailureMode.FAILUREMODE_RELOCALISE)
    (h : fi.hasImagesNow = true) :
    (process_frame c ctx fi).component.m_relocaliserTrainingCount =
      (performTraining c (acquire_pose c ctx fi).1.trackerResult).2 := by
  rw [process_frame_trainingCount c ctx fi h]
  unfold determine_tracking_quality
  rw [hm]
  rfl

end aux3


section aux4
variable {Pose : Type}

theorem isGoodFrame_congr (c c1 : SLAMComponent) (ctx ctx1 : SLAMContext Pose)
    (h : c1.m_mirrorSceneID = c.m_mirrorSceneID) :
    isGoodFrame c1 ctx1 = isGoodFrame c ctx := by
  funext fi
  unfold isGoodFrame
  rw [acquire_pose_trackerResult, acquire_pose_trackerResult, h]

theorem process_frame_trainingCount_step (c : SLAMComponent) (ctx : SLAMContext Pose)
    (fi : FrameInput Pose)
    (hm : ctx.settings.behaviourOnFailure = FailureMode.FAILUREMODE_RELOCALISE)
    (hr : c.m_relocaliseEveryFrame = false) (hk : c.m_relocaliserTrainingSkip ≠ 0) :
    (process_frame c ctx fi).component.m_relocaliserTrainingCount =
      if isGoodFrame c ctx fi = true
      then (c.m_relocaliserTrainingCount + 1) % SIZE_MODULUS
      else c.m_relocaliserTrainingCount := by
  cases h : fi.hasImagesNow
  · rw [(process_frame_trainingCount_of_no_frame c ctx fi h).1]
    simp [isGoodFrame, h]
  · rw [process_frame_trainingCount_relocalise c ctx fi hm h, performTraining_snd]
    simp [isGoodFrame, h, hr, hk]

theorem process_frames_invariants (fis : List (FrameInput Pose)) :
    ∀ (c : SLAMComponent) (ctx : SLAMContext Pose),
      sameConfig c (process_frames c ctx fis).1 ∧
      (process_frames c ctx fis).2.1.settings = ctx.settings := by
  induction fis with
  | nil => intro c ctx; exact ⟨sameConfig_refl c, rfl⟩
  | cons fi rest ih =>
    intro c ctx
    obtain ⟨h1, h2⟩ := ih (process_frame c ctx fi).component (process_frame c ctx fi).context
    exact ⟨sameConfig_trans (process_frame_sameConfig c ctx fi) h1,
      h2.trans (process_frame_settings c ctx fi)⟩

theorem process_frames_trainingCount (fis : List (FrameInput Pose)) :
    ∀ (c : SLAMComponent) (ctx : SLAMContext Pose),
      ctx.settings.behaviourOnFailure = FailureMode.FAILUREMODE_RELOCALISE →
      c.m_relocaliseEveryFrame = false → c.m_relocaliserTrainingSkip ≠ 0 →
      c.m_relocaliserTrainingCount < SIZE_MODULUS →
      (process_frames c ctx fis).1.m_relocaliserTrainingCount =
        (c.m_relocaliserTrainingCount + fis.countP (isGoodFrame c ctx)) % SIZE_MODULUS := by
  induction fis with
  | nil =>
    intro c ctx _ _ _ hlt
    simp [process_frames, Nat.mod_eq_of_lt hlt]
  | cons fi rest ih =>
    intro c ctx hm hr hk hlt
    have hcfg := process_frame_sameConfig c ctx fi
    have hstep := process_frame_trainingCount_step c ctx fi hm hr hk
    have hpos : 0 < SIZE_MODULUS := by unfold SIZE_MODULUS; exact Nat.two_pow_pos 64
    have hlt1 : (process_frame c ctx fi).component.m_relocaliserTrainingCount
        < SIZE_MODULUS := by
      rw [hstep]
      split_ifs
      · exact Nat.mod_lt _ hpos
      · exact hlt
    have := ih (process_frame c ctx fi).component (process_frame c ctx fi).context
      ((congrArg Settings.behaviourOnFailure (process_frame_settings c ctx fi)).trans hm)
      (hcfg.2.2.2.2.2.2.1.trans hr) (by rw [hcfg.2.2.2.2.2.2.2.1]; exact hk) hlt1
    rw [isGoodFrame_congr c _ ctx _ hcfg.2.2.2.2.2.1] at this
    show (process_frames (process_frame c ctx fi).component (process_frame c ctx fi).context
      rest).1.m_relocaliserTrainingCount = _
    rw [this, hstep, List.countP_cons]
    split_ifs with hg
    · rw [Nat.mod_add_mod, Nat.add_assoc, Nat.add_comm 1]
    · rfl

end aux4

/-- C9: the training schedule under the RELOCALISE policy.
    (1) On an available frame the relocaliser is trained iff relocalise-every-frame
    mode is active, or the tracker's quality is GOOD and the skip stride is 0 or
    divides the per-GOOD-frame counter.
    (2) The counter advances by one (in `size_t` arithmetic; exactly one below the
    largest `size_t` value) on a GOOD frame on which it is consulted, that is with
    relocalise-every-frame off and a non-zero stride, and is unchanged on POOR and
    FAILED frames.
    (3) With stride k > 0 and relocalise-every-frame off, after any sequence of fewer
    than 2^64 `process_frame` calls following `reset_scene`, the next frame is
    trained iff it is a GOOD frame and the number of GOOD frames before it since the
    reset is divisible by k. -/
theorem process_frame_training_schedule {Pose : Type} (c : SLAMComponent)
    (ctx : SLAMContext Pose)
    (hm : ctx.settings.behaviourOnFailure = FailureMode.FAILUREMODE_RELOCALISE) :
    (∀ fi : FrameInput Pose, fi.hasImagesNow = true →
      ((process_frame c ctx fi).trained = true ↔
        c.m_relocaliseEveryFrame = true ∨
        ((acquire_pose c ctx fi).1.trackerResult = TrackingResult.TRACKING_GOOD ∧
          (c.m_relocaliserTrainingSkip = 0 ∨
            c.m_relocaliserTrainingCount % c.m_relocaliserTrainingSkip = 0)))) ∧
    (∀ fi : FrameInput Pose, fi.hasImagesNow = true →
      ((acquire_pose c ctx fi).1.trackerResult = TrackingResult.TRACKING_GOOD →
        c.m_relocaliseEveryFrame = false → c.m_relocaliserTrainingSkip ≠ 0 →
        (process_frame c ctx fi).component.m_relocaliserTrainingCount
          = (c.m_relocaliserTrainingCount + 1) % SIZE_MODULUS ∧
        (c.m_relocaliserTrainingCount + 1 < SIZE_MODULUS →
          (process_frame c ctx fi).component.m_relocaliserTrainingCount
            = c.m_relocaliserTrainingCount + 1)) ∧
      ((acquire_pose c ctx fi).1.trackerResult ≠ TrackingResult.TRACKING_GOOD →
        (process_frame c ctx fi).component.m_relocaliserTrainingCount
          = c.m_relocaliserTrainingCount)) ∧
    (∀ (resetTrackingState : ITMTrackingState Pose) (earlier : List (FrameInput Pose))
        (fi : FrameInput Pose),
      c.m_relocaliseEveryFrame = false → 0 < c.m_relocaliserTrainingSkip →
      earlier.length < SIZE_MODULUS →
      ((process_frame
          (process_frames (reset_scene c ctx resetTrackingState).1
            (reset_scene c ctx resetTrackingState).2.1 earlier).1
          (process_frames (reset_scene c ctx resetTrackingState).1
            (reset_scene c ctx resetTrackingState).2.1 earlier).2.1 fi).trained = true ↔
        isGoodFrame c ctx fi = true ∧
        earlier.countP (isGoodFrame c ctx) % c.m_relocaliserTrainingSkip = 0)) := by
  refine ⟨?_, ?_, ?_⟩
  · intro fi h
    rw [process_frame_trained_iff c ctx fi hm h, performTraining_fst]
  · intro fi h
    rw [process_frame_trainingCount_relocalise c ctx fi hm h, performTraining_snd]
    constructor
    · intro hg hr hk
      rw [if_pos ⟨hr, hg, hk⟩]
      exact ⟨rfl, fun hlt => Nat.mod_eq_of_lt hlt⟩
    · intro hg
      rw [if_neg (fun hh => hg hh.2.1)]
  · intro rts earlier fi hr hk hlen
    have hk0 : c.m_relocaliserTrainingSkip ≠ 0 := Nat.pos_iff_ne_zero.1 hk
    have hpos : 0 < SIZE_MODULUS := by unfold SIZE_MODULUS; exact Nat.two_pow_pos 64
    have hinv := process_frames_invariants earlier (reset_scene c ctx rts).1
      (reset_scene c ctx rts).2.1
    have hcnt := process_frames_trainingCount earlier (reset_scene c ctx rts).1
      (reset_scene c ctx rts).2.1 hm hr hk0 hpos
    rw [isGoodFrame_congr c (reset_scene c ctx rts).1 ctx (reset_scene c ctx rts).2.1 rfl]
      at hcnt
    have hsmall : earlier.countP (isGoodFrame c ctx) < SIZE_MODULUS :=
      Nat.lt_of_le_of_lt (List.countP_le_length _) hlen
    have hcnt1 : (process_frames (reset_scene c ctx rts).1 (reset_scene c ctx rts).2.1
        earlier).1.m_relocaliserTrainingCount = earlier.countP (isGoodFrame c ctx) := by
      rw [hcnt]
      show (0 + _) % _ = _
      rw [Nat.zero_add, Nat.mod_eq_of_lt hsmall]
    obtain ⟨hcfg, hset⟩ := hinv
    have hm1 : (process_frames (reset_scene c ctx rts).1 (reset_scene c ctx rts).2.1
        earlier).2.1.settings.behaviourOnFailure = FailureMode.FAILUREMODE_RELOCALISE := by
      rw [hset]; exact hm
    have hr1 := hcfg.2.2.2.2.2.2.1.trans (show (reset_scene c ctx rts).1.m_relocaliseEveryFrame
      = false from hr)
    have hs1 : (process_frames (reset_scene c ctx rts).1 (reset_scene c ctx rts).2.1
        earlier).1.m_relocaliserTrainingSkip = c.m_relocaliserTrainingSkip :=
      hcfg.2.2.2.2.2.2.2.1
    have hmir : (process_frames (reset_scene c ctx rts).1 (reset_scene c ctx rts).2.1
        earlier).1.m_mirrorSceneID = c.m_mirrorSceneID := hcfg.2.2.2.2.2.1
    cases h : fi.hasImagesNow
    · rw [(process_frame_trainingCount_of_no_frame _ _ fi h).2]
      simp [isGoodFrame, h]
    · have hq : (acquire_pose (process_frames (reset_scene c ctx rts).1
          (reset_scene c ctx rts).2.1 earlier).1 (process_frames (reset_scene c ctx rts).1
          (reset_scene c ctx rts).2.1 earlier).2.1 fi).1.trackerResult =
          (acquire_pose c ctx fi).1.trackerResult := by
        rw [acquire_pose_trackerResult, acquire_pose_trackerResult, hmir]
      have hgood : isGoodFrame c ctx fi = true ↔
          (acquire_pose c ctx fi).1.trackerResult = TrackingResult.TRACKING_GOOD := by
        simp [isGoodFrame, h]
      rw [process_frame_trained_iff _ _ fi hm1 h, performTraining_fst, hr1, hs1, hcnt1, hq,
        hgood]
      simp [hk0]

/-- Witness for C9: with stride 2 under RELOCALISE, after a reset and two GOOD frames
    the next GOOD frame is trained (its ordinal among GOOD frames is 2). -/
theorem process_frame_training_schedule_witness :
    (process_frame
      (process_frames
        (reset_scene { exampleComponent with m_relocaliserTrainingSkip := 2 }
          (exampleContext FailureMode.FAILUREMODE_RELOCALISE)
          { pose_d := 0, trackerResult := TrackingResult.TRACKING_GOOD }).1
        (reset_scene { exampleComponent with m_relocaliserTrainingSkip := 2 }
          (exampleContext FailureMode.FAILUREMODE_RELOCALISE)
          { pose_d := 0, trackerResult := TrackingResult.TRACKING_GOOD }).2.1
        [exampleFrame TrackingResult.TRACKING_GOOD [],
         exampleFrame TrackingResult.TRACKING_GOOD []]).1
      (process_frames
        (reset_scene { exampleComponent with m_relocaliserTrainingSkip := 2 }
          (exampleContext FailureMode.FAILUREMODE_RELOCALISE)
          { pose_d := 0, trackerResult := TrackingResult.TRACKING_GOOD }).1
        (reset_scene { exampleComponent with m_relocaliserTrainingSkip := 2 }
          (exampleContext FailureMode.FAILUREMODE_RELOCALISE)
          { pose_d := 0, trackerResult := TrackingResult.TRACKING_GOOD }).2.1
        [exampleFrame TrackingResult.TRACKING_GOOD [],
         exampleFrame TrackingResult.TRACKING_GOOD []]).2.1
      (exampleFrame TrackingResult.TRACKING_GOOD [])).trained = true :=
  ((process_frame_training_schedule { exampleComponent with m_relocaliserTrainingSkip := 2 }
      (exampleContext FailureMode.FAILUREMODE_RELOCALISE) rfl).2.2
    { pose_d := 0, trackerResult := TrackingResult.TRACKING_GOOD }
    [exampleFrame TrackingResult.TRACKING_GOOD [], exampleFrame TrackingResult.TRACKING_GOOD []]
    (exampleFrame TrackingResult.TRACKING_GOOD []) rfl (by decide) (by decide)).2
    ⟨by decide, by decide⟩


section aux5
variable {Pose : Type}

theorem track_frame_calls_filter (p : Call Pose → Bool)
    (h1 : p Call.getImages = false) (h2 : ∀ b, p (Call.UpdateView b) = false)
    (h3 : p Call.apply_mask = false) (h4 : p Call.restore_depth = false)
    (h5 : p Call.Track = false)
    (c : SLAMComponent) (ctx : SLAMContext Pose) (fi : FrameInput Pose) :
    (track_frame c ctx fi).calls.filter p =
      (determine_tracking_quality c ctx (acquire_pose c ctx fi).1 fi).calls.filter p := by
  unfold track_frame
  simp only [acquire_pose_set_inputStatus, determine_tracking_quality_set_slam_state,
    List.filter_append]
  unfold acquire_pose
  split_ifs <;> simp [h1, h2, h3, h4, h5]

theorem fuse_or_restore_calls_filter (p : Call Pose → Bool)
    (h1 : p Call.ProcessFrame = false) (h2 : p Call.SurfelProcessFrame = false)
    (h3 : ∀ i q, p (Call.push_frame_message i q) = false)
    (h4 : p Call.UpdateVisibleList = false)
    (t : TrackedFrame Pose) (fi : FrameInput Pose) :
    (fuse_or_restore t fi).2.2.filter p = [] := by
  unfold fuse_or_restore
  simp only []
  split_ifs <;> simp [h1, h2, h3, h4]

theorem finish_frame_calls_filter (p : Call Pose → Bool)
    (h1 : ∀ m, p (Call.Prepare m) = false) (h2 : ∀ q, p (Call.FindSurfaceSuper q) = false)
    (h3 : ∀ q, p (Call.detect_fiducials q) = false)
    (c2 : SLAMComponent) (ctx1 : SLAMContext Pose) (ts2 : ITMTrackingState Pose)
    (fi : FrameInput Pose) :
    (finish_frame c2 ctx1 ts2 fi).2.filter p = [] := by
  unfold finish_frame
  simp only []
  split_ifs <;> simp [h1, h2, h3]

theorem process_frame_filter_isTrain (c : SLAMComponent) (ctx : SLAMContext Pose)
    (fi : FrameInput Pose) (h : fi.hasImagesNow = true) :
    (process_frame c ctx fi).calls.filter Call.isTrain =
      (determine_tracking_quality c ctx (acquire_pose c ctx fi).1 fi).calls.filter
        Call.isTrain := by
  simp only [process_frame, h, if_true, List.filter_append]
  rw [track_frame_calls_filter _ rfl (fun _ => rfl) rfl rfl rfl,
    fuse_or_restore_calls_filter _ rfl rfl (fun _ _ => rfl) rfl,
    finish_frame_calls_filter _ (fun _ => rfl) (fun _ => rfl) (fun _ => rfl)]
  simp

theorem process_relocalisation_train_mem (c : SLAMComponent) (ts : ITMTrackingState Pose)
    (rs : List (Result Pose)) (p : Pose)
    (h : Call.train p ∈ (process_relocalisation c ts rs).calls) : p = ts.pose_d := by
  rw [process_relocalisation_calls] at h
  simp only [List.mem_append] at h
  rcases h with (h | h) | h
  · split_ifs at h <;> simp at h
  · split_ifs at h <;> simp at h
  · split_ifs at h <;> simp at h
    exact h

theorem determine_tracking_quality_train_mem (c : SLAMComponent) (ctx : SLAMContext Pose)
    (ts : ITMTrackingState Pose) (fi : FrameInput Pose) (p : Pose)
    (h : Call.train p ∈ (determine_tracking_quality c ctx ts fi).calls) : p = ts.pose_d := by
  unfold determine_tracking_quality at h
  split at h
  · exact process_relocalisation_train_mem _ _ _ _ h
  · simp at h
  · simp at h

theorem process_frame_calls_of_no_frame (c : SLAMComponent) (ctx : SLAMContext Pose)
    (fi : FrameInput Pose) (h : fi.hasImagesNow = false) :
    (process_frame c ctx fi).calls =
      if c.m_finishTrainingEnabled = true ∧ fi.hasMoreImages = false ∧
         (ctx.get_slam_state c.m_sceneID).m_inputStatus ≠ InputStatus.IS_TERMINATED
      then [Call.finish_training] else [] := by
  simp only [process_frame, h]
  cases fi.hasMoreImages <;> cases c.m_finishTrainingEnabled <;> simp

theorem process_frame_inputStatus_of_no_frame (c : SLAMComponent) (ctx : SLAMContext Pose)
    (fi : FrameInput Pose) (h : fi.hasImagesNow = false) :
    (process_frame c ctx fi).context =
      ctx.set_slam_state c.m_sceneID
        { (ctx.get_slam_state c.m_sceneID) with
          m_inputStatus :=
            if fi.hasMoreImages then InputStatus.IS_IDLE else InputStatus.IS_TERMINATED } := by
  simp only [process_frame, h]
  rfl

theorem determine_tracking_quality_calls_of_not_relocalise (c : SLAMComponent)
    (ctx : SLAMContext Pose) (ts : ITMTrackingState Pose) (fi : FrameInput Pose)
    (hm : ctx.settings.behaviourOnFailure ≠ FailureMode.FAILUREMODE_RELOCALISE) :
    (determine_tracking_quality c ctx ts fi).calls = [] := by
  unfold determine_tracking_quality
  split
  · rename_i heq; exact absurd heq hm
  · rfl
  · rfl

end aux5

/-- C11, as stated, fails: under RELOCALISE a GOOD frame is trained with pose 7, the
    pose the tracker produced in that frame, while the pose held at the start of the
    frame was 0. -/
theorem process_frame_trains_with_tracked_pose :
    (exampleFrame TrackingResult.TRACKING_GOOD []).hasImagesNow = true ∧
    ((exampleContext FailureMode.FAILUREMODE_RELOCALISE).get_slam_state
      exampleComponent.m_sceneID).m_trackingState.pose_d = 0 ∧
    (process_frame exampleComponent (exampleContext FailureMode.FAILUREMODE_RELOCALISE)
      (exampleFrame TrackingResult.TRACKING_GOOD [])).calls.filter Call.isTrain
      = [Call.train 7] := by
  decide

/-- C11, amended: whenever the relocaliser is trained in a frame, the pose passed to
    `train` is the pose held on entry to `process_relocalisation`, that is the pose
    the tracker (or mirroring) produced in that frame, not any pose adopted later in
    the same frame: it does not depend on the relocalisation candidates. -/
theorem process_frame_train_pose {Pose : Type} (c : SLAMComponent) (ctx : SLAMContext Pose)
    (fi : FrameInput Pose) (ts : ITMTrackingState Pose) (rs : List (Result Pose)) (p : Pose) :
    (Call.train p ∈ (process_relocalisation c ts rs).calls → p = ts.pose_d) ∧
    (Call.train p ∈ (process_frame c ctx fi).calls → p = (acquire_pose c ctx fi).1.pose_d) := by
  refine ⟨process_relocalisation_train_mem c ts rs p, fun h => ?_⟩
  cases hi : fi.hasImagesNow
  · rw [process_frame_calls_of_no_frame c ctx fi hi] at h
    split_ifs at h <;> simp at h
  · have hf : Call.train p ∈ (process_frame c ctx fi).calls.filter Call.isTrain :=
      List.mem_filter.2 ⟨h, rfl⟩
    rw [process_frame_filter_isTrain c ctx fi hi] at hf
    exact determine_tracking_quality_train_mem _ _ _ _ _ (List.mem_filter.1 hf).1

/-- Witness for C11 amended: a FAILED frame in relocalise-every-frame mode with a
    candidate at pose 3 is trained with the tracker's pose 7. -/
theorem process_frame_train_pose_witness :
    (7 : Nat) = (acquire_pose { exampleComponent with m_relocaliseEveryFrame := true }
      (exampleContext FailureMode.FAILUREMODE_RELOCALISE)
      (exampleFrame TrackingResult.TRACKING_FAILED
        [{ pose := 3, quality := Quality.RELOCALISATION_GOOD }])).1.pose_d :=
  (process_frame_train_pose { exampleComponent with m_relocaliseEveryFrame := true }
    (exampleContext FailureMode.FAILUREMODE_RELOCALISE)
    (exampleFrame TrackingResult.TRACKING_FAILED
      [{ pose := 3, quality := Quality.RELOCALISATION_GOOD }])
    { pose_d := 7, trackerResult := TrackingResult.TRACKING_FAILED } [] 7).2 (by decide)

/-- C12: in relocalise-every-frame mode, on return from `process_relocalisation` the
    pose equals the pose it had on entry and the tracking quality is GOOD, whatever
    the tracker reported and whatever candidates the relocaliser returned. -/
theorem process_relocalisation_every_frame_restores {Pose : Type} (c : SLAMComponent)
    (ts : ITMTrackingState Pose) (rs : List (Result Pose))
    (h : c.m_relocaliseEveryFrame = true) :
    (process_relocalisation c ts rs).trackingState.pose_d = ts.pose_d ∧
    (process_relocalisation c ts rs).trackingState.trackerResult
      = TrackingResult.TRACKING_GOOD := by
  unfold process_relocalisation
  -- the component keeps its mode, so the final restore branch is taken
  constructor
  · simp only [h, if_true]
  · simp only [h, if_true]

/-- Witness for C12: a FAILED tracking state at pose 7 and a candidate at pose 3. -/
theorem process_relocalisation_every_frame_restores_witness :
    (process_relocalisation { exampleComponent with m_relocaliseEveryFrame := true }
      { pose_d := 7, trackerResult := TrackingResult.TRACKING_FAILED }
      [{ pose := 3, quality := Quality.RELOCALISATION_POOR }]).trackingState.pose_d = 7 ∧
    (process_relocalisation { exampleComponent with m_relocaliseEveryFrame := true }
      { pose_d := 7, trackerResult := TrackingResult.TRACKING_FAILED }
      [{ pose := 3, quality := Quality.RELOCALISATION_POOR }]).trackingState.trackerResult
      = TrackingResult.TRACKING_GOOD :=
  process_relocalisation_every_frame_restores
    { exampleComponent with m_relocaliseEveryFrame := true }
    { pose_d := 7, trackerResult := TrackingResult.TRACKING_FAILED }
    [{ pose := 3, quality := Quality.RELOCALISATION_POOR }] rfl


section aux6
variable {Pose : Type}

theorem determine_tracking_quality_countP_isFinishTraining (c : SLAMComponent)
    (ctx : SLAMContext Pose) (ts : ITMTrackingState Pose) (fi : FrameInput Pose) :
    (determine_tracking_quality c ctx ts fi).calls.countP Call.isFinishTraining = 0 := by
  unfold determine_tracking_quality
  split
  · rw [process_relocalisation_calls]
    simp only [List.countP_append]
    split_ifs <;> simp [Call.isFinishTraining]
  · rfl
  · rfl

theorem process_frame_countP_isFinishTraining_of_frame (c : SLAMComponent)
    (ctx : SLAMContext Pose) (fi : FrameInput Pose) (h : fi.hasImagesNow = true) :
    (process_frame c ctx fi).calls.countP Call.isFinishTraining = 0 := by
  simp only [process_frame, h, if_true, List.countP_append]
  rw [track_frame_calls_countP _ rfl (fun _ => rfl) rfl rfl rfl,
    fuse_or_restore_calls_countP _ rfl rfl (fun _ _ => rfl) rfl,
    finish_frame_calls_countP _ (fun _ => rfl) (fun _ => rfl) (fun _ => rfl),
    determine_tracking_quality_countP_isFinishTraining]

theorem process_frame_countP_isFinishTraining (c : SLAMComponent)
    (ctx : SLAMContext Pose) (fi : FrameInput Pose) :
    (process_frame c ctx fi).calls.countP Call.isFinishTraining =
      if fi.exhausted = true ∧ c.m_finishTrainingEnabled = true ∧
         (ctx.get_slam_state c.m_sceneID).m_inputStatus ≠ InputStatus.IS_TERMINATED
      then 1 else 0 := by
  cases h : fi.hasImagesNow
  · rw [process_frame_calls_of_no_frame c ctx fi h]
    unfold FrameInput.exhausted
    rw [h]
    cases fi.hasMoreImages <;> cases c.m_finishTrainingEnabled <;>
      by_cases hs : (ctx.get_slam_state c.m_sceneID).m_inputStatus = InputStatus.IS_TERMINATED <;>
      simp [hs, Call.isFinishTraining]
  · rw [process_frame_countP_isFinishTraining_of_frame c ctx fi h]
    simp [FrameInput.exhausted, h]

theorem process_frame_inputStatus (c : SLAMComponent) (ctx : SLAMContext Pose)
    (fi : FrameInput Pose) :
    ((process_frame c ctx fi).context.get_slam_state c.m_sceneID).m_inputStatus =
      if fi.hasImagesNow = true then InputStatus.IS_ACTIVE
      else if fi.hasMoreImages = true then InputStatus.IS_IDLE
      else InputStatus.IS_TERMINATED := by
  cases h : fi.hasImagesNow
  · rw [process_frame_inputStatus_of_no_frame c ctx fi h]
    simp [SLAMContext.get_slam_state, SLAMContext.set_slam_state]
  · simp [process_frame, h, track_frame, SLAMContext.get_slam_state,
      SLAMContext.set_slam_state]

end aux6

/-! ## Input status, idle and exhausted input -/

/-- C13, as stated, fails: with finish-training disabled (the default of the
    `finishTrainingEnabled` setting), an exhausted source and an input status that
    was ACTIVE before the call, `process_frame` sets the status to TERMINATED and does
    not call `finish_training`. -/
theorem process_frame_exhausted_without_finish_training :
    (exampleNoFrame false).exhausted = true ∧
    ((exampleContext FailureMode.FAILUREMODE_RELOCALISE).get_slam_state
      exampleComponent.m_sceneID).m_inputStatus ≠ InputStatus.IS_TERMINATED ∧
    ((process_frame exampleComponent (exampleContext FailureMode.FAILUREMODE_RELOCALISE)
      (exampleNoFrame false)).context.get_slam_state exampleComponent.m_sceneID).m_inputStatus
      = InputStatus.IS_TERMINATED ∧
    (process_frame exampleComponent (exampleContext FailureMode.FAILUREMODE_RELOCALISE)
      (exampleNoFrame false)).calls = [] := by
  decide

/-- C13, amended: when `process_frame` finds the source exhausted (no frame now, no
    more expected) it sets the input status to TERMINATED, and it calls
    `finish_training`, once, in that call exactly when finish-training is enabled
    (`m_finishTrainingEnabled`) and the input status before the call was not already
    TERMINATED; otherwise it makes no call. -/
theorem process_frame_exhausted {Pose : Type} (c : SLAMComponent) (ctx : SLAMContext Pose)
    (fi : FrameInput Pose) (h : fi.exhausted = true) :
    ((process_frame c ctx fi).context.get_slam_state c.m_sceneID).m_inputStatus
      = InputStatus.IS_TERMINATED ∧
    (process_frame c ctx fi).calls =
      if c.m_finishTrainingEnabled = true ∧
         (ctx.get_slam_state c.m_sceneID).m_inputStatus ≠ InputStatus.IS_TERMINATED
      then [Call.finish_training] else [] := by
  unfold FrameInput.exhausted at h
  have h1 : fi.hasImagesNow = false := by cases hh : fi.hasImagesNow <;> simp_all
  have h2 : fi.hasMoreImages = false := by cases hh : fi.hasMoreImages <;> simp_all
  constructor
  · rw [process_frame_inputStatus, h1, h2]
    simp
  · rw [process_frame_calls_of_no_frame c ctx fi h1, h2]
    simp

/-- Witness for C13 amended: finish-training enabled and an ACTIVE status before the
    call give one `finish_training` call. -/
theorem process_frame_exhausted_witness :
    ((process_frame { exampleComponent with m_finishTrainingEnabled := true }
      (exampleContext FailureMode.FAILUREMODE_RELOCALISE)
      (exampleNoFrame false)).context.get_slam_state
        exampleComponent.m_sceneID).m_inputStatus = InputStatus.IS_TERMINATED ∧
    (process_frame { exampleComponent with m_finishTrainingEnabled := true }
      (exampleContext FailureMode.FAILUREMODE_RELOCALISE) (exampleNoFrame false)).calls =
      if ({ exampleComponent with m_finishTrainingEnabled := true } :
            SLAMComponent).m_finishTrainingEnabled = true ∧
         ((exampleContext FailureMode.FAILUREMODE_RELOCALISE).get_slam_state
            exampleComponent.m_sceneID).m_inputStatus ≠ InputStatus.IS_TERMINATED
      then [Call.finish_training] else [] :=
  process_frame_exhausted { exampleComponent with m_finishTrainingEnabled := true }
    (exampleContext FailureMode.FAILUREMODE_RELOCALISE) (exampleNoFrame false) rfl

/-- C15: when the image source has no frame now but expects more, `process_frame`
    reports IDLE, returns false, makes no call at all (so no tracker, relocaliser or
    fusion operation), leaves the component unchanged (fused-frame count,
    fusion-enabled flag, training counter) and leaves the tracking state of the scene
    (pose and quality) unchanged. -/
theorem process_frame_idle {Pose : Type} (c : SLAMComponent) (ctx : SLAMContext Pose)
    (fi : FrameInput Pose) (h1 : fi.hasImagesNow = false) (h2 : fi.hasMoreImages = true) :
    ((process_frame c ctx fi).context.get_slam_state c.m_sceneID).m_inputStatus
      = InputStatus.IS_IDLE ∧
    (process_frame c ctx fi).returned = false ∧
    (process_frame c ctx fi).calls = [] ∧
    (process_frame c ctx fi).component = c ∧
    ((process_frame c ctx fi).context.get_slam_state c.m_sceneID).m_trackingState
      = (ctx.get_slam_state c.m_sceneID).m_trackingState ∧
    (∀ sceneID, sceneID ≠ c.m_sceneID →
      (process_frame c ctx fi).context.get_slam_state sceneID = ctx.get_slam_state sceneID) := by
  refine ⟨?_, ?_, ?_, ?_, ?_, ?_⟩
  · rw [process_frame_inputStatus, h1, h2]; simp
  · simp [process_frame, h1]
  · rw [process_frame_calls_of_no_frame c ctx fi h1, h2]; simp
  · simp [process_frame, h1]
  · rw [process_frame_inputStatus_of_no_frame c ctx fi h1]
    simp [SLAMContext.get_slam_state, SLAMContext.set_slam_state]
  · intro sceneID hne
    rw [process_frame_inputStatus_of_no_frame c ctx fi h1]
    simp [SLAMContext.get_slam_state, SLAMContext.set_slam_state, hne]

/-- Witness for C15: an idle source on the example scene. -/
theorem process_frame_idle_witness :
    ((process_frame exampleComponent (exampleContext FailureMode.FAILUREMODE_RELOCALISE)
      (exampleNoFrame true)).context.get_slam_state exampleComponent.m_sceneID).m_inputStatus
      = InputStatus.IS_IDLE ∧
    (process_frame exampleComponent (exampleContext FailureMode.FAILUREMODE_RELOCALISE)
      (exampleNoFrame true)).returned = false ∧
    (process_frame exampleComponent (exampleContext FailureMode.FAILUREMODE_RELOCALISE)
      (exampleNoFrame true)).calls = [] ∧
    (process_frame exampleComponent (exampleContext FailureMode.FAILUREMODE_RELOCALISE)
      (exampleNoFrame true)).component = exampleComponent :=
  have h := process_frame_idle exampleComponent
    (exampleContext FailureMode.FAILUREMODE_RELOCALISE) (exampleNoFrame true) rfl rfl
  ⟨h.1, h.2.1, h.2.2.1, h.2.2.2.1⟩

/-- C18: under the STOP_INTEGRATION and IGNORE policies, `process_frame` on an
    available frame never calls `relocalise`, `train` or `update` on the relocaliser. -/
theorem process_frame_no_relocaliser_calls {Pose : Type} (c : SLAMComponent)
    (ctx : SLAMContext Pose) (fi : FrameInput Pose) (h : fi.hasImagesNow = true)
    (hm : ctx.settings.behaviourOnFailure = FailureMode.FAILUREMODE_STOP_INTEGRATION ∨
          ctx.settings.behaviourOnFailure = FailureMode.FAILUREMODE_IGNORE) :
    (process_frame c ctx fi).calls.countP Call.isRelocalise = 0 ∧
    (process_frame c ctx fi).calls.countP Call.isTrain = 0 ∧
    (process_frame c ctx fi).calls.countP Call.isUpdate = 0 := by
  have hne : ctx.settings.behaviourOnFailure ≠ FailureMode.FAILUREMODE_RELOCALISE := by
    rcases hm with hm | hm <;> rw [hm] <;> decide
  rw [process_frame_countP_isRelocalise c ctx fi h, process_frame_countP_isTrain c ctx fi h,
    process_frame_countP_isUpdate c ctx fi h,
    determine_tracking_quality_calls_of_not_relocalise c ctx _ fi hne]
  exact ⟨rfl, rfl, rfl⟩

/-- Witness for C18: a FAILED frame under STOP_INTEGRATION. -/
theorem process_frame_no_relocaliser_calls_witness :
    (process_frame exampleComponent (exampleContext FailureMode.FAILUREMODE_STOP_INTEGRATION)
      (exampleFrame TrackingResult.TRACKING_FAILED [])).calls.countP Call.isRelocalise = 0 ∧
    (process_frame exampleComponent (exampleContext FailureMode.FAILUREMODE_STOP_INTEGRATION)
      (exampleFrame TrackingResult.TRACKING_FAILED [])).calls.countP Call.isTrain = 0 ∧
    (process_frame exampleComponent (exampleContext FailureMode.FAILUREMODE_STOP_INTEGRATION)
      (exampleFrame TrackingResult.TRACKING_FAILED [])).calls.countP Call.isUpdate = 0 :=
  process_frame_no_relocaliser_calls exampleComponent
    (exampleContext FailureMode.FAILUREMODE_STOP_INTEGRATION)
    (exampleFrame TrackingResult.TRACKING_FAILED []) rfl (Or.inl rfl)

/-- C20: after `reset_scene` the fused-frame count is 0, the fusion-enabled flag is
    true and the relocaliser training counter is 0, whatever their previous values,
    while the failure policy, the mirror scene id and the training skip stride (like
    every other member fixed at setup) are unchanged. -/
theorem reset_scene_fusion_gate {Pose : Type} (c : SLAMComponent) (ctx : SLAMContext Pose)
    (resetTrackingState : ITMTrackingState Pose) :
    (reset_scene c ctx resetTrackingState).1.m_fusedFramesCount = 0 ∧
    (reset_scene c ctx resetTrackingState).1.m_fusionEnabled = true ∧
    (reset_scene c ctx resetTrackingState).1.m_relocaliserTrainingCount = 0 ∧
    (reset_scene c ctx resetTrackingState).2.1.settings.behaviourOnFailure
      = ctx.settings.behaviourOnFailure ∧
    (reset_scene c ctx resetTrackingState).1.m_mirrorSceneID = c.m_mirrorSceneID ∧
    (reset_scene c ctx resetTrackingState).1.m_relocaliserTrainingSkip
      = c.m_relocaliserTrainingSkip ∧
    sameConfig c (reset_scene c ctx resetTrackingState).1 :=
  ⟨rfl, rfl, rfl, rfl, rfl, rfl, rfl, rfl, rfl, rfl, rfl, rfl, rfl, rfl, rfl, rfl⟩


section aux7
variable {Pose : Type}

theorem process_frame_sceneID (c : SLAMComponent) (ctx : SLAMContext Pose)
    (fi : FrameInput Pose) : (process_frame c ctx fi).component.m_sceneID = c.m_sceneID :=
  (process_frame_sameConfig c ctx fi).2.2.2.2.2.2.2.2.1

theorem process_frames_cons (c : SLAMComponent) (ctx : SLAMContext Pose)
    (fi : FrameInput Pose) (rest : List (FrameInput Pose)) :
    process_frames c ctx (fi :: rest) =
      ((process_frames (process_frame c ctx fi).component
          (process_frame c ctx fi).context rest).1,
       (process_frames (process_frame c ctx fi).component
          (process_frame c ctx fi).context rest).2.1,
       (process_frame c ctx fi).calls ++
         (process_frames (process_frame c ctx fi).component
            (process_frame c ctx fi).context rest).2.2) := rfl

theorem process_frames_no_finish_training_once_terminated (fis : List (FrameInput Pose)) :
    ∀ (c : SLAMComponent) (ctx : SLAMContext Pose),
      (ctx.get_slam_state c.m_sceneID).m_inputStatus = InputStatus.IS_TERMINATED →
      (∀ fi ∈ fis, fi.exhausted = true) →
      (process_frames c ctx fis).2.2.countP Call.isFinishTraining = 0 := by
  induction fis with
  | nil => intro c ctx _ _; rfl
  | cons fi rest ih =>
    intro c ctx hs hall
    have hex : fi.exhausted = true := hall fi (List.mem_cons_self _ _)
    have hnow : fi.hasImagesNow = false := by
      unfold FrameInput.exhausted at hex
      cases hh : fi.hasImagesNow <;> simp_all
    have hmore : fi.hasMoreImages = false := by
      unfold FrameInput.exhausted at hex
      cases hh : fi.hasMoreImages <;> simp_all
    have hs1 : ((process_frame c ctx fi).context.get_slam_state
        (process_frame c ctx fi).component.m_sceneID).m_inputStatus
        = InputStatus.IS_TERMINATED := by
      rw [process_frame_sceneID, process_frame_inputStatus, hnow, hmore]
      simp
    rw [process_frames_cons, List.countP_append, process_frame_countP_isFinishTraining,
      ih _ _ hs1 (fun x hx => hall x (List.mem_cons_of_mem _ hx))]
    simp [hs]

end aux7

/-- C14, as stated, fails: with finish-training enabled, an image source that is
    exhausted, then offers a frame, then is exhausted again makes `process_frame`
    call `finish_training` twice over the three calls. -/
theorem process_frames_finish_training_twice :
    (process_frames { exampleComponent with m_finishTrainingEnabled := true }
      (exampleContext FailureMode.FAILUREMODE_RELOCALISE)
      [exampleNoFrame false, exampleFrame TrackingResult.TRACKING_GOOD [],
       exampleNoFrame false]).2.2.countP Call.isFinishTraining = 2 := by
  decide

/-- C14, amended: over any sequence of `process_frame` calls on one scene, for an
    image source that stays exhausted once it has been exhausted (no frame now, no
    more expected), the relocaliser's `finish_training` is invoked at most once. -/
theorem process_frames_finish_training_at_most_once {Pose : Type} (c : SLAMComponent)
    (ctx : SLAMContext Pose) (fis : List (FrameInput Pose))
    (h : fis.Pairwise (fun a b => a.exhausted = true → b.exhausted = true)) :
    (process_frames c ctx fis).2.2.countP Call.isFinishTraining ≤ 1 := by
  induction fis generalizing c ctx with
  | nil => exact Nat.zero_le 1
  | cons fi rest ih =>
    rw [List.pairwise_cons] at h
    obtain ⟨hhead, hrest⟩ := h
    rw [process_frames_cons, List.countP_append, process_frame_countP_isFinishTraining]
    cases hex : fi.exhausted
    · simp only [Bool.false_eq_true, false_and, if_false, Nat.zero_add]
      exact ih _ _ hrest
    · have hnow : fi.hasImagesNow = false := by
        unfold FrameInput.exhausted at hex
        cases hh : fi.hasImagesNow <;> simp_all
      have hmore : fi.hasMoreImages = false := by
        unfold FrameInput.exhausted at hex
        cases hh : fi.hasMoreImages <;> simp_all
      have hs1 : ((process_frame c ctx fi).context.get_slam_state
          (process_frame c ctx fi).component.m_sceneID).m_inputStatus
          = InputStatus.IS_TERMINATED := by
        rw [process_frame_sceneID, process_frame_inputStatus, hnow, hmore]
        simp
      rw [process_frames_no_finish_training_once_terminated rest _ _ hs1
        (fun x hx => hhead x hx hex)]
      split_ifs <;> simp

/-- Witness for C14 amended: a frame, an idle call, then two exhausted calls, with
    finish-training enabled. -/
theorem process_frames_finish_training_at_most_once_witness :
    (process_frames { exampleComponent with m_finishTrainingEnabled := true }
      (exampleContext FailureMode.FAILUREMODE_RELOCALISE)
      [exampleFrame TrackingResult.TRACKING_GOOD [], exampleNoFrame true,
       exampleNoFrame false, exampleNoFrame false]).2.2.countP Call.isFinishTraining ≤ 1 :=
  process_frames_finish_training_at_most_once
    { exampleComponent with m_finishTrainingEnabled := true }
    (exampleContext FailureMode.FAILUREMODE_RELOCALISE)
    [exampleFrame TrackingResult.TRACKING_GOOD [], exampleNoFrame true,
     exampleNoFrame false, exampleNoFrame false] (by decide)


section aux8
variable {Pose : Type}

theorem countP_isProcessFrame_of_not_fused (r : FrameOutcome Pose) (h : r.fused = false) :
    r.calls.countP Call.isProcessFrame = 0 := by
  unfold FrameOutcome.fused at h
  rw [List.countP_eq_zero]
  intro a ha hp
  have := List.any_eq_true.2 ⟨a, ha, hp⟩
  rw [h] at this
  exact Bool.noConfusion this

theorem process_frame_not_fused_of_failed (c : SLAMComponent) (ctx : SLAMContext Pose)
    (fi : FrameInput Pose)
    (hq : fi.hasImagesNow = true →
      (track_frame c ctx fi).trackingState.trackerResult = TrackingResult.TRACKING_FAILED) :
    (process_frame c ctx fi).fused = false := by
  rw [← Bool.not_eq_true]
  intro hf
  obtain ⟨hi, hr⟩ := (process_frame_fused c ctx fi).1 hf
  rw [track_frame_runFusion] at hr
  exact ((runFusion_eq_true_iff _ _ _).1 hr).2.1 (hq hi)

theorem track_frame_failed_of_no_candidate (c : SLAMComponent) (ctx : SLAMContext Pose)
    (fi : FrameInput Pose)
    (hm : ctx.settings.behaviourOnFailure = FailureMode.FAILUREMODE_RELOCALISE)
    (hr : c.m_relocaliseEveryFrame = false)
    (hq : (acquire_pose c ctx fi).1.trackerResult = TrackingResult.TRACKING_FAILED)
    (hn : fi.relocalisationResults = []) :
    (track_frame c ctx fi).trackingState.trackerResult = TrackingResult.TRACKING_FAILED := by
  rw [(track_frame_quality c ctx fi).1]
  unfold determine_tracking_quality
  rw [hm]
  simp [process_relocalisation, hr, hq, hn]

theorem process_frame_fusionEnabled (c : SLAMComponent) (ctx : SLAMContext Pose)
    (fi : FrameInput Pose) :
    (process_frame c ctx fi).component.m_fusionEnabled =
      if fi.hasImagesNow = true ∧ fi.currentSubengineExhausted = true ∧
         ctx.settings.usingGlobalPoses = false
      then false else c.m_fusionEnabled := by
  have h1 := (track_frame_fusion_fields c ctx fi).1
  have h2 : (fuse_or_restore (track_frame c ctx fi) fi).1.m_fusionEnabled =
      (track_frame c ctx fi).component.m_fusionEnabled := by
    unfold fuse_or_restore
    split_ifs <;> rfl
  have h3 : (track_frame c ctx fi).context.settings = ctx.settings := by
    simp [track_frame, SLAMContext.set_slam_state]
  cases hi : fi.hasImagesNow
  · simp [process_frame, hi]
  · simp only [process_frame, hi, if_true, finish_frame, h3]
    cases fi.currentSubengineExhausted <;> cases ctx.settings.usingGlobalPoses <;>
      simp [h1, h2]

theorem process_frame_fused_of_ignore (c : SLAMComponent) (ctx : SLAMContext Pose)
    (fi : FrameInput Pose)
    (hm : ctx.settings.behaviourOnFailure = FailureMode.FAILUREMODE_IGNORE)
    (h : fi.hasImagesNow = true) :
    (process_frame c ctx fi).fused = true ↔
      c.m_fusionEnabled = true ∧ ¬ (c.m_fallibleTracker = true ∧ fi.lost_tracking = true) := by
  have hq : (track_frame c ctx fi).trackingState.trackerResult
      = TrackingResult.TRACKING_GOOD := by
    rw [(track_frame_quality c ctx fi).1]
    unfold determine_tracking_quality
    rw [hm]
  rw [process_frame_fused, track_frame_runFusion, runFusion_eq_true_iff, hq]
  simp [h]

end aux8

/-! ## Streams of frames -/

/-- C16, as stated, fails: under RELOCALISE two consecutive frames that the tracker
    reports as FAILED are both fused when the relocaliser returns a candidate (the
    quality becomes that of the candidate), and also in relocalise-every-frame mode
    (the quality is forced to GOOD). -/
theorem process_frames_failed_frames_fused :
    (process_frames exampleComponent (exampleContext FailureMode.FAILUREMODE_RELOCALISE)
      [exampleFrame TrackingResult.TRACKING_FAILED
         [{ pose := 3, quality := Quality.RELOCALISATION_GOOD }],
       exampleFrame TrackingResult.TRACKING_FAILED
         [{ pose := 3, quality := Quality.RELOCALISATION_GOOD }]]).1.m_fusedFramesCount
      = exampleComponent.m_fusedFramesCount + 2 ∧
    (process_frames { exampleComponent with m_relocaliseEveryFrame := true }
      (exampleContext FailureMode.FAILUREMODE_RELOCALISE)
      [exampleFrame TrackingResult.TRACKING_FAILED [],
       exampleFrame TrackingResult.TRACKING_FAILED []]).1.m_fusedFramesCount
      = exampleComponent.m_fusedFramesCount + 2 := by
  decide

/-- C16, amended: under the RELOCALISE policy, outside relocalise-every-frame mode, in
    a stream of `process_frame` calls whose frames the tracker reports as FAILED and
    for which the relocaliser returns no candidate, none of the frames is fused: the
    fusion engine is never invoked and the fused-frame count does not change. -/
theorem process_frames_failed_unrecovered_not_fused {Pose : Type} (c : SLAMComponent)
    (ctx : SLAMContext Pose) (fis : List (FrameInput Pose))
    (hm : ctx.settings.behaviourOnFailure = FailureMode.FAILUREMODE_RELOCALISE)
    (hr : c.m_relocaliseEveryFrame = false)
    (h : ∀ fi ∈ fis, fi.hasImagesNow = true →
      (acquire_pose c ctx fi).1.trackerResult = TrackingResult.TRACKING_FAILED ∧
      fi.relocalisationResults = []) :
    (process_frames c ctx fis).2.2.countP Call.isProcessFrame = 0 ∧
    (process_frames c ctx fis).1.m_fusedFramesCount = c.m_fusedFramesCount := by
  induction fis generalizing c ctx with
  | nil => exact ⟨rfl, rfl⟩
  | cons fi rest ih =>
    have hnf : (process_frame c ctx fi).fused = false :=
      process_frame_not_fused_of_failed c ctx fi (fun hi =>
        track_frame_failed_of_no_candidate c ctx fi hm hr
          (h fi (List.mem_cons_self _ _) hi).1 (h fi (List.mem_cons_self _ _) hi).2)
    have hcfg := process_frame_sameConfig c ctx fi
    have hcount := process_frame_fusedFramesCount c ctx fi
    rw [hnf] at hcount
    have hrest := ih (process_frame c ctx fi).component (process_frame c ctx fi).context
      ((congrArg Settings.behaviourOnFailure (process_frame_settings c ctx fi)).trans hm)
      (hcfg.2.2.2.2.2.2.1.trans hr)
      (fun x hx hi => by
        have := h x (List.mem_cons_of_mem _ hx) hi
        rw [acquire_pose_trackerResult] at this ⊢
        rw [hcfg.2.2.2.2.2.1]
        exact this)
    rw [process_frames_cons, List.countP_append, countP_isProcessFrame_of_not_fused _ hnf]
    exact ⟨by rw [hrest.1], hrest.2.trans hcount⟩

/-- Witness for C16 amended: two FAILED frames with no relocalisation candidate. -/
theorem process_frames_failed_unrecovered_not_fused_witness :
    (process_frames exampleComponent (exampleContext FailureMode.FAILUREMODE_RELOCALISE)
      [exampleFrame TrackingResult.TRACKING_FAILED [],
       exampleFrame TrackingResult.TRACKING_FAILED []]).2.2.countP Call.isProcessFrame = 0 ∧
    (process_frames exampleComponent (exampleContext FailureMode.FAILUREMODE_RELOCALISE)
      [exampleFrame TrackingResult.TRACKING_FAILED [],
       exampleFrame TrackingResult.TRACKING_FAILED []]).1.m_fusedFramesCount
      = exampleComponent.m_fusedFramesCount :=
  process_frames_failed_unrecovered_not_fused exampleComponent
    (exampleContext FailureMode.FAILUREMODE_RELOCALISE)
    [exampleFrame TrackingResult.TRACKING_FAILED [],
     exampleFrame TrackingResult.TRACKING_FAILED []] rfl rfl (by decide)


section aux9
variable {Pose : Type}

theorem process_frames_ignore_count (fis : List (FrameInput Pose)) :
    ∀ (c : SLAMComponent) (ctx : SLAMContext Pose),
      ctx.settings.behaviourOnFailure = FailureMode.FAILUREMODE_IGNORE →
      c.m_fusionEnabled = true → c.m_fusedFramesCount < SIZE_MODULUS →
      (∀ fi ∈ fis, fi.hasImagesNow = true →
        ¬ (c.m_fallibleTracker = true ∧ fi.lost_tracking = true) ∧
        ¬ (fi.currentSubengineExhausted = true ∧ ctx.settings.usingGlobalPoses = false)) →
      (process_frames c ctx fis).1.m_fusedFramesCount =
        (c.m_fusedFramesCount + fis.countP (fun fi => fi.hasImagesNow)) % SIZE_MODULUS := by
  induction fis with
  | nil =>
    intro c ctx _ _ hlt _
    simp [process_frames, Nat.mod_eq_of_lt hlt]
  | cons fi rest ih =>
    intro c ctx hm hen hlt h
    have hpos : 0 < SIZE_MODULUS := by unfold SIZE_MODULUS; exact Nat.two_pow_pos 64
    have hcfg := process_frame_sameConfig c ctx fi
    have hset := process_frame_settings c ctx fi
    have hcount := process_frame_fusedFramesCount c ctx fi
    have hen1 : (process_frame c ctx fi).component.m_fusionEnabled = true := by
      rw [process_frame_fusionEnabled, if_neg, hen]
      rintro ⟨hi, hsub, hglob⟩
      exact (h fi (List.mem_cons_self _ _) hi).2 ⟨hsub, hglob⟩
    have hfused : (process_frame c ctx fi).fused = fi.hasImagesNow := by
      cases hi : fi.hasImagesNow
      · rw [← Bool.not_eq_true]
        intro hf
        have := ((process_frame_fused c ctx fi).1 hf).1
        rw [hi] at this
        exact Bool.noConfusion this
      · exact (process_frame_fused_of_ignore c ctx fi hm hi).2
          ⟨hen, (h fi (List.mem_cons_self _ _) hi).1⟩
    rw [hfused] at hcount
    have hlt1 : (process_frame c ctx fi).component.m_fusedFramesCount < SIZE_MODULUS := by
      rw [hcount]
      split_ifs
      · exact Nat.mod_lt _ hpos
      · exact hlt
    have hrest := ih (process_frame c ctx fi).component (process_frame c ctx fi).context
      ((congrArg Settings.behaviourOnFailure hset).trans hm) hen1 hlt1
      (fun x hx hi => by
        rw [hcfg.2.1, hset]
        exact h x (List.mem_cons_of_mem _ hx) hi)
    rw [process_frames_cons]
    show (process_frames (process_frame c ctx fi).component (process_frame c ctx fi).context
      rest).1.m_fusedFramesCount = _
    rw [hrest, hcount, List.countP_cons]
    cases fi.hasImagesNow
    · simp
    · simp only [if_true]
      rw [Nat.mod_add_mod, Nat.add_assoc, Nat.add_comm 1]

end aux9

/-- C17, as stated, fails: under IGNORE, starting from `reset_scene`, two frames are
    processed; the first one ends with the current sub-engine of a composite image
    source exhausted (and no global poses), which disables fusion, so the second frame
    is not fused and the fused-frame count is 1 after 2 processed frames. -/
theorem process_frames_ignore_subengine_exhausted :
    (process_frames
      (reset_scene exampleComponent (exampleContext FailureMode.FAILUREMODE_IGNORE)
        { pose_d := 0, trackerResult := TrackingResult.TRACKING_GOOD }).1
      (reset_scene exampleComponent (exampleContext FailureMode.FAILUREMODE_IGNORE)
        { pose_d := 0, trackerResult := TrackingResult.TRACKING_GOOD }).2.1
      [{ exampleFrame TrackingResult.TRACKING_GOOD [] with currentSubengineExhausted := true },
       exampleFrame TrackingResult.TRACKING_GOOD []]).1.m_fusedFramesCount = 1 ∧
    [{ exampleFrame TrackingResult.TRACKING_GOOD [] with currentSubengineExhausted := true },
     exampleFrame TrackingResult.TRACKING_GOOD []].countP (fun fi => fi.hasImagesNow) = 2 := by
  decide

/-- C17, amended: under the IGNORE policy a processed frame is fused, whatever
    quality the tracker reports, exactly when fusion is enabled and no fallible
    tracker reports lost tracking; so after `reset_scene`, over `process_frame` calls
    in which no fallible tracker reports lost tracking and the frame-end check does
    not disable fusion (no exhausted sub-engine of a composite source without global
    poses), the fused-frame count equals, in `size_t` arithmetic, the number of frames
    processed since the reset, and equals it exactly for fewer than 2^64 calls. -/
theorem process_frames_ignore_fuses_every_frame {Pose : Type} (c : SLAMComponent)
    (ctx : SLAMContext Pose)
    (hm : ctx.settings.behaviourOnFailure = FailureMode.FAILUREMODE_IGNORE) :
    (∀ fi : FrameInput Pose, fi.hasImagesNow = true →
      ((process_frame c ctx fi).fused = true ↔
        c.m_fusionEnabled = true ∧
        ¬ (c.m_fallibleTracker = true ∧ fi.lost_tracking = true))) ∧
    (∀ (resetTrackingState : ITMTrackingState Pose) (fis : List (FrameInput Pose)),
      (∀ fi ∈ fis, fi.hasImagesNow = true →
        ¬ (c.m_fallibleTracker = true ∧ fi.lost_tracking = true) ∧
        ¬ (fi.currentSubengineExhausted = true ∧ ctx.settings.usingGlobalPoses = false)) →
      (process_frames (reset_scene c ctx resetTrackingState).1
        (reset_scene c ctx resetTrackingState).2.1 fis).1.m_fusedFramesCount
        = fis.countP (fun fi => fi.hasImagesNow) % SIZE_MODULUS ∧
      (fis.length < SIZE_MODULUS →
        (process_frames (reset_scene c ctx resetTrackingState).1
          (reset_scene c ctx resetTrackingState).2.1 fis).1.m_fusedFramesCount
          = fis.countP (fun fi => fi.hasImagesNow))) := by
  refine ⟨fun fi hi => process_frame_fused_of_ignore c ctx fi hm hi, ?_⟩
  intro rts fis h
  have hpos : 0 < SIZE_MODULUS := by unfold SIZE_MODULUS; exact Nat.two_pow_pos 64
  have hcount := process_frames_ignore_count fis (reset_scene c ctx rts).1
    (reset_scene c ctx rts).2.1 hm rfl hpos h
  have h0 : (reset_scene c ctx rts).1.m_fusedFramesCount = 0 := rfl
  rw [h0, Nat.zero_add] at hcount
  refine ⟨hcount, fun hlen => ?_⟩
  rw [hcount]
  exact Nat.mod_eq_of_lt (Nat.lt_of_le_of_lt (List.countP_le_length _) hlen)

/-- Witness for C17 amended: after a reset, a POOR frame, an idle call and a FAILED
    frame under IGNORE give a fused-frame count of 2. -/
theorem process_frames_ignore_fuses_every_frame_witness :
    (process_frames
      (reset_scene exampleComponent (exampleContext FailureMode.FAILUREMODE_IGNORE)
        { pose_d := 0, trackerResult := TrackingResult.TRACKING_GOOD }).1
      (reset_scene exampleComponent (exampleContext FailureMode.FAILUREMODE_IGNORE)
        { pose_d := 0, trackerResult := TrackingResult.TRACKING_GOOD }).2.1
      [exampleFrame TrackingResult.TRACKING_POOR [], exampleNoFrame true,
       exampleFrame TrackingResult.TRACKING_FAILED []]).1.m_fusedFramesCount
      = [exampleFrame TrackingResult.TRACKING_POOR [], exampleNoFrame true,
         exampleFrame TrackingResult.TRACKING_FAILED []].countP (fun fi => fi.hasImagesNow) :=
  (((process_frames_ignore_fuses_every_frame exampleComponent
      (exampleContext FailureMode.FAILUREMODE_IGNORE) rfl).2
    { pose_d := 0, trackerResult := TrackingResult.TRACKING_GOOD }
    [exampleFrame TrackingResult.TRACKING_POOR [], exampleNoFrame true,
     exampleFrame TrackingResult.TRACKING_FAILED []] (by decide)).2 (by decide))


section aux10
variable {Pose : Type}

theorem determine_tracking_quality_countP_isTrack (c : SLAMComponent)
    (ctx : SLAMContext Pose) (ts : ITMTrackingState Pose) (fi : FrameInput Pose) :
    (determine_tracking_quality c ctx ts fi).calls.countP Call.isTrack = 0 := by
  unfold determine_tracking_quality
  split
  · rw [process_relocalisation_calls]
    simp only [List.countP_append]
    split_ifs <;> simp [Call.isTrack]
  · rfl
  · rfl

theorem process_frame_countP_isTrack (c : SLAMComponent) (ctx : SLAMContext Pose)
    (fi : FrameInput Pose) :
    (process_frame c ctx fi).calls.countP Call.isTrack =
      if fi.hasImagesNow = true ∧ c.m_mirrorSceneID = "" then 1 else 0 := by
  cases hi : fi.hasImagesNow
  · rw [process_frame_calls_of_no_frame c ctx fi hi]
    split_ifs <;> simp_all [Call.isTrack]
  · simp only [process_frame, hi, if_true, List.countP_append]
    rw [fuse_or_restore_calls_countP _ rfl rfl (fun _ _ => rfl) rfl,
      finish_frame_calls_countP _ (fun _ => rfl) (fun _ => rfl) (fun _ => rfl)]
    unfold track_frame
    simp only [List.countP_append, determine_tracking_quality_countP_isTrack]
    unfold acquire_pose
    split_ifs <;> simp_all [Call.isTrack]

theorem process_frame_other_scenes (c : SLAMComponent) (ctx : SLAMContext Pose)
    (fi : FrameInput Pose) (sceneID : String) (h : sceneID ≠ c.m_sceneID) :
    (process_frame c ctx fi).context.get_slam_state sceneID = ctx.get_slam_state sceneID := by
  cases hi : fi.hasImagesNow
  · rw [process_frame_inputStatus_of_no_frame c ctx fi hi]
    simp [SLAMContext.get_slam_state, SLAMContext.set_slam_state, h]
  · simp [process_frame, hi, track_frame, SLAMContext.get_slam_state,
      SLAMContext.set_slam_state, h]

theorem determine_tracking_quality_of_good (c : SLAMComponent) (ctx : SLAMContext Pose)
    (pose : Pose) (fi : FrameInput Pose) :
    (determine_tracking_quality c ctx
      { pose_d := pose, trackerResult := TrackingResult.TRACKING_GOOD } fi).trackingState
      = { pose_d := pose, trackerResult := TrackingResult.TRACKING_GOOD } := by
  unfold determine_tracking_quality
  cases ctx.settings.behaviourOnFailure
  · simp only [process_relocalisation]
    cases c.m_relocaliseEveryFrame <;> simp
  · simp
  · rfl

theorem fuse_or_restore_trackingState (t : TrackedFrame Pose) (fi : FrameInput Pose) :
    (fuse_or_restore t fi).2.1 =
      if t.trackingState.trackerResult = TrackingResult.TRACKING_FAILED
      then { t.trackingState with pose_d := t.oldPose } else t.trackingState := by
  unfold fuse_or_restore
  by_cases hr : runFusion t.component t.trackingState fi = true
  · have hnf := ((runFusion_eq_true_iff _ _ _).1 hr).2.1
    rw [if_pos hr, if_neg hnf]
  · rw [if_neg hr]
    by_cases hf : t.trackingState.trackerResult = TrackingResult.TRACKING_FAILED
    · rw [if_neg (fun hh => hh hf), if_pos hf]
    · rw [if_pos hf, if_neg hf]

end aux10

/-! ## Mirroring and reset -/

/-- C19: when a mirror scene id is set (non-empty), `process_frame` on an available
    frame does not invoke the tracker: the tracking state that enters the policy step
    has the mirrored scene's current pose and quality GOOD, the tracking state that
    `process_frame` leaves in the component's scene has that pose and quality GOOD
    under every failure mode, its input status is active, and the state of the
    mirrored scene (another scene than the component's own) is not modified. When no
    mirror scene is set it invokes the tracker once, the tracking state that enters
    the policy step is the one the tracker leaves, and the tracking state that
    `process_frame` leaves in the scene is the outcome of the policy step on it, with
    the pose of the start of the frame put back when that outcome is FAILED: under
    IGNORE the tracked pose with quality GOOD, under STOP_INTEGRATION the tracked pose
    with the tracked quality, FAILED counting as POOR. -/
theorem process_frame_mirroring {Pose : Type} (c : SLAMComponent) (ctx : SLAMContext Pose)
    (fi : FrameInput Pose) (h : fi.hasImagesNow = true) :
    (c.m_mirrorSceneID ≠ "" →
      (process_frame c ctx fi).calls.countP Call.isTrack = 0 ∧
      (acquire_pose c ctx fi).1 =
        { pose_d := (ctx.get_slam_state c.m_mirrorSceneID).get_pose,
          trackerResult := TrackingResult.TRACKING_GOOD } ∧
      (track_frame c ctx fi).trackingState =
        (determine_tracking_quality c ctx
          { pose_d := (ctx.get_slam_state c.m_mirrorSceneID).get_pose,
            trackerResult := TrackingResult.TRACKING_GOOD } fi).trackingState ∧
      (c.m_mirrorSceneID ≠ c.m_sceneID →
        (process_frame c ctx fi).context.get_slam_state c.m_mirrorSceneID
          = ctx.get_slam_state c.m_mirrorSceneID) ∧
      ((process_frame c ctx fi).context.get_slam_state c.m_sceneID).m_trackingState =
        { pose_d := (ctx.get_slam_state c.m_mirrorSceneID).get_pose,
          trackerResult := TrackingResult.TRACKING_GOOD } ∧
      ((process_frame c ctx fi).context.get_slam_state c.m_sceneID).get_pose =
        (ctx.get_slam_state c.m_mirrorSceneID).get_pose ∧
      ((process_frame c ctx fi).context.get_slam_state c.m_sceneID).m_inputStatus =
        InputStatus.IS_ACTIVE) ∧
    (c.m_mirrorSceneID = "" →
      (process_frame c ctx fi).calls.countP Call.isTrack = 1 ∧
      (acquire_pose c ctx fi).1 = fi.tracked ∧
      (track_frame c ctx fi).trackingState =
        (determine_tracking_quality c ctx fi.tracked fi).trackingState ∧
      ((process_frame c ctx fi).context.get_slam_state c.m_sceneID).m_trackingState =
        (if (determine_tracking_quality c ctx fi.tracked fi).trackingState.trackerResult
            = TrackingResult.TRACKING_FAILED
         then { (determine_tracking_quality c ctx fi.tracked fi).trackingState with
                pose_d := (ctx.get_slam_state c.m_sceneID).m_trackingState.pose_d }
         else (determine_tracking_quality c ctx fi.tracked fi).trackingState) ∧
      (ctx.settings.behaviourOnFailure = FailureMode.FAILUREMODE_IGNORE →
        ((process_frame c ctx fi).context.get_slam_state c.m_sceneID).m_trackingState =
          { pose_d := fi.tracked.pose_d, trackerResult := TrackingResult.TRACKING_GOOD }) ∧
      (ctx.settings.behaviourOnFailure = FailureMode.FAILUREMODE_STOP_INTEGRATION →
        ((process_frame c ctx fi).context.get_slam_state c.m_sceneID).m_trackingState =
          { pose_d := fi.tracked.pose_d,
            trackerResult :=
              if fi.tracked.trackerResult = TrackingResult.TRACKING_FAILED
              then TrackingResult.TRACKING_POOR else fi.tracked.trackerResult })) := by
  -- the tracking state that `process_frame` writes back into the component's scene
  have hwritten :
      ((process_frame c ctx fi).context.get_slam_state c.m_sceneID).m_trackingState =
        (fuse_or_restore (track_frame c ctx fi) fi).2.1 := by
    simp [process_frame, h, SLAMContext.get_slam_state, SLAMContext.set_slam_state]
  have hfinal :
      ((process_frame c ctx fi).context.get_slam_state c.m_sceneID).m_trackingState =
        if (determine_tracking_quality c ctx (acquire_pose c ctx fi).1
              fi).trackingState.trackerResult = TrackingResult.TRACKING_FAILED
        then { (determine_tracking_quality c ctx (acquire_pose c ctx fi).1
                  fi).trackingState with
               pose_d := (ctx.get_slam_state c.m_sceneID).m_trackingState.pose_d }
        else (determine_tracking_quality c ctx (acquire_pose c ctx fi).1 fi).trackingState := by
    rw [hwritten, fuse_or_restore_trackingState, track_frame_oldPose,
      (track_frame_quality c ctx fi).1]
  constructor
  · intro hmir
    have hacq : (acquire_pose c ctx fi).1 =
        { pose_d := (ctx.get_slam_state c.m_mirrorSceneID).get_pose,
          trackerResult := TrackingResult.TRACKING_GOOD } := by
      unfold acquire_pose
      rw [if_pos hmir]
    have hstate : ((process_frame c ctx fi).context.get_slam_state c.m_sceneID).m_trackingState
        = { pose_d := (ctx.get_slam_state c.m_mirrorSceneID).get_pose,
            trackerResult := TrackingResult.TRACKING_GOOD } := by
      rw [hfinal, hacq, determine_tracking_quality_of_good]
      rw [if_neg (by simp)]
    refine ⟨?_, hacq, ?_, fun hne => process_frame_other_scenes c ctx fi _ hne, hstate, ?_, ?_⟩
    · rw [process_frame_countP_isTrack, if_neg (fun hh => hmir hh.2)]
    · rw [(track_frame_quality c ctx fi).1, hacq]
    · unfold SLAMState.get_pose
      rw [hstate]
      rfl
    · exact (process_frame_inputStatus c ctx fi).trans (by rw [if_pos h])
  · intro hmir
    have hacq : (acquire_pose c ctx fi).1 = fi.tracked := by
      unfold acquire_pose
      rw [if_neg (fun hh => hh hmir)]
    rw [hacq] at hfinal
    refine ⟨?_, hacq, ?_, hfinal, ?_, ?_⟩
    · rw [process_frame_countP_isTrack, if_pos ⟨h, hmir⟩]
    · rw [(track_frame_quality c ctx fi).1, hacq]
    · intro hm
      rw [hfinal]
      unfold determine_tracking_quality
      rw [hm]
      simp
    · intro hm
      rw [hfinal]
      unfold determine_tracking_quality
      rw [hm]
      cases hq : fi.tracked.trackerResult
      · simp only [hq, reduceCtorEq, if_false]
        rw [← hq]
      · simp only [hq, reduceCtorEq, if_false]
        rw [← hq]
      · simp [hq]

/-- Witness for C19: scene "World" mirrors scene "Object", whose pose is 5; the
    tracker would have left pose 7 with quality FAILED, and `process_frame` leaves
    scene "World" with pose 5 and quality GOOD, without a call of the tracker and
    with scene "Object" as it was. -/
theorem process_frame_mirroring_witness :
    (process_frame (mirror_pose_of exampleComponent "Object")
      (exampleMirrorContext FailureMode.FAILUREMODE_IGNORE)
      (exampleFrame TrackingResult.TRACKING_FAILED [])).calls.countP Call.isTrack = 0 ∧
    (acquire_pose (mirror_pose_of exampleComponent "Object")
      (exampleMirrorContext FailureMode.FAILUREMODE_IGNORE)
      (exampleFrame TrackingResult.TRACKING_FAILED [])).1 =
      { pose_d := ((exampleMirrorContext FailureMode.FAILUREMODE_IGNORE).get_slam_state
            (mirror_pose_of exampleComponent "Object").m_mirrorSceneID).get_pose,
        trackerResult := TrackingResult.TRACKING_GOOD } ∧
    (process_frame (mirror_pose_of exampleComponent "Object")
      (exampleMirrorContext FailureMode.FAILUREMODE_IGNORE)
      (exampleFrame TrackingResult.TRACKING_FAILED [])).context.get_slam_state
        (mirror_pose_of exampleComponent "Object").m_mirrorSceneID
      = (exampleMirrorContext FailureMode.FAILUREMODE_IGNORE).get_slam_state
        (mirror_pose_of exampleComponent "Object").m_mirrorSceneID ∧
    ((process_frame (mirror_pose_of exampleComponent "Object")
      (exampleMirrorContext FailureMode.FAILUREMODE_IGNORE)
      (exampleFrame TrackingResult.TRACKING_FAILED [])).context.get_slam_state
        (mirror_pose_of exampleComponent "Object").m_sceneID).m_trackingState
      = { pose_d := ((exampleMirrorContext FailureMode.FAILUREMODE_IGNORE).get_slam_state
            (mirror_pose_of exampleComponent "Object").m_mirrorSceneID).get_pose,
          trackerResult := TrackingResult.TRACKING_GOOD } ∧
    ((process_frame (mirror_pose_of exampleComponent "Object")
      (exampleMirrorContext FailureMode.FAILUREMODE_IGNORE)
      (exampleFrame TrackingResult.TRACKING_FAILED [])).context.get_slam_state
        "World").m_trackingState
      = { pose_d := 5, trackerResult := TrackingResult.TRACKING_GOOD } ∧
    ((exampleMirrorContext FailureMode.FAILUREMODE_IGNORE).get_slam_state "World").get_pose
      = 0 :=
  have h := (process_frame_mirroring (mirror_pose_of exampleComponent "Object")
    (exampleMirrorContext FailureMode.FAILUREMODE_IGNORE)
    (exampleFrame TrackingResult.TRACKING_FAILED []) rfl).1 (by decide)
  ⟨h.1, h.2.1, h.2.2.2.1 (by decide), h.2.2.2.2.1, by decide, by decide⟩


/-! ## Consensus voting -/

section voting
variable {Pose Vector3f DualQuatd : Type}

theorem inliers_of_length (ops : PoseOps Pose Vector3f DualQuatd)
    (H : List (String × Pose)) (it : String × Pose) (rotThreshold transThreshold : ℚ) :
    (GeometryUtil.inliers_of ops H it rotThreshold transThreshold).length =
      GeometryUtil.similarity_count ops H it.2 rotThreshold transThreshold := by
  unfold GeometryUtil.inliers_of GeometryUtil.similarity_count
  rw [List.length_map, List.countP_eq_length_filter]

theorem best_fold_spec (cnt : String × Pose → List Pose) (l : List (String × Pose)) :
    ∀ s : String × List Pose,
      (l.foldl (fun state it =>
          if (cnt it).length > state.2.length then (it.1, cnt it) else state) s = s ∧
        ∀ e ∈ l, (cnt e).length ≤ s.2.length) ∨
      (∃ l1 e l2, l = l1 ++ e :: l2 ∧
        l.foldl (fun state it =>
          if (cnt it).length > state.2.length then (it.1, cnt it) else state) s
          = (e.1, cnt e) ∧
        s.2.length < (cnt e).length ∧
        (∀ e1 ∈ l1, (cnt e1).length < (cnt e).length) ∧
        (∀ e2 ∈ l2, (cnt e2).length ≤ (cnt e).length)) := by
  induction l with
  | nil =>
    intro s
    exact Or.inl ⟨rfl, fun e he => absurd he (List.not_mem_nil e)⟩
  | cons a l ih =>
    intro s
    rw [List.foldl_cons]
    by_cases ha : (cnt a).length > s.2.length
    · rw [if_pos ha]
      rcases ih (a.1, cnt a) with ⟨hr, hle⟩ | ⟨l1, e, l2, hl, hr, hlt, h1, h2⟩
      · exact Or.inr ⟨[], a, l, rfl, hr, ha, fun e1 he1 => absurd he1 (List.not_mem_nil e1),
          hle⟩
      · refine Or.inr ⟨a :: l1, e, l2, by rw [hl]; rfl, hr, Nat.lt_trans ha hlt, ?_, h2⟩
        intro e1 he1
        rcases List.mem_cons.1 he1 with rfl | he1
        · exact hlt
        · exact h1 e1 he1
    · rw [if_neg ha]
      have ha' : (cnt a).length ≤ s.2.length := Nat.le_of_not_gt ha
      rcases ih s with ⟨hr, hle⟩ | ⟨l1, e, l2, hl, hr, hlt, h1, h2⟩
      · refine Or.inl ⟨hr, ?_⟩
        intro e he
        rcases List.mem_cons.1 he with rfl | he
        · exact ha'
        · exact hle e he
      · refine Or.inr ⟨a :: l1, e, l2, by rw [hl]; rfl, hr, hlt, ?_, h2⟩
        intro e1 he1
        rcases List.mem_cons.1 he1 with rfl | he1
        · exact Nat.lt_of_le_of_lt ha' hlt
        · exact h1 e1 he1

theorem find_best_hypothesis_spec (ops : PoseOps Pose Vector3f DualQuatd)
    (H : List (String × Pose)) (init : List Pose) (rotThreshold transThreshold : ℚ) :
    (GeometryUtil.find_best_hypothesis ops H init rotThreshold transThreshold = ("", init) ∧
      ∀ e ∈ H, GeometryUtil.similarity_count ops H e.2 rotThreshold transThreshold
        ≤ init.length) ∨
    (∃ l1 e l2, H = l1 ++ e :: l2 ∧
      GeometryUtil.find_best_hypothesis ops H init rotThreshold transThreshold
        = (e.1, GeometryUtil.inliers_of ops H e rotThreshold transThreshold) ∧
      init.length < GeometryUtil.similarity_count ops H e.2 rotThreshold transThreshold ∧
      (∀ e1 ∈ l1, GeometryUtil.similarity_count ops H e1.2 rotThreshold transThreshold
        < GeometryUtil.similarity_count ops H e.2 rotThreshold transThreshold) ∧
      (∀ e2 ∈ l2, GeometryUtil.similarity_count ops H e2.2 rotThreshold transThreshold
        ≤ GeometryUtil.similarity_count ops H e.2 rotThreshold transThreshold)) := by
  have h := best_fold_spec
    (fun it => GeometryUtil.inliers_of ops H it rotThreshold transThreshold) H ("", init)
  have hdef : GeometryUtil.find_best_hypothesis ops H init rotThreshold transThreshold =
      List.foldl (fun state it =>
        if (GeometryUtil.inliers_of ops H it rotThreshold transThreshold).length
            > state.2.length
        then (it.1, GeometryUtil.inliers_of ops H it rotThreshold transThreshold)
        else state) ("", init) H := rfl
  rw [← hdef] at h
  simp only [inliers_of_length] at h
  exact h

theorem eq_of_mem_of_nodup_keys {H : List (String × Pose)}
    (hk : (H.map Prod.fst).Nodup) {k : String} {p q : Pose}
    (hp : (k, p) ∈ H) (hq : (k, q) ∈ H) : p = q := by
  induction H with
  | nil => exact absurd hp (List.not_mem_nil _)
  | cons a rest ih =>
    rw [List.map_cons, List.nodup_cons] at hk
    rcases List.mem_cons.1 hp with hp | hp <;> rcases List.mem_cons.1 hq with hq | hq
    · rw [← hp] at hq
      exact (Prod.mk.inj hq).2.symm
    · exact absurd (List.mem_map.2 ⟨(k, q), hq, by rw [← hp]⟩) hk.1
    · exact absurd (List.mem_map.2 ⟨(k, p), hp, by rw [← hq]⟩) hk.1
    · exact ih hk.2 hp hq

end voting

/-- C25: `poses_are_similar` holds if and only if the angle between the two poses'
    rotations (as `angle_between_rotations` computes it from their rotation
    parameters) is at most `rotThreshold` and the distance between their
    translations (the `length` of the difference of their translation parameters)
    is at most `transThreshold`, both bounds inclusive. -/
theorem poses_are_similar_iff {Pose Vector3f DualQuatd : Type}
    (ops : PoseOps Pose Vector3f DualQuatd) (pose1 pose2 : Pose)
    (rotThreshold transThreshold : ℚ) :
    GeometryUtil.poses_are_similar ops pose1 pose2 rotThreshold transThreshold = true ↔
      ops.angle_between_rotations (ops.from_rotation (ops.GetParams pose1).2)
        (ops.from_rotation (ops.GetParams pose2).2) ≤ rotThreshold ∧
      ops.length (ops.sub (ops.GetParams pose1).1 (ops.GetParams pose2).1)
        ≤ transThreshold := by
  unfold GeometryUtil.poses_are_similar
  rw [Bool.and_eq_true, decide_eq_true_iff, decide_eq_true_iff]


section voting2
variable {Pose Vector3f DualQuatd : Type}

theorem poseHypothesesMap_three (A B C : Pose) :
    GeometryUtil.poseHypothesesMap [A, B, C] = [("0", A), ("1", B), ("2", C)] := by
  have h0 : toString (0 : Nat) = "0" := by decide
  have h1 : toString (1 : Nat) = "1" := by decide
  have h2 : toString (2 : Nat) = "2" := by decide
  have h10 : ¬ (("1" : String).data < ("0" : String).data) := by decide
  have h01 : ("0" : String).data < ("1" : String).data := by decide
  have h20 : ¬ (("2" : String).data < ("0" : String).data) := by decide
  have h02 : ("0" : String).data < ("2" : String).data := by decide
  have h21 : ¬ (("2" : String).data < ("1" : String).data) := by decide
  have h12 : ("1" : String).data < ("2" : String).data := by decide
  simp only [GeometryUtil.poseHypothesesMap, List.enum, List.enumFrom, List.foldl, map_insert,
    h0, h1, h2, h10, h01, h20, h02, h21, h12, if_true, if_false, Nat.zero_add, Nat.reduceAdd]

theorem find_best_hypothesis_three (ops : PoseOps Pose Vector3f DualQuatd)
    (rotThreshold transThreshold : ℚ) (ka kb kc : String) (A B C : Pose)
    (hAA : GeometryUtil.poses_are_similar ops A A rotThreshold transThreshold = true)
    (hBB : GeometryUtil.poses_are_similar ops B B rotThreshold transThreshold = true)
    (hAB : GeometryUtil.poses_are_similar ops A B rotThreshold transThreshold = true)
    (hBA : GeometryUtil.poses_are_similar ops B A rotThreshold transThreshold = true)
    (hAC : GeometryUtil.poses_are_similar ops A C rotThreshold transThreshold = false)
    (hCA : GeometryUtil.poses_are_similar ops C A rotThreshold transThreshold = false)
    (hBC : GeometryUtil.poses_are_similar ops B C rotThreshold transThreshold = false)
    (hCB : GeometryUtil.poses_are_similar ops C B rotThreshold transThreshold = false) :
    GeometryUtil.find_best_hypothesis ops [(ka, A), (kb, B), (kc, C)] []
      rotThreshold transThreshold = (ka, [A, B]) ∧
    GeometryUtil.find_best_hypothesis ops [(ka, A), (kc, C), (kb, B)] []
      rotThreshold transThreshold = (ka, [A, B]) ∧
    GeometryUtil.find_best_hypothesis ops [(kc, C), (ka, A), (kb, B)] []
      rotThreshold transThreshold = (ka, [A, B]) := by
  cases hCC : GeometryUtil.poses_are_similar ops C C rotThreshold transThreshold <;>
    simp [GeometryUtil.find_best_hypothesis, GeometryUtil.inliers_of, List.filter, hAA, hBB,
      hAB, hBA, hAC, hCA, hBC, hCB, hCC]

end voting2


/-- C21, as stated, fails. In the vector overload the hypotheses are keyed by the
    decimal numerals of their indices and visited in the order of the keys as
    strings, "0", "1", "10", "2", ...: of eleven hypotheses in which hypotheses 2 and 10
    tie with the maximal count 2, the one returned is hypothesis 10 (offset 201), not
    the earliest inserted hypothesis 2 (offset 200). And when the inlier output
    already holds two poses, a single hypothesis (count 1) is not returned at all. -/
theorem find_best_hypothesis_tie_by_key_order :
    elevenHypotheses.map (fun p =>
      GeometryUtil.similarity_count axisPoseOps (GeometryUtil.poseHypothesesMap elevenHypotheses)
        p 1 5) = [1, 1, 2, 1, 1, 1, 1, 1, 1, 1, 2] ∧
    (GeometryUtil.poseHypothesesMap elevenHypotheses).map Prod.fst
      = ["0", "1", "10", "2", "3", "4", "5", "6", "7", "8", "9"] ∧
    GeometryUtil.find_best_hypothesis axisPoseOps
      (GeometryUtil.poseHypothesesMap elevenHypotheses) [] 1 5
      = ("10", [⟨0, 201⟩, ⟨0, 200⟩]) ∧
    (GeometryUtil.find_best_hypothesis_vector axisPoseOps lookupOrRaise elevenHypotheses []
      1 5).1.toOption = some ⟨0, 201⟩ ∧
    GeometryUtil.find_best_hypothesis axisPoseOps [("a", ⟨0, 0⟩)] [⟨0, 7⟩, ⟨0, 8⟩] 1 5
      = ("", [⟨0, 7⟩, ⟨0, 8⟩]) := by
  decide

/-- C21, amended: called with an empty inlier output, `find_best_hypothesis` returns
    a hypothesis whose count of similar hypotheses (itself included) is maximal over
    all candidates, and among the candidates attaining the maximal count it returns
    the first one in the map's iteration order (the ascending order of the keys);
    for three hypotheses A, B, C with A and B similar to themselves and to each
    other and C similar to neither, the winner is the first of A and B in that
    order, with the inlier list [A, B] of size 2, in the map overload wherever C
    stands and in the vector overload (where a `lookup` that finds the keys of the
    map returns the first inserted of A and B). -/
theorem find_best_hypothesis_first_maximal {Pose Vector3f DualQuatd : Type}
    (ops : PoseOps Pose Vector3f DualQuatd) (H : List (String × Pose))
    (rotThreshold transThreshold : ℚ) :
    (∀ e ∈ H, GeometryUtil.similarity_count ops H e.2 rotThreshold transThreshold ≤
      (GeometryUtil.find_best_hypothesis ops H [] rotThreshold transThreshold).2.length) ∧
    ((GeometryUtil.find_best_hypothesis ops H [] rotThreshold transThreshold).2 ≠ [] →
      ∃ l1 e l2, H = l1 ++ e :: l2 ∧
        GeometryUtil.find_best_hypothesis ops H [] rotThreshold transThreshold
          = (e.1, GeometryUtil.inliers_of ops H e rotThreshold transThreshold) ∧
        (GeometryUtil.find_best_hypothesis ops H [] rotThreshold transThreshold).2.length
          = GeometryUtil.similarity_count ops H e.2 rotThreshold transThreshold ∧
        ∀ e1 ∈ l1, GeometryUtil.similarity_count ops H e1.2 rotThreshold transThreshold
          < GeometryUtil.similarity_count ops H e.2 rotThreshold transThreshold) ∧
    (∀ (ka kb kc : String) (A B C : Pose)
        (lookup : List (String × Pose) → String → Except String Pose),
      GeometryUtil.poses_are_similar ops A A rotThreshold transThreshold = true →
      GeometryUtil.poses_are_similar ops B B rotThreshold transThreshold = true →
      GeometryUtil.poses_are_similar ops A B rotThreshold transThreshold = true →
      GeometryUtil.poses_are_similar ops B A rotThreshold transThreshold = true →
      GeometryUtil.poses_are_similar ops A C rotThreshold transThreshold = false →
      GeometryUtil.poses_are_similar ops C A rotThreshold transThreshold = false →
      GeometryUtil.poses_are_similar ops B C rotThreshold transThreshold = false →
      GeometryUtil.poses_are_similar ops C B rotThreshold transThreshold = false →
      (∀ m k v, List.lookup k m = some v → lookup m k = Except.ok v) →
      GeometryUtil.find_best_hypothesis ops [(ka, A), (kb, B), (kc, C)] []
        rotThreshold transThreshold = (ka, [A, B]) ∧
      GeometryUtil.find_best_hypothesis ops [(ka, A), (kc, C), (kb, B)] []
        rotThreshold transThreshold = (ka, [A, B]) ∧
      GeometryUtil.find_best_hypothesis ops [(kc, C), (ka, A), (kb, B)] []
        rotThreshold transThreshold = (ka, [A, B]) ∧
      GeometryUtil.find_best_hypothesis_vector ops lookup [A, B, C] []
        rotThreshold transThreshold = (Except.ok A, [A, B])) := by
  refine ⟨?_, ?_, ?_⟩
  · intro e he
    rcases find_best_hypothesis_spec ops H [] rotThreshold transThreshold with
      ⟨hr, hle⟩ | ⟨l1, w, l2, hH, hr, _, h1, h2⟩
    · rw [hr]
      exact hle e he
    · rw [hr, inliers_of_length]
      rw [hH] at he
      rcases List.mem_append.1 he with he | he
      · exact Nat.le_of_lt (h1 e he)
      · rcases List.mem_cons.1 he with rfl | he
        · exact Nat.le_refl _
        · exact h2 e he
  · intro hne
    rcases find_best_hypothesis_spec ops H [] rotThreshold transThreshold with
      ⟨hr, _⟩ | ⟨l1, w, l2, hH, hr, _, h1, _⟩
    · rw [hr] at hne
      exact absurd rfl hne
    · exact ⟨l1, w, l2, hH, hr, by rw [hr, inliers_of_length], h1⟩
  · intro ka kb kc A B C lookup hAA hBB hAB hBA hAC hCA hBC hCB hl
    obtain ⟨h1, h2, h3⟩ := find_best_hypothesis_three ops rotThreshold transThreshold
      ka kb kc A B C hAA hBB hAB hBA hAC hCA hBC hCB
    refine ⟨h1, h2, h3, ?_⟩
    obtain ⟨h4, _, _⟩ := find_best_hypothesis_three ops rotThreshold transThreshold
      "0" "1" "2" A B C hAA hBB hAB hBA hAC hCA hBC hCB
    have hk : List.lookup "0" [("0", A), ("1", B), ("2", C)] = some A := by
      simp [List.lookup]
    simp only [GeometryUtil.find_best_hypothesis_vector, poseHypothesesMap_three, h4,
      hl _ _ _ hk]

/-- Witness for C21 amended: three axis poses, A and B one unit apart, C far away. -/
theorem find_best_hypothesis_first_maximal_witness :
    GeometryUtil.find_best_hypothesis axisPoseOps
      [("x", ⟨0, 50⟩), ("y", ⟨0, 0⟩), ("z", ⟨0, 1⟩)] [] 1 5
      = ("y", [⟨0, 0⟩, ⟨0, 1⟩]) ∧
    GeometryUtil.find_best_hypothesis_vector axisPoseOps lookupOrRaise
      [⟨0, 0⟩, ⟨0, 1⟩, ⟨0, 50⟩] [] 1 5 = (Except.ok ⟨0, 0⟩, [⟨0, 0⟩, ⟨0, 1⟩]) :=
  have h := (find_best_hypothesis_first_maximal axisPoseOps [] 1 5).2.2 "y" "z" "x"
    ⟨0, 0⟩ ⟨0, 1⟩ ⟨0, 50⟩ lookupOrRaise (by decide) (by decide) (by decide) (by decide)
    (by decide) (by decide) (by decide) (by decide)
    (fun m k v hk => by unfold lookupOrRaise; rw [hk])
  ⟨h.2.2.1, h.2.2.2⟩


/-- C22, the code at zero candidates: the map overload returns the empty id and
    leaves the inlier list empty; the vector overload builds the empty map, obtains
    the empty id from the map overload and returns whatever `MapUtil::lookup` yields
    for the empty id in the empty map, where a lookup of a key that is not present
    has no pose to return: with any lookup that returns only poses stored in the map
    under the key, and so with a lookup that raises on an absent key, the vector
    overload returns no pose. -/
theorem find_best_hypothesis_zero_candidates {Pose Vector3f DualQuatd : Type}
    (ops : PoseOps Pose Vector3f DualQuatd)
    (lookup : List (String × Pose) → String → Except String Pose)
    (rotThreshold transThreshold : ℚ) :
    GeometryUtil.find_best_hypothesis ops [] [] rotThreshold transThreshold = ("", []) ∧
    GeometryUtil.find_best_hypothesis_vector ops lookup [] [] rotThreshold transThreshold
      = (lookup [] "", []) ∧
    ((∀ m k v, lookup m k = Except.ok v → (k, v) ∈ m) →
      (GeometryUtil.find_best_hypothesis_vector ops lookup [] [] rotThreshold
        transThreshold).1.toOption = none) ∧
    (GeometryUtil.find_best_hypothesis_vector axisPoseOps lookupOrRaise [] [] 1 5).1.toOption
      = none := by
  refine ⟨rfl, rfl, ?_, ?_⟩
  · intro hsound
    have hret : (GeometryUtil.find_best_hypothesis_vector ops lookup [] [] rotThreshold
        transThreshold).1 = lookup [] "" := rfl
    rw [hret]
    cases hl : lookup [] "" with
    | error e => rfl
    | ok v => exact absurd (hsound [] "" v hl) (List.not_mem_nil _)
  · decide

/-- C23, as stated, fails: with a negative rotation threshold no pose is similar to
    itself (the angle between a rotation and itself is 0), so for a map with the
    single hypothesis "a" the function returns the empty id, which is not a key of
    the map, and an empty inlier list. -/
theorem find_best_hypothesis_negative_threshold :
    GeometryUtil.find_best_hypothesis axisPoseOps [("a", ⟨0, 0⟩)] [] (-1) 5 = ("", []) ∧
    "" ∉ ([("a", (⟨0, 0⟩ : AxisPose))].map Prod.fst) := by
  decide

/-- C23, amended: for every non-empty hypothesis set and every pair of thresholds
    under which each hypothesis is similar to itself (as it is for non-negative
    thresholds when the angle and the distance between a pose and itself are 0),
    `find_best_hypothesis` called with an empty inlier output returns a winner that
    is a member of the set: the returned id is one of the map's keys and the inlier
    list is non-empty. -/
theorem find_best_hypothesis_has_winner {Pose Vector3f DualQuatd : Type}
    (ops : PoseOps Pose Vector3f DualQuatd) (H : List (String × Pose))
    (rotThreshold transThreshold : ℚ) (hne : H ≠ [])
    (hself : ∀ e ∈ H,
      GeometryUtil.poses_are_similar ops e.2 e.2 rotThreshold transThreshold = true) :
    (GeometryUtil.find_best_hypothesis ops H [] rotThreshold transThreshold).1
      ∈ H.map Prod.fst ∧
    (GeometryUtil.find_best_hypothesis ops H [] rotThreshold transThreshold).2 ≠ [] := by
  rcases find_best_hypothesis_spec ops H [] rotThreshold transThreshold with
    ⟨_, hle⟩ | ⟨l1, w, l2, hH, hr, hlt, _, _⟩
  · -- no hypothesis was adopted: impossible, the first one counts itself
    obtain ⟨e, he⟩ := List.exists_mem_of_ne_nil H hne
    have hpos : 0 < GeometryUtil.similarity_count ops H e.2 rotThreshold transThreshold := by
      unfold GeometryUtil.similarity_count
      exact List.countP_pos_iff.2 ⟨e, he, hself e he⟩
    exact absurd (hle e he) (Nat.not_le.2 hpos)
  · rw [hr]
    constructor
    · rw [hH]
      simp
    · intro hnil
      have hlen := inliers_of_length ops H w rotThreshold transThreshold
      rw [show GeometryUtil.inliers_of ops H w rotThreshold transThreshold = [] from hnil]
        at hlen
      rw [← hlen] at hlt
      exact Nat.lt_irrefl _ hlt

/-- Witness for C23 amended: two axis poses with thresholds 1 and 5. -/
theorem find_best_hypothesis_has_winner_witness :
    (GeometryUtil.find_best_hypothesis axisPoseOps
      [("a", ⟨0, 0⟩), ("b", ⟨0, 50⟩)] [] 1 5).1
      ∈ [("a", (⟨0, 0⟩ : AxisPose)), ("b", ⟨0, 50⟩)].map Prod.fst ∧
    (GeometryUtil.find_best_hypothesis axisPoseOps
      [("a", ⟨0, 0⟩), ("b", ⟨0, 50⟩)] [] 1 5).2 ≠ [] :=
  find_best_hypothesis_has_winner axisPoseOps [("a", ⟨0, 0⟩), ("b", ⟨0, 50⟩)] 1 5
    (by decide) (by decide)

/-- C24: when `find_best_hypothesis` returns a winner (a non-empty id), that id is a
    key of the map and the inlier list output consists of exactly the hypotheses that
    are similar to the winner's pose under the given thresholds, each map entry once
    and in the map's iteration order, so its length equals the winner's similarity
    count; the winner's own pose is in the list when it is similar to itself. -/
theorem find_best_hypothesis_inliers {Pose Vector3f DualQuatd : Type}
    (ops : PoseOps Pose Vector3f DualQuatd) (H : List (String × Pose))
    (init : List Pose) (rotThreshold transThreshold : ℚ)
    (hkeys : (H.map Prod.fst).Nodup)
    (hwin : (GeometryUtil.find_best_hypothesis ops H init rotThreshold transThreshold).1 ≠ "") :
    (GeometryUtil.find_best_hypothesis ops H init rotThreshold transThreshold).1
      ∈ H.map Prod.fst ∧
    ∀ p : Pose,
      ((GeometryUtil.find_best_hypothesis ops H init rotThreshold transThreshold).1, p) ∈ H →
      (GeometryUtil.find_best_hypothesis ops H init rotThreshold transThreshold).2 =
        (H.filter (fun jt =>
          GeometryUtil.poses_are_similar ops p jt.2 rotThreshold transThreshold)).map
            Prod.snd ∧
      (GeometryUtil.find_best_hypothesis ops H init rotThreshold transThreshold).2.length =
        GeometryUtil.similarity_count ops H p rotThreshold transThreshold ∧
      (GeometryUtil.poses_are_similar ops p p rotThreshold transThreshold = true →
        p ∈ (GeometryUtil.find_best_hypothesis ops H init rotThreshold transThreshold).2) := by
  rcases find_best_hypothesis_spec ops H init rotThreshold transThreshold with
    ⟨hr, _⟩ | ⟨l1, w, l2, hH, hr, _, _, _⟩
  · rw [hr] at hwin
    exact absurd rfl hwin
  · have hw : w ∈ H := by rw [hH]; simp
    rw [hr]
    refine ⟨List.mem_map.2 ⟨w, hw, rfl⟩, ?_⟩
    intro p hp
    have hpw : p = w.2 := eq_of_mem_of_nodup_keys hkeys hp hw
    rw [hpw]
    exact ⟨rfl, inliers_of_length ops H w rotThreshold transThreshold,
      fun hs => List.mem_map.2 ⟨w, List.mem_filter.2 ⟨hw, hs⟩, rfl⟩⟩

/-- Witness for C24: three axis poses; the winner "b" (offset 48) has the inliers at
    offsets 48 and 50. -/
theorem find_best_hypothesis_inliers_witness :
    (GeometryUtil.find_best_hypothesis axisPoseOps
      [("a", ⟨0, 0⟩), ("b", ⟨0, 48⟩), ("c", ⟨0, 50⟩)] [] 1 5).1
      ∈ [("a", (⟨0, 0⟩ : AxisPose)), ("b", ⟨0, 48⟩), ("c", ⟨0, 50⟩)].map Prod.fst ∧
    (GeometryUtil.find_best_hypothesis axisPoseOps
      [("a", ⟨0, 0⟩), ("b", ⟨0, 48⟩), ("c", ⟨0, 50⟩)] [] 1 5).2 =
      ([("a", (⟨0, 0⟩ : AxisPose)), ("b", ⟨0, 48⟩), ("c", ⟨0, 50⟩)].filter (fun jt =>
        GeometryUtil.poses_are_similar axisPoseOps ⟨0, 48⟩ jt.2 1 5)).map Prod.snd :=
  have h := find_best_hypothesis_inliers axisPoseOps
    [("a", ⟨0, 0⟩), ("b", ⟨0, 48⟩), ("c", ⟨0, 50⟩)] [] 1 5 (by decide) (by decide)
  ⟨h.1, (h.2 ⟨0, 48⟩ (by decide)).1⟩


/-! ## Forest descent -/

section forest

theorem readAt_set_ne {α : Type} (a : List α) (i j : Int) (v : α) (hi : 0 ≤ i)
    (h : j ≠ i) : readAt (a.set i.toNat v) j = readAt a j := by
  unfold readAt
  by_cases hj : 0 ≤ j
  · rw [if_pos hj, if_pos hj]
    have hne : i.toNat ≠ j.toNat := by
      intro heq
      apply h
      have h1 := Int.toNat_of_nonneg hi
      have h2 := Int.toNat_of_nonneg hj
      omega
    rw [List.getElem?_set_ne hne]
  · rw [if_neg hj, if_neg hj]

theorem readAt_nonneg {α : Type} {a : List α} {i : Int} {v : α}
    (h : readAt a i = some v) : 0 ≤ i ∧ a[i.toNat]? = some v := by
  unfold readAt at h
  by_cases hi : 0 ≤ i
  · rw [if_pos hi] at h
    exact ⟨hi, h⟩
  · rw [if_neg hi] at h
    exact Option.noConfusion h

theorem writeLeaf_spec (leafData leafData1 : List (List Int)) (i : Int) (t : Nat) (v : Int)
    (h : writeLeaf leafData i t v = some leafData1) :
    leafData1.length = leafData.length ∧
    (∀ j : Int, j ≠ i → readAt leafData1 j = readAt leafData j) ∧
    (∃ row, readAt leafData i = some row ∧ t < row.length ∧
      readAt leafData1 i = some (row.set t v)) := by
  unfold writeLeaf at h
  cases hrow : readAt leafData i with
  | none => rw [hrow] at h; exact Option.noConfusion h
  | some row =>
    rw [hrow] at h
    simp only [] at h
    obtain ⟨hi, hget⟩ := readAt_nonneg hrow
    by_cases ht : t < row.length
    · rw [if_pos ht] at h
      have h1 := Option.some.inj h
      subst h1
      refine ⟨List.length_set _ _ _, fun j hj => readAt_set_ne _ _ _ _ hi hj, row, rfl, ht, ?_⟩
      have hlt : i.toNat < leafData.length := (List.getElem?_eq_some_iff.1 hget).1
      unfold readAt
      rw [if_pos hi]
      simp [hlt]
    · rw [if_neg ht] at h
      exact Option.noConfusion h

theorem descend_of_leaf (NTREES : Nat) (forestTexture : List NodeEntry)
    (currentFeature : RGBDPatchDescriptor) (treeIdx fuel : Nat) (node : NodeEntry)
    (h : node.leafIdx ≥ 0) :
    descend NTREES forestTexture currentFeature treeIdx fuel node = Except.ok node.leafIdx := by
  cases fuel <;> simp [descend, h]

theorem descend_succ_of_not_leaf (NTREES : Nat) (forestTexture : List NodeEntry)
    (currentFeature : RGBDPatchDescriptor) (treeIdx fuel : Nat) (node : NodeEntry)
    (h : node.leafIdx < 0) :
    descend NTREES forestTexture currentFeature treeIdx (fuel + 1) node =
      match readAt currentFeature.data node.featureIdx with
      | none => Except.error KernelError.outOfBounds
      | some value =>
        match readAt forestTexture
          ((if value > node.featureThreshold then node.leftChildIdx + 1
            else node.leftChildIdx) * NTREES + treeIdx) with
        | none => Except.error KernelError.outOfBounds
        | some node1 => descend NTREES forestTexture currentFeature treeIdx fuel node1 := by
  have hnl : ¬ node.leafIdx ≥ 0 := by omega
  have hidx : ∀ value : ℚ,
      node.leftChildIdx + (if value > node.featureThreshold then 1 else 0) =
      (if value > node.featureThreshold then node.leftChildIdx + 1 else node.leftChildIdx) := by
    intro value
    split_ifs <;> simp
  simp only [descend, if_neg hnl, hidx]

theorem descend_move (NTREES : Nat) (forestTexture : List NodeEntry)
    (currentFeature : RGBDPatchDescriptor) (treeIdx fuel : Nat) (node node1 : NodeEntry)
    (value : ℚ) (h : node.leafIdx < 0)
    (hv : readAt currentFeature.data node.featureIdx = some value)
    (hn : readAt forestTexture
      ((if value > node.featureThreshold then node.leftChildIdx + 1 else node.leftChildIdx)
        * NTREES + treeIdx) = some node1) :
    descend NTREES forestTexture currentFeature treeIdx (fuel + 1) node =
      descend NTREES forestTexture currentFeature treeIdx fuel node1 := by
  rw [descend_succ_of_not_leaf _ _ _ _ _ _ h, hv]
  dsimp only
  rw [hn]

theorem descend_not_ok_of_no_value (NTREES : Nat) (forestTexture : List NodeEntry)
    (currentFeature : RGBDPatchDescriptor) (treeIdx fuel : Nat) (node : NodeEntry)
    (leaf : Int) (h : node.leafIdx < 0)
    (hv : readAt currentFeature.data node.featureIdx = none) :
    descend NTREES forestTexture currentFeature treeIdx (fuel + 1) node ≠ Except.ok leaf := by
  rw [descend_succ_of_not_leaf _ _ _ _ _ _ h, hv]
  intro hh
  exact Except.noConfusion hh

theorem descend_not_ok_of_no_node (NTREES : Nat) (forestTexture : List NodeEntry)
    (currentFeature : RGBDPatchDescriptor) (treeIdx fuel : Nat) (node : NodeEntry)
    (value : ℚ) (leaf : Int) (h : node.leafIdx < 0)
    (hv : readAt currentFeature.data node.featureIdx = some value)
    (hn : readAt forestTexture
      ((if value > node.featureThreshold then node.leftChildIdx + 1 else node.leftChildIdx)
        * NTREES + treeIdx) = none) :
    descend NTREES forestTexture currentFeature treeIdx (fuel + 1) node ≠ Except.ok leaf := by
  rw [descend_succ_of_not_leaf _ _ _ _ _ _ h, hv]
  dsimp only
  rw [hn]
  intro hh
  exact Except.noConfusion hh

theorem descend_zero_not_ok (NTREES : Nat) (forestTexture : List NodeEntry)
    (currentFeature : RGBDPatchDescriptor) (treeIdx : Nat) (node : NodeEntry)
    (leaf : Int) (h : node.leafIdx < 0) :
    descend NTREES forestTexture currentFeature treeIdx 0 node ≠ Except.ok leaf := by
  have hnl : ¬ node.leafIdx ≥ 0 := by omega
  simp only [descend, if_neg hnl]
  intro hh
  exact Except.noConfusion hh

theorem reachesLeaf_descend (NTREES : Nat) (forestTexture : List NodeEntry)
    (currentFeature : RGBDPatchDescriptor) (treeIdx : Nat) (i : Int) (k : Nat) (leaf : Int)
    (h : ReachesLeaf NTREES forestTexture currentFeature treeIdx i k leaf) :
    ∃ node, readAt forestTexture (i * NTREES + treeIdx) = some node ∧
      ∀ fuel, k ≤ fuel →
        descend NTREES forestTexture currentFeature treeIdx fuel node = Except.ok leaf := by
  induction h with
  | leaf i node hread hleaf =>
    exact ⟨node, hread, fun fuel _ => descend_of_leaf _ _ _ _ _ _ hleaf⟩
  | move i node value k leaf hread hneg hv _ ih =>
    obtain ⟨node1, hread1, hdesc⟩ := ih
    refine ⟨node, hread, fun fuel hfuel => ?_⟩
    obtain ⟨fuel1, rfl⟩ : ∃ fuel1, fuel = fuel1 + 1 := ⟨fuel - 1, by omega⟩
    rw [descend_move _ _ _ _ _ _ _ _ hneg hv hread1]
    exact hdesc fuel1 (by omega)

theorem descend_reachesLeaf (NTREES : Nat) (forestTexture : List NodeEntry)
    (currentFeature : RGBDPatchDescriptor) (treeIdx : Nat) (fuel : Nat) :
    ∀ (i : Int) (node : NodeEntry) (leaf : Int),
      readAt forestTexture (i * NTREES + treeIdx) = some node →
      descend NTREES forestTexture currentFeature treeIdx fuel node = Except.ok leaf →
      ∃ k, k ≤ fuel ∧ ReachesLeaf NTREES forestTexture currentFeature treeIdx i k leaf := by
  induction fuel with
  | zero =>
    intro i node leaf hread hd
    by_cases hl : node.leafIdx ≥ 0
    · rw [descend_of_leaf _ _ _ _ _ _ hl] at hd
      have := Except.ok.inj hd
      subst this
      exact ⟨0, Nat.le_refl 0, ReachesLeaf.leaf i node hread hl⟩
    · exact absurd hd (descend_zero_not_ok _ _ _ _ _ _ (by omega))
  | succ fuel ih =>
    intro i node leaf hread hd
    by_cases hl : node.leafIdx ≥ 0
    · rw [descend_of_leaf _ _ _ _ _ _ hl] at hd
      have := Except.ok.inj hd
      subst this
      exact ⟨0, Nat.zero_le _, ReachesLeaf.leaf i node hread hl⟩
    · have hneg : node.leafIdx < 0 := by omega
      cases hv : readAt currentFeature.data node.featureIdx with
      | none => exact absurd hd (descend_not_ok_of_no_value _ _ _ _ _ _ _ hneg hv)
      | some value =>
        cases hn : readAt forestTexture
            ((if value > node.featureThreshold then node.leftChildIdx + 1
              else node.leftChildIdx) * NTREES + treeIdx) with
        | none => exact absurd hd (descend_not_ok_of_no_node _ _ _ _ _ _ _ _ hneg hv hn)
        | some node1 =>
          rw [descend_move _ _ _ _ _ _ _ _ hneg hv hn] at hd
          obtain ⟨k, hk, hreach⟩ := ih _ node1 leaf hn hd
          exact ⟨k + 1, Nat.succ_le_succ hk, ReachesLeaf.move i node value k leaf hread hneg hv
            hreach⟩

theorem descend_mono (NTREES : Nat) (forestTexture : List NodeEntry)
    (currentFeature : RGBDPatchDescriptor) (treeIdx : Nat) (fuel : Nat) :
    ∀ (node : NodeEntry) (leaf : Int) (fuel1 : Nat), fuel ≤ fuel1 →
      descend NTREES forestTexture currentFeature treeIdx fuel node = Except.ok leaf →
      descend NTREES forestTexture currentFeature treeIdx fuel1 node = Except.ok leaf := by
  induction fuel with
  | zero =>
    intro node leaf fuel1 _ hd
    by_cases hl : node.leafIdx ≥ 0
    · rw [descend_of_leaf _ _ _ _ _ _ hl] at hd ⊢
      exact hd
    · exact absurd hd (descend_zero_not_ok _ _ _ _ _ _ (by omega))
  | succ fuel ih =>
    intro node leaf fuel1 hle hd
    by_cases hl : node.leafIdx ≥ 0
    · rw [descend_of_leaf _ _ _ _ _ _ hl] at hd ⊢
      exact hd
    · have hneg : node.leafIdx < 0 := by omega
      obtain ⟨fuel2, rfl⟩ : ∃ fuel2, fuel1 = fuel2 + 1 := ⟨fuel1 - 1, by omega⟩
      cases hv : readAt currentFeature.data node.featureIdx with
      | none => exact absurd hd (descend_not_ok_of_no_value _ _ _ _ _ _ _ hneg hv)
      | some value =>
        cases hn : readAt forestTexture
            ((if value > node.featureThreshold then node.leftChildIdx + 1
              else node.leftChildIdx) * NTREES + treeIdx) with
        | none => exact absurd hd (descend_not_ok_of_no_node _ _ _ _ _ _ _ _ hneg hv hn)
        | some node1 =>
          rw [descend_move _ _ _ _ _ _ _ _ hneg hv hn] at hd ⊢
          exact ih node1 leaf fuel2 (by omega) hd

theorem evaluate_tree_fuel_independent (NTREES : Nat) (forestTexture : List NodeEntry)
    (currentFeature : RGBDPatchDescriptor) (treeIdx : Nat) (fuel1 fuel2 : Nat)
    (leaf1 leaf2 : Int)
    (h1 : evaluate_tree NTREES fuel1 forestTexture currentFeature treeIdx = Except.ok leaf1)
    (h2 : evaluate_tree NTREES fuel2 forestTexture currentFeature treeIdx = Except.ok leaf2) :
    leaf1 = leaf2 := by
  unfold evaluate_tree at h1 h2
  dsimp only at h1 h2
  cases hn : readAt forestTexture ((0 : Int) * NTREES + treeIdx) with
  | none => rw [hn] at h1; exact Except.noConfusion h1
  | some node =>
    rw [hn] at h1 h2
    dsimp only at h1 h2
    have e1 := descend_mono _ _ _ _ fuel1 node leaf1 (max fuel1 fuel2) (Nat.le_max_left _ _) h1
    have e2 := descend_mono _ _ _ _ fuel2 node leaf2 (max fuel1 fuel2) (Nat.le_max_right _ _) h2
    rw [e1] at e2
    exact Except.ok.inj e2

end forest


section forest2

theorem writeLeaf_recorded (leafData leafData1 : List (List Int)) (i : Int) (t : Nat) (v : Int)
    (h : writeLeaf leafData i t v = some leafData1) :
    recordedLeaf leafData1 i t = some v ∧
    ∀ t1, t1 ≠ t → recordedLeaf leafData1 i t1 = recordedLeaf leafData i t1 := by
  obtain ⟨_, _, row, hrow, ht, hrow1⟩ := writeLeaf_spec _ _ _ _ _ h
  unfold recordedLeaf
  rw [hrow, hrow1]
  constructor
  · simp [ht]
  · intro t1 hne
    simp [List.getElem?_set_ne (Ne.symm hne)]

theorem recordedLeaf_of_readAt_eq (a b : List (List Int)) (i : Int) (t : Nat)
    (h : readAt a i = readAt b i) : recordedLeaf a i t = recordedLeaf b i t := by
  unfold recordedLeaf
  rw [h]

theorem evaluate_trees_spec (NTREES fuel : Nat) (forestTexture : List NodeEntry)
    (currentFeature : RGBDPatchDescriptor) (i : Int) (ts : List Nat) :
    ∀ (leafData out : List (List Int)),
      evaluate_trees NTREES fuel forestTexture currentFeature i ts leafData = Except.ok out →
      out.length = leafData.length ∧
      (∀ j : Int, j ≠ i → readAt out j = readAt leafData j) ∧
      (∀ t ∈ ts, ∃ v, evaluate_tree NTREES fuel forestTexture currentFeature t = Except.ok v ∧
        recordedLeaf out i t = some v) ∧
      (∀ t, t ∉ ts → recordedLeaf out i t = recordedLeaf leafData i t) := by
  induction ts with
  | nil =>
    intro leafData out h
    have := Except.ok.inj h
    subst this
    exact ⟨rfl, fun _ _ => rfl, fun t ht => absurd ht (List.not_mem_nil t), fun _ _ => rfl⟩
  | cons t rest ih =>
    intro leafData out h
    unfold evaluate_trees at h
    cases hv : evaluate_tree NTREES fuel forestTexture currentFeature t with
    | error e => rw [hv] at h; exact Except.noConfusion h
    | ok v =>
      rw [hv] at h
      dsimp only at h
      cases hw : writeLeaf leafData i t v with
      | none => rw [hw] at h; exact Except.noConfusion h
      | some leafData1 =>
        rw [hw] at h
        dsimp only at h
        obtain ⟨hlen, hframe, hrec, hkeep⟩ := ih leafData1 out h
        obtain ⟨hlen1, hframe1, _⟩ := writeLeaf_spec _ _ _ _ _ hw
        obtain ⟨hwritten, hother⟩ := writeLeaf_recorded _ _ _ _ _ hw
        refine ⟨hlen.trans hlen1, fun j hj => (hframe j hj).trans (hframe1 j hj), ?_, ?_⟩
        · intro t1 ht1
          rcases List.mem_cons.1 ht1 with rfl | ht1
          · by_cases hin : t1 ∈ rest
            · exact hrec t1 hin
            · exact ⟨v, hv, (hkeep t1 hin).trans hwritten⟩
          · exact hrec t1 ht1
        · intro t1 ht1
          have hne : t1 ≠ t := fun hh => ht1 (hh ▸ List.mem_cons_self _ _)
          have hnin : t1 ∉ rest := fun hh => ht1 (List.mem_cons_of_mem _ hh)
          exact (hkeep t1 hnin).trans (hother t1 hne)

theorem evaluate_trees_returns (NTREES fuel : Nat) (forestTexture : List NodeEntry)
    (currentFeature : RGBDPatchDescriptor) (i : Int) (ts : List Nat) :
    ∀ (leafData : List (List Int)) (row : List Int),
      readAt leafData i = some row → (∀ t ∈ ts, t < row.length) →
      (∀ t ∈ ts, ∃ v, evaluate_tree NTREES fuel forestTexture currentFeature t = Except.ok v) →
      ∃ out, evaluate_trees NTREES fuel forestTexture currentFeature i ts leafData
        = Except.ok out := by
  induction ts with
  | nil => intro leafData _ _ _ _; exact ⟨leafData, rfl⟩
  | cons t rest ih =>
    intro leafData row hrow hlt hev
    obtain ⟨v, hv⟩ := hev t (List.mem_cons_self _ _)
    have ht : t < row.length := hlt t (List.mem_cons_self _ _)
    have hw : writeLeaf leafData i t v
        = some (leafData.set i.toNat (row.set t v)) := by
      unfold writeLeaf
      rw [hrow]
      dsimp only
      rw [if_pos ht]
    obtain ⟨_, _, row0, hrow0, _, hrow1⟩ := writeLeaf_spec _ _ _ _ _ hw
    have hrr : row0 = row := Option.some.inj (hrow0.symm.trans hrow)
    subst hrr
    obtain ⟨out, hout⟩ := ih (leafData.set i.toNat (row0.set t v)) (row0.set t v) hrow1
      (fun t1 ht1 => by
        rw [List.length_set]
        exact hlt t1 (List.mem_cons_of_mem _ ht1))
      (fun t1 ht1 => hev t1 (List.mem_cons_of_mem _ ht1))
    refine ⟨out, ?_⟩
    unfold evaluate_trees
    rw [hv]
    dsimp only
    rw [hw]
    exact hout

theorem evaluate_tree_iff_reachesLeaf (NTREES fuel : Nat) (forestTexture : List NodeEntry)
    (currentFeature : RGBDPatchDescriptor) (t : Nat) (leaf : Int) :
    evaluate_tree NTREES fuel forestTexture currentFeature t = Except.ok leaf ↔
      ∃ k, k ≤ fuel ∧ ReachesLeaf NTREES forestTexture currentFeature t 0 k leaf := by
  constructor
  · intro h
    unfold evaluate_tree at h
    dsimp only at h
    cases hn : readAt forestTexture ((0 : Int) * NTREES + t) with
    | none => rw [hn] at h; exact Except.noConfusion h
    | some node =>
      rw [hn] at h
      dsimp only at h
      exact descend_reachesLeaf _ _ _ _ fuel 0 node leaf hn h
  · rintro ⟨k, hk, hreach⟩
    obtain ⟨node, hread, hdesc⟩ := reachesLeaf_descend _ _ _ _ _ _ _ hreach
    unfold evaluate_tree
    dsimp only
    rw [hread]
    exact hdesc fuel hk

end forest2

/-- C29: for the pixel (x, y), with its descriptor and its row of `leafData` inside the
    arrays, and for every tree: the leaf index that `evaluate_forest_shared` computes
    is the one of the descent described in the specification, which starts at node 0
    and, while the current node is not a leaf, moves to `leftChildIdx + 1` if the
    descriptor value at the node's `featureIdx` is strictly greater than the node's
    threshold and to `leftChildIdx` otherwise, node `i` of tree `t` being read at
    index `i * NTREES + t`. If that descent reaches its first leaf within the allotted
    iterations for every tree, the kernel returns and the value recorded for
    (pixel, tree) is the `leafIdx` of that leaf; and whenever the kernel returns,
    every recorded value is the `leafIdx` of the first leaf of such a descent. -/
theorem evaluate_forest_shared_descent (NTREES fuel : Nat) (forestTexture : List NodeEntry)
    (descriptorsData : List RGBDPatchDescriptor) (width : Int) (leafData : List (List Int))
    (x y : Int) (currentFeature : RGBDPatchDescriptor) (row : List Int)
    (hfeature : readAt descriptorsData (y * width + x) = some currentFeature)
    (hrow : readAt leafData (y * width + x) = some row) (hlen : NTREES ≤ row.length) :
    (∀ (t : Nat) (leaf : Int),
      evaluate_tree NTREES fuel forestTexture currentFeature t = Except.ok leaf ↔
        ∃ k, k ≤ fuel ∧ ReachesLeaf NTREES forestTexture currentFeature t 0 k leaf) ∧
    (∀ (steps : Nat → Nat) (leafOf : Nat → Int),
      (∀ t, t < NTREES → steps t ≤ fuel ∧
        ReachesLeaf NTREES forestTexture currentFeature t 0 (steps t) (leafOf t)) →
      ∃ out,
        evaluate_forest_shared NTREES fuel forestTexture descriptorsData width leafData x y
          = Except.ok out ∧
        ∀ t, t < NTREES → recordedLeaf out (y * width + x) t = some (leafOf t)) ∧
    (∀ out,
      evaluate_forest_shared NTREES fuel forestTexture descriptorsData width leafData x y
        = Except.ok out →
      ∀ t, t < NTREES → ∃ k leaf, k ≤ fuel ∧
        ReachesLeaf NTREES forestTexture currentFeature t 0 k leaf ∧
        recordedLeaf out (y * width + x) t = some leaf) := by
  have hdef : evaluate_forest_shared NTREES fuel forestTexture descriptorsData width leafData
      x y = evaluate_trees NTREES fuel forestTexture currentFeature (y * width + x)
        (List.range NTREES) leafData := by
    unfold evaluate_forest_shared
    dsimp only
    rw [hfeature]
  refine ⟨fun t leaf => evaluate_tree_iff_reachesLeaf _ _ _ _ t leaf, ?_, ?_⟩
  · intro steps leafOf h
    have hev : ∀ t ∈ List.range NTREES,
        evaluate_tree NTREES fuel forestTexture currentFeature t = Except.ok (leafOf t) :=
      fun t ht => (evaluate_tree_iff_reachesLeaf _ _ _ _ t (leafOf t)).2
        ⟨steps t, (h t (List.mem_range.1 ht)).1, (h t (List.mem_range.1 ht)).2⟩
    obtain ⟨out, hout⟩ := evaluate_trees_returns NTREES fuel forestTexture currentFeature
      (y * width + x) (List.range NTREES) leafData row hrow
      (fun t ht => Nat.lt_of_lt_of_le (List.mem_range.1 ht) hlen)
      (fun t ht => ⟨leafOf t, hev t ht⟩)
    refine ⟨out, hdef.trans hout, fun t ht => ?_⟩
    obtain ⟨v, hv, hrec⟩ := (evaluate_trees_spec _ _ _ _ _ _ leafData out hout).2.2.1 t
      (List.mem_range.2 ht)
    rw [hev t (List.mem_range.2 ht)] at hv
    rw [hrec, ← Except.ok.inj hv]
  · intro out hout t ht
    rw [hdef] at hout
    obtain ⟨v, hv, hrec⟩ := (evaluate_trees_spec _ _ _ _ _ _ leafData out hout).2.2.1 t
      (List.mem_range.2 ht)
    obtain ⟨k, hk, hreach⟩ := (evaluate_tree_iff_reachesLeaf _ _ _ _ t v).1 hv
    exact ⟨k, v, hk, hreach, hrec⟩

/-- Witness for C29: pixel (0,0) of the example image on the example forest; tree 0
    descends to the leaf 11 within the 10 iterations allotted, and the value recorded
    for tree 1 in the output of the call is the first leaf of its descent. -/
theorem evaluate_forest_shared_descent_witness :
    (∃ k, k ≤ 10 ∧ ReachesLeaf 2 exampleForest ⟨[7, 1]⟩ 0 0 k 11) ∧
    (∃ k leaf, k ≤ 10 ∧ ReachesLeaf 2 exampleForest ⟨[7, 1]⟩ 1 0 k leaf ∧
      recordedLeaf [[11, 20], [0, 0]] (0 * 2 + 0) 1 = some leaf) :=
  have h := evaluate_forest_shared_descent 2 10 exampleForest exampleDescriptors 2
    [[0, 0], [0, 0]] 0 0 ⟨[7, 1]⟩ [0, 0] rfl rfl (by decide)
  ⟨(h.1 0 11).1 rfl, h.2.2 [[11, 20], [0, 0]] rfl 1 (by decide)⟩

/-- C30: the result of `evaluate_forest_shared` for the pixel (x, y) is a function of
    the forest and of the descriptor of that pixel. Two calls on the same forest whose
    descriptor arrays agree at index `y * width + x` give the same result, whatever the
    descriptors of the other pixels are; two calls that return record the same leaf
    index for every tree, whatever the previous contents of the output and the number
    of iterations allotted; and a call that returns leaves the output with the same
    number of entries, every entry other than `y * width + x` as it was, and in that
    entry every position that is not one of the `NTREES` trees as it was. -/
theorem evaluate_forest_shared_deterministic (NTREES : Nat) (forestTexture : List NodeEntry)
    (width x y : Int) :
    (∀ (fuel : Nat) (descriptors1 descriptors2 : List RGBDPatchDescriptor)
        (leafData : List (List Int)),
      readAt descriptors1 (y * width + x) = readAt descriptors2 (y * width + x) →
      evaluate_forest_shared NTREES fuel forestTexture descriptors1 width leafData x y
        = evaluate_forest_shared NTREES fuel forestTexture descriptors2 width leafData x y) ∧
    (∀ (fuel1 fuel2 : Nat) (descriptors1 descriptors2 : List RGBDPatchDescriptor)
        (leafData1 leafData2 out1 out2 : List (List Int)),
      readAt descriptors1 (y * width + x) = readAt descriptors2 (y * width + x) →
      evaluate_forest_shared NTREES fuel1 forestTexture descriptors1 width leafData1 x y
        = Except.ok out1 →
      evaluate_forest_shared NTREES fuel2 forestTexture descriptors2 width leafData2 x y
        = Except.ok out2 →
      ∀ t, t < NTREES →
        recordedLeaf out1 (y * width + x) t = recordedLeaf out2 (y * width + x) t ∧
        (recordedLeaf out1 (y * width + x) t).isSome = true) ∧
    (∀ (fuel : Nat) (descriptorsData : List RGBDPatchDescriptor)
        (leafData out : List (List Int)),
      evaluate_forest_shared NTREES fuel forestTexture descriptorsData width leafData x y
        = Except.ok out →
      out.length = leafData.length ∧
      (∀ j : Int, j ≠ y * width + x → readAt out j = readAt leafData j) ∧
      (∀ t, NTREES ≤ t →
        recordedLeaf out (y * width + x) t = recordedLeaf leafData (y * width + x) t)) := by
  refine ⟨?_, ?_, ?_⟩
  · intro fuel d1 d2 leafData h
    unfold evaluate_forest_shared
    dsimp only
    rw [h]
  · intro fuel1 fuel2 d1 d2 ld1 ld2 out1 out2 h h1 h2 t ht
    unfold evaluate_forest_shared at h1 h2
    dsimp only at h1 h2
    rw [h] at h1
    cases hf : readAt d2 (y * width + x) with
    | none => rw [hf] at h1; exact Except.noConfusion h1
    | some currentFeature =>
      rw [hf] at h1 h2
      dsimp only at h1 h2
      obtain ⟨v1, hv1, hrec1⟩ := (evaluate_trees_spec _ _ _ _ _ _ ld1 out1 h1).2.2.1 t
        (List.mem_range.2 ht)
      obtain ⟨v2, hv2, hrec2⟩ := (evaluate_trees_spec _ _ _ _ _ _ ld2 out2 h2).2.2.1 t
        (List.mem_range.2 ht)
      have hv : v1 = v2 := evaluate_tree_fuel_independent _ _ _ _ _ _ _ _ hv1 hv2
      rw [hrec1, hrec2, hv]
      exact ⟨rfl, rfl⟩
  · intro fuel d leafData out h
    unfold evaluate_forest_shared at h
    dsimp only at h
    cases hf : readAt d (y * width + x) with
    | none => rw [hf] at h; exact Except.noConfusion h
    | some currentFeature =>
      rw [hf] at h
      dsimp only at h
      obtain ⟨hlen, hframe, _, hkeep⟩ := evaluate_trees_spec _ _ _ _ _ _ leafData out h
      exact ⟨hlen, hframe, fun t ht => hkeep t (fun hin =>
        absurd (List.mem_range.1 hin) (Nat.not_lt.2 ht))⟩

/-- Witness for C30: pixel (0,0) of the example forest; a second call in which the
    descriptor of the other pixel, the previous output and the number of iterations
    differ records the same leaf index for tree 1, and the entry of the other pixel
    and the third position of the written entry are as they were. -/
theorem evaluate_forest_shared_deterministic_witness :
    (recordedLeaf [[11, 20], [0, 0]] (0 * 2 + 0) 1
        = recordedLeaf [[11, 20, 5], [7, 7, 7]] (0 * 2 + 0) 1 ∧
      (recordedLeaf [[11, 20], [0, 0]] (0 * 2 + 0) 1).isSome = true) ∧
    (([[11, 20, 5], [7, 7, 7]] : List (List Int)).length
        = ([[3, 4, 5], [7, 7, 7]] : List (List Int)).length ∧
      readAt ([[11, 20, 5], [7, 7, 7]] : List (List Int)) 1
        = readAt [[3, 4, 5], [7, 7, 7]] 1 ∧
      recordedLeaf [[11, 20, 5], [7, 7, 7]] (0 * 2 + 0) 2
        = recordedLeaf [[3, 4, 5], [7, 7, 7]] (0 * 2 + 0) 2) :=
  have h := evaluate_forest_shared_deterministic 2 exampleForest 2 0 0
  have h3 := h.2.2 4 [⟨[7, 1]⟩, ⟨[100, 100]⟩] [[3, 4, 5], [7, 7, 7]]
    [[11, 20, 5], [7, 7, 7]] rfl
  ⟨h.2.1 10 4 exampleDescriptors [⟨[7, 1]⟩, ⟨[100, 100]⟩] [[0, 0], [0, 0]]
      [[3, 4, 5], [7, 7, 7]] [[11, 20], [0, 0]] [[11, 20, 5], [7, 7, 7]] rfl rfl rfl 1
      (by decide),
   h3.1, h3.2.1 1 (by decide), h3.2.2 2 (by decide)⟩


section aux11

theorem process_frame_fused_of_stop_integration {Pose : Type} (c : SLAMComponent)
    (ctx : SLAMContext Pose) (fi : FrameInput Pose)
    (hm : ctx.settings.behaviourOnFailure = FailureMode.FAILUREMODE_STOP_INTEGRATION)
    (hmirror : c.m_mirrorSceneID = "")
    (hq : fi.tracked.trackerResult ≠ TrackingResult.TRACKING_GOOD)
    (h : fi.hasImagesNow = true) :
    (process_frame c ctx fi).fused = true ↔
      c.m_fusionEnabled = true ∧ c.m_fusedFramesCount < c.m_initialFramesToFuse ∧
      ¬ (c.m_fallibleTracker = true ∧ fi.lost_tracking = true) := by
  have hq1 : (track_frame c ctx fi).trackingState.trackerResult
      = TrackingResult.TRACKING_POOR := by
    rw [(track_frame_quality c ctx fi).1]
    unfold determine_tracking_quality acquire_pose
    rw [hm]
    simp only [hmirror, ne_eq, not_true_eq_false, if_false]
    cases hr : fi.tracked.trackerResult
    · exact absurd hr hq
    · simp [hr]
    · simp [hr]
  rw [process_frame_fused, track_frame_runFusion, runFusion_eq_true_iff, hq1]
  simp [h]

theorem process_frames_stop_integration_poor {Pose : Type} (fis : List (FrameInput Pose)) :
    ∀ (c : SLAMComponent) (ctx : SLAMContext Pose),
      ctx.settings.behaviourOnFailure = FailureMode.FAILUREMODE_STOP_INTEGRATION →
      c.m_mirrorSceneID = "" → c.m_fusionEnabled = true →
      c.m_fusedFramesCount ≤ c.m_initialFramesToFuse →
      c.m_initialFramesToFuse < SIZE_MODULUS →
      (∀ fi ∈ fis, fi.hasImagesNow = true ∧
        fi.tracked.trackerResult ≠ TrackingResult.TRACKING_GOOD ∧
        ¬ (c.m_fallibleTracker = true ∧ fi.lost_tracking = true) ∧
        ¬ (fi.currentSubengineExhausted = true ∧ ctx.settings.usingGlobalPoses = false)) →
      (process_frames c ctx fis).1.m_fusedFramesCount
        = min (c.m_fusedFramesCount + fis.length) c.m_initialFramesToFuse ∧
      ∀ pre fi post, fis = pre ++ fi :: post →
        ((process_frame (process_frames c ctx pre).1 (process_frames c ctx pre).2.1 fi).fused
            = true ↔
          c.m_fusedFramesCount + pre.length < c.m_initialFramesToFuse) := by
  induction fis with
  | nil =>
    intro c ctx _ _ _ hle _ _
    refine ⟨?_, ?_⟩
    · simp only [process_frames, List.length_nil, Nat.add_zero]
      exact (Nat.min_eq_left hle).symm
    · intro pre fi post h
      exact absurd h (by simp)
  | cons f rest ih =>
    intro c ctx hm hmirror hen hle hK h
    obtain ⟨hi, hq, hlost, hsub⟩ := h f (List.mem_cons_self _ _)
    have hcfg := process_frame_sameConfig c ctx f
    obtain ⟨_, hfall, _, hinit, _, hmir, _, _, _, _⟩ := hcfg
    have hset := process_frame_settings c ctx f
    have hcount := process_frame_fusedFramesCount c ctx f
    have hfused := process_frame_fused_of_stop_integration c ctx f hm hmirror hq hi
    have hen1 : (process_frame c ctx f).component.m_fusionEnabled = true := by
      rw [process_frame_fusionEnabled, if_neg, hen]
      rintro ⟨_, hs, hg⟩
      exact hsub ⟨hs, hg⟩
    have hcount1 : (process_frame c ctx f).component.m_fusedFramesCount
        = if c.m_fusedFramesCount < c.m_initialFramesToFuse then c.m_fusedFramesCount + 1
          else c.m_fusedFramesCount := by
      rw [hcount]
      by_cases hlt : c.m_fusedFramesCount < c.m_initialFramesToFuse
      · rw [hfused.2 ⟨hen, hlt, hlost⟩, if_pos hlt, if_pos rfl]
        exact Nat.mod_eq_of_lt (by omega)
      · have hnf : (process_frame c ctx f).fused = false := by
          rw [← Bool.not_eq_true]
          intro hf
          exact hlt (hfused.1 hf).2.1
        rw [hnf, if_neg hlt]
        rfl
    have hrest := ih (process_frame c ctx f).component (process_frame c ctx f).context
      ((congrArg Settings.behaviourOnFailure hset).trans hm) (hmir.trans hmirror) hen1
      (by rw [hcount1, hinit]; split_ifs <;> omega) (by rw [hinit]; exact hK)
      (fun x hx => by
        obtain ⟨a, b, c1, d⟩ := h x (List.mem_cons_of_mem _ hx)
        rw [hfall, hset]
        exact ⟨a, b, c1, d⟩)
    rw [hcount1, hinit] at hrest
    refine ⟨?_, ?_⟩
    · rw [process_frames_cons]
      dsimp only
      rw [hrest.1, List.length_cons]
      split_ifs <;> omega
    · intro pre fi post hsplit
      cases pre with
      | nil =>
        rw [List.nil_append] at hsplit
        have hf : f = fi := (List.cons.inj hsplit).1
        subst hf
        simp only [process_frames, List.length_nil, Nat.add_zero]
        constructor
        · intro hf
          exact (hfused.1 hf).2.1
        · intro hlt
          exact hfused.2 ⟨hen, hlt, hlost⟩
      | cons p pre1 =>
        rw [List.cons_append] at hsplit
        obtain ⟨hp, hrest1⟩ := List.cons.inj hsplit
        subst hp
        rw [process_frames_cons]
        dsimp only
        rw [hrest.2 pre1 fi post hrest1, List.length_cons]
        split_ifs <;> omega

end aux11

/-- C38: `find_best_hypothesis` does not clear its inlier output argument. When the
    list passed in holds `m` poses, a candidate becomes the best only if its inlier
    count exceeds `m`: a result other than the empty id with the list as it was
    passed in names a hypothesis of the set whose similarity count is greater than
    `m`; and whenever `m` is at least every candidate's count the function returns the
    empty id and leaves the list unchanged, also for a non-empty hypothesis set. -/
theorem find_best_hypothesis_keeps_inliers {Pose Vector3f DualQuatd : Type}
    (ops : PoseOps Pose Vector3f DualQuatd) (H : List (String × Pose))
    (init : List Pose) (rotThreshold transThreshold : ℚ) :
    (GeometryUtil.find_best_hypothesis ops H init rotThreshold transThreshold ≠ ("", init) →
      ∃ e ∈ H,
        GeometryUtil.find_best_hypothesis ops H init rotThreshold transThreshold
          = (e.1, GeometryUtil.inliers_of ops H e rotThreshold transThreshold) ∧
        init.length < GeometryUtil.similarity_count ops H e.2 rotThreshold transThreshold) ∧
    ((∀ e ∈ H, GeometryUtil.similarity_count ops H e.2 rotThreshold transThreshold
        ≤ init.length) →
      GeometryUtil.find_best_hypothesis ops H init rotThreshold transThreshold
        = ("", init)) := by
  rcases find_best_hypothesis_spec ops H init rotThreshold transThreshold with
    ⟨hr, _⟩ | ⟨l1, w, l2, hH, hr, hlt, _, _⟩
  · exact ⟨fun hne => absurd hr hne, fun _ => hr⟩
  · have hw : w ∈ H := by rw [hH]; simp
    refine ⟨fun _ => ⟨w, hw, hr, hlt⟩, fun hall => ?_⟩
    exact absurd (hall w hw) (Nat.not_le.2 hlt)

/-- Witness for C38: two hypotheses one unit apart (count 2 each) and an inlier list
    that already holds two poses: the empty id is returned and the list is as it
    was. -/
theorem find_best_hypothesis_keeps_inliers_witness :
    GeometryUtil.find_best_hypothesis axisPoseOps [("a", ⟨0, 0⟩), ("b", ⟨0, 1⟩)]
      [⟨0, 7⟩, ⟨0, 8⟩] 1 5 = ("", [⟨0, 7⟩, ⟨0, 8⟩]) :=
  (find_best_hypothesis_keeps_inliers axisPoseOps [("a", ⟨0, 0⟩), ("b", ⟨0, 1⟩)]
    [⟨0, 7⟩, ⟨0, 8⟩] 1 5).2 (by decide)

/-- C40: starting from `reset_scene`, under STOP_INTEGRATION, with the constructor's
    50 initial frames to fuse, the component tracking with its own tracker, and a
    stream of frames on each of which the tracker reports POOR or FAILED, no fallible
    tracker reports a loss and the image source does not disable fusion: a frame is
    fused if and only if fewer than 50 frames were processed before it, so exactly
    the first 50 frames are fused, and the fused-frame count after the stream is the
    number of frames up to 50 and 50 from then on. -/
theorem process_frames_poor_fuses_first_fifty {Pose : Type} (c : SLAMComponent)
    (ctx : SLAMContext Pose) (resetTrackingState : ITMTrackingState Pose)
    (fis : List (FrameInput Pose))
    (hm : ctx.settings.behaviourOnFailure = FailureMode.FAILUREMODE_STOP_INTEGRATION)
    (hinit : c.m_initialFramesToFuse = 50) (hmirror : c.m_mirrorSceneID = "")
    (hframes : ∀ fi ∈ fis, fi.hasImagesNow = true ∧
      (fi.tracked.trackerResult = TrackingResult.TRACKING_POOR ∨
        fi.tracked.trackerResult = TrackingResult.TRACKING_FAILED) ∧
      ¬ (c.m_fallibleTracker = true ∧ fi.lost_tracking = true) ∧
      ¬ (fi.currentSubengineExhausted = true ∧ ctx.settings.usingGlobalPoses = false)) :
    (process_frames (reset_scene c ctx resetTrackingState).1
      (reset_scene c ctx resetTrackingState).2.1 fis).1.m_fusedFramesCount
      = min fis.length 50 ∧
    ∀ pre fi post, fis = pre ++ fi :: post →
      ((process_frame
          (process_frames (reset_scene c ctx resetTrackingState).1
            (reset_scene c ctx resetTrackingState).2.1 pre).1
          (process_frames (reset_scene c ctx resetTrackingState).1
            (reset_scene c ctx resetTrackingState).2.1 pre).2.1 fi).fused = true ↔
        pre.length < 50) := by
  have h := process_frames_stop_integration_poor fis (reset_scene c ctx resetTrackingState).1
    (reset_scene c ctx resetTrackingState).2.1 hm hmirror rfl (Nat.zero_le _)
    (by
      show c.m_initialFramesToFuse < SIZE_MODULUS
      rw [hinit]
      unfold SIZE_MODULUS
      norm_num)
    (fun fi hfi => by
      obtain ⟨a, b, c1, d⟩ := hframes fi hfi
      refine ⟨a, ?_, c1, d⟩
      rcases b with b | b <;> rw [b] <;> simp)
  have hz : (reset_scene c ctx resetTrackingState).1.m_fusedFramesCount = 0 := rfl
  have hk : (reset_scene c ctx resetTrackingState).1.m_initialFramesToFuse = 50 := hinit
  rw [hz, hk] at h
  simp only [Nat.zero_add] at h
  exact h

/-- Witness for C40: 52 POOR frames after a reset leave the fused-frame count at 50. -/
theorem process_frames_poor_fuses_first_fifty_witness :
    (process_frames
      (reset_scene exampleComponent (exampleContext FailureMode.FAILUREMODE_STOP_INTEGRATION)
        { pose_d := 0, trackerResult := TrackingResult.TRACKING_GOOD }).1
      (reset_scene exampleComponent (exampleContext FailureMode.FAILUREMODE_STOP_INTEGRATION)
        { pose_d := 0, trackerResult := TrackingResult.TRACKING_GOOD }).2.1
      (List.replicate 52 (exampleFrame TrackingResult.TRACKING_POOR []))).1.m_fusedFramesCount
      = min (List.replicate 52 (exampleFrame TrackingResult.TRACKING_POOR [])).length 50 :=
  (process_frames_poor_fuses_first_fifty exampleComponent
    (exampleContext FailureMode.FAILUREMODE_STOP_INTEGRATION)
    { pose_d := 0, trackerResult := TrackingResult.TRACKING_GOOD }
    (List.replicate 52 (exampleFrame TrackingResult.TRACKING_POOR [])) rfl rfl rfl
    (fun fi hfi => by
      rw [List.eq_of_mem_replicate hfi]
      decide)).1


section forest3

theorem readAt_node_of_lt (NTREES n : Nat) (forestTexture : List NodeEntry) (treeIdx i : Nat)
    (hN : treeIdx < NTREES) (hlen : forestTexture.length = n * NTREES) (hi : i < n) :
    ∃ node, readAt forestTexture ((i : Int) * NTREES + treeIdx) = some node := by
  have hlt : i * NTREES + treeIdx < forestTexture.length := by
    rw [hlen]
    calc i * NTREES + treeIdx < i * NTREES + NTREES := by omega
      _ = (i + 1) * NTREES := by ring
      _ ≤ n * NTREES := Nat.mul_le_mul_right _ hi
  have hcast : ((i : Int) * NTREES + treeIdx) = ((i * NTREES + treeIdx : Nat) : Int) := by
    push_cast
    rfl
  refine ⟨forestTexture[i * NTREES + treeIdx], ?_⟩
  unfold readAt
  rw [hcast, if_pos (Int.natCast_nonneg _), Int.toNat_natCast]
  exact List.getElem?_eq_getElem hlt

theorem descend_terminates (NTREES n : Nat) (forestTexture : List NodeEntry)
    (currentFeature : RGBDPatchDescriptor) (treeIdx : Nat)
    (hN : treeIdx < NTREES) (hlen : forestTexture.length = n * NTREES)
    (hstruct : ∀ (i : Nat) (node : NodeEntry), i < n →
      readAt forestTexture ((i : Int) * NTREES + treeIdx) = some node → node.leafIdx < 0 →
      (i : Int) < node.leftChildIdx ∧ node.leftChildIdx + 1 < n)
    (hfeat : ∀ (i : Nat) (node : NodeEntry), i < n →
      readAt forestTexture ((i : Int) * NTREES + treeIdx) = some node → node.leafIdx < 0 →
      ∃ value, readAt currentFeature.data node.featureIdx = some value) :
    ∀ (m i : Nat), i < n → n - 1 - i ≤ m →
      ∃ node leaf, readAt forestTexture ((i : Int) * NTREES + treeIdx) = some node ∧
        0 ≤ leaf ∧
        descend NTREES forestTexture currentFeature treeIdx m node = Except.ok leaf := by
  intro m
  induction m with
  | zero =>
    intro i hi hm
    obtain ⟨node, hread⟩ := readAt_node_of_lt NTREES n forestTexture treeIdx i hN hlen hi
    by_cases hl : node.leafIdx ≥ 0
    · exact ⟨node, node.leafIdx, hread, hl, descend_of_leaf _ _ _ _ _ _ hl⟩
    · have := hstruct i node hi hread (by omega)
      omega
  | succ m ih =>
    intro i hi hm
    obtain ⟨node, hread⟩ := readAt_node_of_lt NTREES n forestTexture treeIdx i hN hlen hi
    by_cases hl : node.leafIdx ≥ 0
    · exact ⟨node, node.leafIdx, hread, hl, descend_of_leaf _ _ _ _ _ _ hl⟩
    · have hneg : node.leafIdx < 0 := by omega
      obtain ⟨hgt, hin⟩ := hstruct i node hi hread hneg
      obtain ⟨value, hv⟩ := hfeat i node hi hread hneg
      obtain ⟨j, hj, hjlt, hji⟩ : ∃ j : Nat,
          (j : Int) = (if value > node.featureThreshold then node.leftChildIdx + 1
            else node.leftChildIdx) ∧ j < n ∧ i < j := by
        refine ⟨(if value > node.featureThreshold then node.leftChildIdx + 1
            else node.leftChildIdx).toNat, ?_, ?_, ?_⟩ <;> split_ifs <;> omega
      obtain ⟨node1, leaf, hread1, hleaf, hdesc⟩ := ih j hjlt (by omega)
      rw [hj] at hread1
      refine ⟨node, leaf, hread, hleaf, ?_⟩
      rw [descend_move _ _ _ _ _ _ _ _ hneg hv hread1]
      exact hdesc

end forest3

/-- C39: for a forest whose trees have `n` nodes each (`n` at least 1, node `i` of
    tree `t` at index `i * NTREES + t` of a texture of `n * NTREES` entries, outside of
    which a read fails), in which every internal node has its `leftChildIdx` strictly
    greater than its own index and `leftChildIdx + 1` below `n`, and for every
    descriptor that has an entry at the `featureIdx` of every internal node: for each
    tree the descent loop terminates after fewer than `n` moves on a leaf index that
    is at least 0, with every node read inside the texture; and for a pixel whose
    descriptor and row of `leafData` are inside the arrays, `evaluate_forest_shared`
    returns with a leaf index that is at least 0 recorded for each tree. -/
theorem evaluate_forest_shared_terminates (NTREES n : Nat) (forestTexture : List NodeEntry)
    (currentFeature : RGBDPatchDescriptor)
    (hn : 0 < n) (hlen : forestTexture.length = n * NTREES)
    (hstruct : ∀ (t i : Nat) (node : NodeEntry), t < NTREES → i < n →
      readAt forestTexture ((i : Int) * NTREES + t) = some node → node.leafIdx < 0 →
      (i : Int) < node.leftChildIdx ∧ node.leftChildIdx + 1 < n)
    (hfeat : ∀ node ∈ forestTexture, node.leafIdx < 0 →
      0 ≤ node.featureIdx ∧ node.featureIdx < currentFeature.data.length) :
    (∀ t, t < NTREES → ∃ leaf, 0 ≤ leaf ∧
      (∃ k, k < n ∧ ReachesLeaf NTREES forestTexture currentFeature t 0 k leaf) ∧
      ∀ fuel, n - 1 ≤ fuel →
        evaluate_tree NTREES fuel forestTexture currentFeature t = Except.ok leaf) ∧
    (∀ (descriptorsData : List RGBDPatchDescriptor) (width x y : Int)
        (leafData : List (List Int)) (row : List Int) (fuel : Nat),
      readAt descriptorsData (y * width + x) = some currentFeature →
      readAt leafData (y * width + x) = some row → NTREES ≤ row.length → n - 1 ≤ fuel →
      ∃ out,
        evaluate_forest_shared NTREES fuel forestTexture descriptorsData width leafData x y
          = Except.ok out ∧
        ∀ t, t < NTREES → ∃ leaf, 0 ≤ leaf ∧
          recordedLeaf out (y * width + x) t = some leaf) := by
  have hvalue : ∀ (t i : Nat) (node : NodeEntry), t < NTREES → i < n →
      readAt forestTexture ((i : Int) * NTREES + t) = some node → node.leafIdx < 0 →
      ∃ value, readAt currentFeature.data node.featureIdx = some value := by
    intro t i node _ _ hread hneg
    have hmem : node ∈ forestTexture := by
      obtain ⟨hlt, hget⟩ := List.getElem?_eq_some_iff.1 (readAt_nonneg hread).2
      rw [← hget]
      exact List.getElem_mem hlt
    obtain ⟨h0, h1⟩ := hfeat node hmem hneg
    have hlt : node.featureIdx.toNat < currentFeature.data.length := by omega
    refine ⟨currentFeature.data[node.featureIdx.toNat], ?_⟩
    unfold readAt
    rw [if_pos h0]
    exact List.getElem?_eq_getElem hlt
  have htree : ∀ t, t < NTREES → ∃ leaf, 0 ≤ leaf ∧
      ∀ fuel, n - 1 ≤ fuel →
        evaluate_tree NTREES fuel forestTexture currentFeature t = Except.ok leaf := by
    intro t ht
    obtain ⟨node, leaf, hread, hleaf, hdesc⟩ := descend_terminates NTREES n forestTexture
      currentFeature t ht hlen (fun i node => hstruct t i node ht)
      (fun i node => hvalue t i node ht) (n - 1) 0 hn (by omega)
    refine ⟨leaf, hleaf, fun fuel hfuel => ?_⟩
    unfold evaluate_tree
    dsimp only
    have hz : ((0 : Int) * NTREES + t) = (((0 : Nat) : Int) * NTREES + t) := by simp
    rw [hz, hread]
    exact descend_mono _ _ _ _ (n - 1) node leaf fuel hfuel hdesc
  refine ⟨?_, ?_⟩
  · intro t ht
    obtain ⟨leaf, hleaf, hev⟩ := htree t ht
    obtain ⟨k, hk, hreach⟩ := (evaluate_tree_iff_reachesLeaf NTREES (n - 1) forestTexture
      currentFeature t leaf).1 (hev (n - 1) (Nat.le_refl _))
    exact ⟨leaf, hleaf, ⟨k, by omega, hreach⟩, hev⟩
  · intro descriptorsData width x y leafData row fuel hd hrow hrowlen hfuel
    have hdef : evaluate_forest_shared NTREES fuel forestTexture descriptorsData width leafData
        x y = evaluate_trees NTREES fuel forestTexture currentFeature (y * width + x)
          (List.range NTREES) leafData := by
      unfold evaluate_forest_shared
      dsimp only
      rw [hd]
    obtain ⟨out, hout⟩ := evaluate_trees_returns NTREES fuel forestTexture currentFeature
      (y * width + x) (List.range NTREES) leafData row hrow
      (fun t ht => Nat.lt_of_lt_of_le (List.mem_range.1 ht) hrowlen)
      (fun t ht => by
        obtain ⟨leaf, _, hev⟩ := htree t (List.mem_range.1 ht)
        exact ⟨leaf, hev fuel hfuel⟩)
    refine ⟨out, hdef.trans hout, fun t ht => ?_⟩
    obtain ⟨v, hv, hrec⟩ := (evaluate_trees_spec _ _ _ _ _ _ leafData out hout).2.2.1 t
      (List.mem_range.2 ht)
    obtain ⟨leaf, hleaf, hev⟩ := htree t ht
    rw [hev fuel hfuel] at hv
    exact ⟨leaf, hleaf, by rw [hrec, Except.ok.inj hv]⟩


/-- Witness for C39: the example forest (two trees of three nodes) and the descriptor
    with features 7 and 1: the descent of tree 1 terminates on a leaf index that is
    at least 0. -/
theorem evaluate_forest_shared_terminates_witness :
    ∃ leaf, 0 ≤ leaf ∧
      (∃ k, k < 3 ∧ ReachesLeaf 2 exampleForest ⟨[7, 1]⟩ 1 0 k leaf) ∧
      ∀ fuel, 3 - 1 ≤ fuel → evaluate_tree 2 fuel exampleForest ⟨[7, 1]⟩ 1 = Except.ok leaf :=
  (evaluate_forest_shared_terminates 2 3 exampleForest ⟨[7, 1]⟩ (by decide) rfl
    (fun t i node ht hi hread hneg => by
      have ht1 : t = 0 ∨ t = 1 := by omega
      have hi1 : i = 0 ∨ i = 1 ∨ i = 2 := by omega
      rcases ht1 with rfl | rfl <;> rcases hi1 with rfl | rfl | rfl <;>
        simp [readAt, exampleForest] at hread <;> subst hread <;> simp at hneg ⊢)
    (by decide)).1 1 (by decide)


/-! ## The merge of the selected leaves' modes -/

section merge
variable {Payload : Type}

theorem validModes_getElem? (p : Prediction3DColour Payload) (c : Nat) :
    (validModes p)[c]? = if p.nbModes > (c : Int) then p.modes[c]? else none := by
  unfold validModes
  rw [List.getElem?_take]
  by_cases h : p.nbModes > (c : Int)
  · rw [if_pos h, if_pos (by omega)]
  · rw [if_neg h, if_neg (by omega)]

theorem range_split (N b : Nat) (l1 l2 : List Nat) (h : List.range N = l1 ++ b :: l2) :
    b < N ∧ ∀ t, t < b → t ∈ l1 := by
  have hb : b ∈ List.range N := by rw [h]; simp
  have hbN : b < N := List.mem_range.1 hb
  refine ⟨hbN, fun t ht => ?_⟩
  have htm : t ∈ List.range N := List.mem_range.2 (by omega)
  have hp : List.Pairwise (· < ·) (l1 ++ b :: l2) := h ▸ List.pairwise_lt_range N
  rw [h, List.mem_append, List.mem_cons] at htm
  rcases htm with h1 | h1 | h1
  · exact h1
  · omega
  · have := (List.pairwise_cons.1 (List.pairwise_append.1 hp).2.1).1 t h1
    omega

theorem find_best_tree_cons (sp : List (Prediction3DColour Payload)) (cur : List Nat)
    (t : Nat) (rest : List Nat) (best r : Nat × Int)
    (h : find_best_tree sp cur (t :: rest) best = Except.ok r) :
    find_best_tree sp cur rest
      (match cursorMode sp cur t with
       | some m => if m.nbInliers > best.2 then (t, m.nbInliers) else best
       | none => best) = Except.ok r := by
  unfold find_best_tree at h
  unfold cursorMode
  cases hp : sp[t]? with
  | none => rw [hp] at h; exact Except.noConfusion h
  | some p =>
    cases hc : cur[t]? with
    | none => rw [hp, hc] at h; exact Except.noConfusion h
    | some c =>
      rw [hp, hc] at h
      dsimp only at h ⊢
      rw [validModes_getElem?]
      by_cases hgt : p.nbModes > (c : Int)
      · rw [if_pos hgt] at h ⊢
        cases hm : p.modes[c]? with
        | none => rw [hm] at h; exact Except.noConfusion h
        | some m =>
          rw [hm] at h
          dsimp only at h ⊢
          by_cases hb : m.nbInliers > best.2
          · rw [if_pos hb] at h ⊢
            exact h
          · rw [if_neg hb] at h ⊢
            exact h
      · rw [if_neg hgt] at h ⊢
        exact h

theorem find_best_tree_spec (sp : List (Prediction3DColour Payload)) (cur : List Nat)
    (ts : List Nat) :
    ∀ (best r : Nat × Int), find_best_tree sp cur ts best = Except.ok r →
      (r = best ∧ ∀ t ∈ ts, ∀ m, cursorMode sp cur t = some m → m.nbInliers ≤ best.2) ∨
      (∃ l1 l2 m, ts = l1 ++ r.1 :: l2 ∧ cursorMode sp cur r.1 = some m ∧
        m.nbInliers = r.2 ∧ best.2 < r.2 ∧
        (∀ t ∈ l1, ∀ m1, cursorMode sp cur t = some m1 → m1.nbInliers < r.2) ∧
        (∀ t ∈ l2, ∀ m1, cursorMode sp cur t = some m1 → m1.nbInliers ≤ r.2)) := by
  induction ts with
  | nil =>
    intro best r h
    unfold find_best_tree at h
    exact Or.inl ⟨(Except.ok.inj h).symm, fun t ht => absurd ht (List.not_mem_nil t)⟩
  | cons t rest ih =>
    intro best r h
    have h1 := find_best_tree_cons sp cur t rest best r h
    cases hcm : cursorMode sp cur t with
    | none =>
      rw [hcm] at h1
      dsimp only at h1
      rcases ih best r h1 with ⟨hr, hall⟩ | ⟨l1, l2, m, hts, hm, hmv, hlt, hl1, hl2⟩
      · refine Or.inl ⟨hr, fun t1 ht1 m hm => ?_⟩
        rcases List.mem_cons.1 ht1 with rfl | ht1
        · rw [hcm] at hm
          exact Option.noConfusion hm
        · exact hall t1 ht1 m hm
      · refine Or.inr ⟨t :: l1, l2, m, by rw [hts]; rfl, hm, hmv, hlt, fun t1 ht1 m1 hm1 => ?_,
          hl2⟩
        rcases List.mem_cons.1 ht1 with rfl | ht1
        · rw [hcm] at hm1
          exact Option.noConfusion hm1
        · exact hl1 t1 ht1 m1 hm1
    | some m0 =>
      rw [hcm] at h1
      dsimp only at h1
      by_cases hb : m0.nbInliers > best.2
      · rw [if_pos hb] at h1
        rcases ih (t, m0.nbInliers) r h1 with
          ⟨hr, hall⟩ | ⟨l1, l2, m, hts, hm, hmv, hlt, hl1, hl2⟩
        · subst hr
          exact Or.inr ⟨[], rest, m0, rfl, hcm, rfl, hb,
            fun t1 ht1 => absurd ht1 (List.not_mem_nil t1), hall⟩
        · refine Or.inr ⟨t :: l1, l2, m, by rw [hts]; rfl, hm, hmv, ?_,
            fun t1 ht1 m1 hm1 => ?_, hl2⟩
          · exact lt_trans hb hlt
          · rcases List.mem_cons.1 ht1 with rfl | ht1
            · rw [hcm] at hm1
              rw [← Option.some.inj hm1]
              exact hlt
            · exact hl1 t1 ht1 m1 hm1
      · rw [if_neg hb] at h1
        have hle : m0.nbInliers ≤ best.2 := not_lt.1 hb
        rcases ih best r h1 with ⟨hr, hall⟩ | ⟨l1, l2, m, hts, hm, hmv, hlt, hl1, hl2⟩
        · refine Or.inl ⟨hr, fun t1 ht1 m hm => ?_⟩
          rcases List.mem_cons.1 ht1 with rfl | ht1
          · rw [hcm] at hm
            rw [← Option.some.inj hm]
            exact hle
          · exact hall t1 ht1 m hm
        · refine Or.inr ⟨t :: l1, l2, m, by rw [hts]; rfl, hm, hmv, hlt,
            fun t1 ht1 m1 hm1 => ?_, hl2⟩
          rcases List.mem_cons.1 ht1 with rfl | ht1
          · rw [hcm] at hm1
            rw [← Option.some.inj hm1]
            exact lt_of_le_of_lt hle hlt
          · exact hl1 t1 ht1 m1 hm1

/-- The scan over all the trees, entered with `(0, 0)`: either no tree has a mode with
    a positive inlier count at its cursor and the scan ends on `(0, 0)`, or it ends on
    the lowest tree whose cursor mode has the largest inlier count, which is
    positive. -/
theorem find_best_tree_range (sp : List (Prediction3DColour Payload)) (cur : List Nat)
    (NTREES : Nat) (r : Nat × Int)
    (h : find_best_tree sp cur (List.range NTREES) (0, 0) = Except.ok r) :
    (r = (0, 0) ∧ ∀ t, t < NTREES → ∀ m, cursorMode sp cur t = some m → m.nbInliers ≤ 0) ∨
    (∃ m, r.1 < NTREES ∧ cursorMode sp cur r.1 = some m ∧ m.nbInliers = r.2 ∧ 0 < r.2 ∧
      (∀ t, t < NTREES → ∀ m1, cursorMode sp cur t = some m1 → m1.nbInliers ≤ r.2) ∧
      (∀ t, t < r.1 → ∀ m1, cursorMode sp cur t = some m1 → m1.nbInliers < r.2)) := by
  rcases find_best_tree_spec sp cur (List.range NTREES) (0, 0) r h with
    ⟨hr, hall⟩ | ⟨l1, l2, m, hts, hm, hmv, hlt, hl1, hl2⟩
  · exact Or.inl ⟨hr, fun t ht => hall t (List.mem_range.2 ht)⟩
  · obtain ⟨hb, hbefore⟩ := range_split NTREES r.1 l1 l2 hts
    refine Or.inr ⟨m, hb, hm, hmv, hlt, fun t ht m1 hm1 => ?_,
      fun t ht m1 hm1 => hl1 t (hbefore t ht) m1 hm1⟩
    have htm : t ∈ List.range NTREES := List.mem_range.2 ht
    rw [hts, List.mem_append, List.mem_cons] at htm
    rcases htm with h1 | h1 | h1
    · exact le_of_lt (hl1 t h1 m1 hm1)
    · subst h1
      rw [hm] at hm1
      rw [← Option.some.inj hm1, hmv]
    · exact hl2 t h1 m1 hm1

theorem find_best_tree_error (sp : List (Prediction3DColour Payload)) (cur : List Nat)
    (ts : List Nat) :
    ∀ (best : Nat × Int) (e : MergeError), find_best_tree sp cur ts best = Except.error e →
      e = MergeError.outOfBounds := by
  induction ts with
  | nil =>
    intro best e h
    unfold find_best_tree at h
    exact Except.noConfusion h
  | cons t rest ih =>
    intro best e h
    unfold find_best_tree at h
    cases hp : sp[t]? with
    | none => rw [hp] at h; exact (Except.error.inj h).symm
    | some p =>
      cases hc : cur[t]? with
      | none => rw [hp, hc] at h; exact (Except.error.inj h).symm
      | some c =>
        rw [hp, hc] at h
        dsimp only at h
        by_cases hgt : p.nbModes > (c : Int)
        · rw [if_pos hgt] at h
          cases hm : p.modes[c]? with
          | none => rw [hm] at h; exact (Except.error.inj h).symm
          | some m =>
            rw [hm] at h
            dsimp only at h
            by_cases hb : m.nbInliers > best.2
            · rw [if_pos hb] at h
              exact ih _ e h
            · rw [if_neg hb] at h
              exact ih _ e h
        · rw [if_neg hgt] at h
          exact ih _ e h

theorem find_best_tree_returns (sp : List (Prediction3DColour Payload)) (cur : List Nat)
    (ts : List Nat)
    (hin : ∀ t ∈ ts, ∃ p c, sp[t]? = some p ∧ cur[t]? = some c ∧
      (p.nbModes > (c : Int) → c < p.modes.length)) :
    ∀ best : Nat × Int, ∃ r, find_best_tree sp cur ts best = Except.ok r := by
  induction ts with
  | nil => intro best; exact ⟨best, rfl⟩
  | cons t rest ih =>
    intro best
    obtain ⟨p, c, hp, hc, hlt⟩ := hin t (List.mem_cons_self _ _)
    have ih1 := ih (fun t1 ht1 => hin t1 (List.mem_cons_of_mem _ ht1))
    unfold find_best_tree
    rw [hp, hc]
    dsimp only
    by_cases hgt : p.nbModes > (c : Int)
    · rw [if_pos hgt, List.getElem?_eq_getElem (hlt hgt)]
      dsimp only
      split_ifs
      · exact ih1 _
      · exact ih1 _
    · rw [if_neg hgt]
      exact ih1 _

end merge

section merge2
variable {Payload : Type}

theorem cursorMode_some (sp : List (Prediction3DColour Payload)) (cur : List Nat) (t : Nat)
    (m : Mode Payload) (h : cursorMode sp cur t = some m) :
    ∃ p c, sp[t]? = some p ∧ cur[t]? = some c ∧ p.nbModes > (c : Int) ∧
      p.modes[c]? = some m ∧ (validModes p)[c]? = some m := by
  unfold cursorMode at h
  cases hp : sp[t]? with
  | none => rw [hp] at h; exact Option.noConfusion h
  | some p =>
    cases hc : cur[t]? with
    | none => rw [hp, hc] at h; exact Option.noConfusion h
    | some c =>
      rw [hp, hc] at h
      dsimp only at h
      have h2 := h
      rw [validModes_getElem?] at h2
      by_cases hgt : p.nbModes > (c : Int)
      · rw [if_pos hgt] at h2
        exact ⟨p, c, rfl, rfl, hgt, h2, h⟩
      · rw [if_neg hgt] at h2
        exact Option.noConfusion h2

theorem merge_modes_run (MAX_MODES NTREES : Nat) (sp : List (Prediction3DColour Payload))
    (fuel : Nat) :
    ∀ (cur : List Nat) (out : Prediction3DColour Payload)
      (r : List Nat × Prediction3DColour Payload),
      merge_modes MAX_MODES NTREES sp fuel cur out = Except.ok r →
      ∃ emitted, MergeRun MAX_MODES NTREES sp cur out emitted r.1 r.2 := by
  induction fuel with
  | zero =>
    intro cur out r h
    unfold merge_modes at h
    by_cases hg : out.nbModes < (MAX_MODES : Int)
    · rw [if_pos hg] at h
      exact Except.noConfusion h
    · rw [if_neg hg] at h
      rw [← Except.ok.inj h]
      exact ⟨[], MergeRun.full cur out hg⟩
  | succ fuel ih =>
    intro cur out r h
    unfold merge_modes at h
    by_cases hg : out.nbModes < (MAX_MODES : Int)
    · rw [if_pos hg] at h
      cases hs : find_best_tree sp cur (List.range NTREES) (0, 0) with
      | error e => rw [hs] at h; exact Except.noConfusion h
      | ok best =>
        rw [hs] at h
        dsimp only at h
        rcases find_best_tree_range sp cur NTREES best hs with
          ⟨hb, hall⟩ | ⟨m, hbN, hm, hmv, hpos, hmax, hfirst⟩
        · have hz : best.2 = 0 := by rw [hb]
          rw [if_pos hz] at h
          rw [← Except.ok.inj h]
          exact ⟨[], MergeRun.exhausted cur out hg hall⟩
        · have hnz : ¬ best.2 = 0 := by omega
          rw [if_neg hnz] at h
          obtain ⟨p, c, hp, hc, _, hpm, _⟩ := cursorMode_some sp cur best.1 m hm
          rw [hp, hc] at h
          dsimp only at h
          rw [hpm] at h
          dsimp only at h
          by_cases hw : 0 ≤ out.nbModes ∧ out.nbModes.toNat < out.modes.length
          · rw [if_pos hw] at h
            obtain ⟨emitted, hrun⟩ := ih _ _ r h
            exact ⟨(best.1, m) :: emitted,
              MergeRun.emit cur out best.1 c m emitted r.1 r.2 hg hw hbN hc hm
                (by rw [hmv]; exact hpos)
                (fun t ht m1 hm1 => by rw [hmv]; exact hmax t ht m1 hm1)
                (fun t ht m1 hm1 => by rw [hmv]; exact hfirst t ht m1 hm1) hrun⟩
          · rw [if_neg hw] at h
            exact Except.noConfusion h
    · rw [if_neg hg] at h
      rw [← Except.ok.inj h]
      exact ⟨[], MergeRun.full cur out hg⟩

theorem merge_modes_error (MAX_MODES NTREES : Nat) (sp : List (Prediction3DColour Payload))
    (fuel : Nat) :
    ∀ (cur : List Nat) (out : Prediction3DColour Payload) (k : Nat) (e : MergeError),
      out.nbModes = (k : Int) → MAX_MODES ≤ out.modes.length → MAX_MODES - k ≤ fuel →
      merge_modes MAX_MODES NTREES sp fuel cur out = Except.error e →
      e = MergeError.outOfBounds := by
  induction fuel with
  | zero =>
    intro cur out k e hk hlen hfuel h
    unfold merge_modes at h
    by_cases hg : out.nbModes < (MAX_MODES : Int)
    · omega
    · rw [if_neg hg] at h
      exact Except.noConfusion h
  | succ fuel ih =>
    intro cur out k e hk hlen hfuel h
    unfold merge_modes at h
    by_cases hg : out.nbModes < (MAX_MODES : Int)
    · rw [if_pos hg] at h
      cases hs : find_best_tree sp cur (List.range NTREES) (0, 0) with
      | error e1 =>
        rw [hs] at h
        rw [← Except.error.inj h]
        exact find_best_tree_error sp cur _ _ e1 hs
      | ok best =>
        rw [hs] at h
        dsimp only at h
        by_cases hz : best.2 = 0
        · rw [if_pos hz] at h
          exact Except.noConfusion h
        · rw [if_neg hz] at h
          cases hp : sp[best.1]? with
          | none => rw [hp] at h; exact (Except.error.inj h).symm
          | some p =>
            cases hc : cur[best.1]? with
            | none => rw [hp, hc] at h; exact (Except.error.inj h).symm
            | some c =>
              rw [hp, hc] at h
              dsimp only at h
              cases hpm : p.modes[c]? with
              | none => rw [hpm] at h; exact (Except.error.inj h).symm
              | some m =>
                rw [hpm] at h
                dsimp only at h
                have hw : 0 ≤ out.nbModes ∧ out.nbModes.toNat < out.modes.length := by
                  constructor <;> omega
                rw [if_pos hw] at h
                exact ih _ _ (k + 1) e (by simp [hk]) (by simpa using hlen) (by omega) h
    · rw [if_neg hg] at h
      exact Except.noConfusion h

theorem merge_modes_returns (MAX_MODES NTREES : Nat) (sp : List (Prediction3DColour Payload))
    (hsp : ∀ t, t < NTREES → ∃ p, sp[t]? = some p ∧ p.nbModes ≤ (p.modes.length : Int))
    (fuel : Nat) :
    ∀ (cur : List Nat) (out : Prediction3DColour Payload) (k : Nat),
      (∀ t, t < NTREES → ∃ c, cur[t]? = some c) →
      out.nbModes = (k : Int) → MAX_MODES ≤ out.modes.length → MAX_MODES - k ≤ fuel →
      ∃ r, merge_modes MAX_MODES NTREES sp fuel cur out = Except.ok r := by
  induction fuel with
  | zero =>
    intro cur out k _ hk hlen hfuel
    unfold merge_modes
    have hg : ¬ out.nbModes < (MAX_MODES : Int) := by omega
    rw [if_neg hg]
    exact ⟨_, rfl⟩
  | succ fuel ih =>
    intro cur out k hcur hk hlen hfuel
    unfold merge_modes
    by_cases hg : out.nbModes < (MAX_MODES : Int)
    · rw [if_pos hg]
      obtain ⟨best, hs⟩ := find_best_tree_returns sp cur (List.range NTREES)
        (fun t ht => by
          obtain ⟨p, hp, hle⟩ := hsp t (List.mem_range.1 ht)
          obtain ⟨c, hc⟩ := hcur t (List.mem_range.1 ht)
          exact ⟨p, c, hp, hc, fun hgt => by omega⟩) (0, 0)
      rw [hs]
      dsimp only
      rcases find_best_tree_range sp cur NTREES best hs with
        ⟨hb, _⟩ | ⟨m, hbN, hm, hmv, hpos, _, _⟩
      · have hz : best.2 = 0 := by rw [hb]
        rw [if_pos hz]
        exact ⟨_, rfl⟩
      · have hnz : ¬ best.2 = 0 := by omega
        rw [if_neg hnz]
        obtain ⟨p, c, hp, hc, _, hpm, _⟩ := cursorMode_some sp cur best.1 m hm
        rw [hp, hc]
        dsimp only
        rw [hpm]
        dsimp only
        have hw : 0 ≤ out.nbModes ∧ out.nbModes.toNat < out.modes.length := by
          constructor <;> omega
        rw [if_pos hw]
        exact ih _ _ (k + 1)
          (fun t ht => by
            obtain ⟨c1, hc1⟩ := hcur t ht
            have hlt : t < cur.length := (List.getElem?_eq_some_iff.1 hc1).1
            exact ⟨_, List.getElem?_eq_getElem (by rw [List.length_set]; exact hlt)⟩)
          (by simp [hk]) (by simpa using hlen) (by omega)
    · rw [if_neg hg]
      exact ⟨_, rfl⟩

end merge2

section merge3
variable {Payload : Type}

theorem take_succ_set {α : Type} (l : List α) (k : Nat) (a : α) (h : k < l.length) :
    (l.set k a).take (k + 1) = l.take k ++ [a] := by
  induction l generalizing k with
  | nil => exact absurd h (Nat.not_lt_zero _)
  | cons x xs ih =>
    cases k with
    | zero => simp
    | succ k =>
      simp only [List.set_cons_succ, List.take_succ_cons, List.cons_append]
      rw [ih k (by simpa using h)]

theorem mergeRun_output (MAX_MODES NTREES : Nat) (sp : List (Prediction3DColour Payload))
    (cur cur1 : List Nat) (out out1 : Prediction3DColour Payload)
    (emitted : List (Nat × Mode Payload))
    (h : MergeRun MAX_MODES NTREES sp cur out emitted cur1 out1) :
    ∀ k : Nat, out.nbModes = (k : Int) →
      out1.nbModes = ((k + emitted.length : Nat) : Int) ∧
      k + emitted.length ≤ max k MAX_MODES ∧
      out1.modes.length = out.modes.length ∧
      out1.modes.take (k + emitted.length) = out.modes.take k ++ emitted.map Prod.snd ∧
      out1.modes.drop (k + emitted.length) = out.modes.drop (k + emitted.length) := by
  induction h with
  | full cur out _ =>
    intro k hk
    simp [hk]
  | exhausted cur out _ _ =>
    intro k hk
    simp [hk]
  | emit cur out b c mode emitted cur1 out1 hg hw _ _ _ _ _ _ _ ih =>
    intro k hk
    have hkn : out.nbModes.toNat = k := by omega
    have hklt : k < out.modes.length := by omega
    obtain ⟨h1, h2, h3, h4, h5⟩ := ih (k + 1) (by simp [hk])
    rw [hkn] at h3 h4 h5
    rw [List.length_set] at h3
    have e : k + ((b, mode) :: emitted).length = k + 1 + emitted.length := by
      simp only [List.length_cons]; omega
    rw [e]
    refine ⟨h1, ?_, h3, ?_, ?_⟩
    · have : (k : Int) < MAX_MODES := by omega
      omega
    · rw [h4, take_succ_set _ _ _ hklt]
      simp
    · rw [h5, List.drop_set_of_lt _ _ (by omega)]

theorem mergeRun_positive (MAX_MODES NTREES : Nat) (sp : List (Prediction3DColour Payload))
    (cur cur1 : List Nat) (out out1 : Prediction3DColour Payload)
    (emitted : List (Nat × Mode Payload))
    (h : MergeRun MAX_MODES NTREES sp cur out emitted cur1 out1) :
    ∀ e ∈ emitted, 0 < e.2.nbInliers := by
  induction h with
  | full cur out _ => intro e he; exact absurd he (List.not_mem_nil e)
  | exhausted cur out _ _ => intro e he; exact absurd he (List.not_mem_nil e)
  | emit cur out b c mode emitted cur1 out1 _ _ _ _ _ hpos _ _ _ ih =>
    intro e he
    rcases List.mem_cons.1 he with rfl | he
    · exact hpos
    · exact ih e he

theorem mergeRun_initial_segment (MAX_MODES NTREES : Nat) (sp : List (Prediction3DColour Payload))
    (cur cur1 : List Nat) (out out1 : Prediction3DColour Payload)
    (emitted : List (Nat × Mode Payload))
    (h : MergeRun MAX_MODES NTREES sp cur out emitted cur1 out1) :
    ∀ (t : Nat) (p : Prediction3DColour Payload) (c0 : Nat),
      sp[t]? = some p → cur[t]? = some c0 →
      ∃ n, cur1[t]? = some (c0 + n) ∧
        (emitted.filter (fun e => decide (e.1 = t))).map Prod.snd
          = ((validModes p).drop c0).take n := by
  induction h with
  | full cur out _ =>
    intro t p c0 _ hc
    exact ⟨0, hc, by simp⟩
  | exhausted cur out _ _ =>
    intro t p c0 _ hc
    exact ⟨0, hc, by simp⟩
  | emit cur out b c mode emitted cur1 out1 _ _ _ hcb hm _ _ _ _ ih =>
    intro t p c0 hp hc
    by_cases htb : b = t
    · subst htb
      have hcc : c = c0 := Option.some.inj (hcb.symm.trans hc)
      subst hcc
      obtain ⟨p1, c1, hp1, hc1, _, _, hv⟩ := cursorMode_some sp cur b mode hm
      have hpp : p1 = p := Option.some.inj (hp1.symm.trans hp)
      have hcc1 : c1 = c := Option.some.inj (hc1.symm.trans hc)
      subst hpp hcc1
      obtain ⟨hlt, hget⟩ := List.getElem?_eq_some_iff.1 hv
      have hblt : b < cur.length := (List.getElem?_eq_some_iff.1 hc).1
      obtain ⟨n, hn1, hn2⟩ := ih b p1 (c1 + 1) hp
        (by rw [List.getElem?_set_self hblt])
      refine ⟨n + 1, ?_, ?_⟩
      · rw [hn1]
        congr 1
        omega
      · rw [List.filter_cons_of_pos (by simp), List.map_cons, hn2,
          List.drop_eq_getElem_cons hlt, List.take_succ_cons, hget]
    · obtain ⟨n, hn1, hn2⟩ := ih t p c0 hp (by rw [List.getElem?_set_ne htb]; exact hc)
      refine ⟨n, hn1, ?_⟩
      rw [List.filter_cons_of_neg (by simpa using htb)]
      exact hn2

end merge3

section merge4
variable {Payload : Type}

theorem cursorMode_eq_head (sp : List (Prediction3DColour Payload)) (cur : List Nat)
    (t : Nat) : cursorMode sp cur t = (remainingModes sp cur t).head? := by
  unfold cursorMode remainingModes
  cases sp[t]? with
  | none => rfl
  | some p =>
    cases cur[t]? with
    | none => rfl
    | some c => exact (List.head?_drop _ _).symm

theorem perm_flatMap_update {α : Type} (f g : Nat → List α) (b : Nat) (m : α)
    (hb : f b = m :: g b) (hne : ∀ t, t ≠ b → f t = g t) (ts : List Nat)
    (hnd : ts.Nodup) :
    (b ∈ ts → (ts.flatMap f).Perm (m :: ts.flatMap g)) ∧
    (b ∉ ts → ts.flatMap f = ts.flatMap g) := by
  induction ts with
  | nil =>
    exact ⟨fun h => absurd h (List.not_mem_nil b), fun _ => rfl⟩
  | cons t rest ih =>
    obtain ⟨hnot, hnd1⟩ := List.nodup_cons.1 hnd
    obtain ⟨ih1, ih2⟩ := ih hnd1
    have e1 : (t :: rest).flatMap f = f t ++ rest.flatMap f := rfl
    have e2 : (t :: rest).flatMap g = g t ++ rest.flatMap g := rfl
    constructor
    · intro hmem
      rw [e1, e2]
      rcases List.mem_cons.1 hmem with rfl | hmem
      · rw [hb, ih2 hnot]
        exact List.Perm.refl _
      · have htb : t ≠ b := fun h => hnot (h ▸ hmem)
        rw [hne t htb]
        exact (List.Perm.append_left (g t) (ih1 hmem)).trans List.perm_middle
    · intro hmem
      rw [e1, e2]
      have htb : t ≠ b := fun h => hmem (h ▸ List.mem_cons_self _ _)
      have hrest : b ∉ rest := fun h => hmem (List.mem_cons_of_mem _ h)
      rw [hne t htb, ih2 hrest]

theorem remainingModes_advance (sp : List (Prediction3DColour Payload)) (cur : List Nat)
    (b c : Nat) (mode : Mode Payload) (hc : cur[b]? = some c)
    (hm : cursorMode sp cur b = some mode) :
    remainingModes sp cur b = mode :: remainingModes sp (cur.set b (c + 1)) b ∧
    ∀ t, t ≠ b → remainingModes sp cur t = remainingModes sp (cur.set b (c + 1)) t := by
  obtain ⟨p, c1, hp, hc1, _, _, hv⟩ := cursorMode_some sp cur b mode hm
  have hcc : c1 = c := Option.some.inj (hc1.symm.trans hc)
  subst hcc
  obtain ⟨hlt, hget⟩ := List.getElem?_eq_some_iff.1 hv
  have hblt : b < cur.length := (List.getElem?_eq_some_iff.1 hc).1
  constructor
  · unfold remainingModes
    rw [hp, hc, List.getElem?_set_self hblt]
    dsimp only
    rw [List.drop_eq_getElem_cons hlt, hget]
  · intro t ht
    unfold remainingModes
    rw [List.getElem?_set_ne (Ne.symm ht)]

theorem allRemaining_advance (NTREES : Nat) (sp : List (Prediction3DColour Payload))
    (cur : List Nat) (b c : Nat) (mode : Mode Payload) (hb : b < NTREES)
    (hc : cur[b]? = some c) (hm : cursorMode sp cur b = some mode) :
    (allRemaining NTREES sp cur).Perm (mode :: allRemaining NTREES sp (cur.set b (c + 1))) := by
  obtain ⟨h1, h2⟩ := remainingModes_advance sp cur b c mode hc hm
  exact (perm_flatMap_update (remainingModes sp cur)
    (remainingModes sp (cur.set b (c + 1))) b mode h1 h2 (List.range NTREES)
    (List.nodup_range NTREES)).1 (List.mem_range.2 hb)

theorem remainingModes_sorted (sp : List (Prediction3DColour Payload)) (cur : List Nat)
    (hs : ∀ p ∈ sp, sortedByInliers (validModes p)) (t : Nat) :
    sortedByInliers (remainingModes sp cur t) := by
  unfold remainingModes
  cases hp : sp[t]? with
  | none => exact List.Pairwise.nil
  | some p =>
    cases hc : cur[t]? with
    | none => exact List.Pairwise.nil
    | some c =>
      have hmem : p ∈ sp := by
        obtain ⟨hlt, hget⟩ := List.getElem?_eq_some_iff.1 hp
        rw [← hget]
        exact List.getElem_mem hlt
      exact List.Pairwise.sublist (List.drop_sublist c _) (hs p hmem)

theorem allRemaining_le (NTREES : Nat) (sp : List (Prediction3DColour Payload))
    (cur : List Nat) (hs : ∀ p ∈ sp, sortedByInliers (validModes p)) (B : Int)
    (hB : ∀ t, t < NTREES → ∀ m, cursorMode sp cur t = some m → m.nbInliers ≤ B) :
    ∀ x ∈ allRemaining NTREES sp cur, x.nbInliers ≤ B := by
  intro x hx
  unfold allRemaining at hx
  obtain ⟨t, ht, hxt⟩ := List.mem_flatMap.1 hx
  have hsort := remainingModes_sorted sp cur hs t
  have hhead := cursorMode_eq_head sp cur t
  cases hl : remainingModes sp cur t with
  | nil => rw [hl] at hxt; exact absurd hxt (List.not_mem_nil x)
  | cons a rest =>
    rw [hl] at hxt hsort hhead
    have ha : a.nbInliers ≤ B := hB t (List.mem_range.1 ht) a hhead
    rcases List.mem_cons.1 hxt with rfl | hxr
    · exact ha
    · have : a.nbInliers ≥ x.nbInliers := (List.pairwise_cons.1 hsort).1 x hxr
      omega

theorem mergeRun_sorted (MAX_MODES NTREES : Nat) (sp : List (Prediction3DColour Payload))
    (hs : ∀ p ∈ sp, sortedByInliers (validModes p))
    (cur cur1 : List Nat) (out out1 : Prediction3DColour Payload)
    (emitted : List (Nat × Mode Payload))
    (h : MergeRun MAX_MODES NTREES sp cur out emitted cur1 out1) :
    (allRemaining NTREES sp cur).Perm (emitted.map Prod.snd ++ allRemaining NTREES sp cur1) ∧
    sortedByInliers (emitted.map Prod.snd) ∧
    (∀ e ∈ emitted, ∀ x ∈ allRemaining NTREES sp cur1, x.nbInliers ≤ e.2.nbInliers) ∧
    (out1.nbModes < (MAX_MODES : Int) →
      ∀ x ∈ allRemaining NTREES sp cur1, x.nbInliers ≤ 0) := by
  induction h with
  | full cur out hg =>
    exact ⟨List.Perm.refl _, List.Pairwise.nil,
      fun e he => absurd he (List.not_mem_nil e), fun hlt => absurd hlt hg⟩
  | exhausted cur out _ hall =>
    exact ⟨List.Perm.refl _, List.Pairwise.nil,
      fun e he => absurd he (List.not_mem_nil e),
      fun _ => allRemaining_le NTREES sp cur hs 0 hall⟩
  | emit cur out b c mode emitted cur1 out1 _ _ hb hc hm _ hmax _ _ ih =>
    obtain ⟨hperm, hsorted, hle, hstop⟩ := ih
    have hadv := allRemaining_advance NTREES sp cur b c mode hb hc hm
    have hbound := allRemaining_le NTREES sp cur hs mode.nbInliers hmax
    have hbound1 : ∀ x ∈ allRemaining NTREES sp (cur.set b (c + 1)),
        x.nbInliers ≤ mode.nbInliers :=
      fun x hx => hbound x (hadv.symm.subset (List.mem_cons_of_mem _ hx))
    refine ⟨?_, ?_, ?_, hstop⟩
    · exact hadv.trans (List.Perm.cons mode hperm)
    · rw [List.map_cons]
      refine List.pairwise_cons.2 ⟨fun e he => ?_, hsorted⟩
      exact hbound1 e (hperm.symm.subset (List.mem_append_left _ he))
    · intro e he x hx
      rcases List.mem_cons.1 he with rfl | he
      · exact hbound1 x (hperm.symm.subset (List.mem_append_right _ hx))
      · exact hle e he x hx

theorem map_getElem?_range {α : Type} (l : List α) :
    (List.range l.length).map (fun t => l[t]?) = l.map some := by
  apply List.ext_getElem?
  intro i
  rw [List.getElem?_map, List.getElem?_map]
  by_cases hi : i < l.length
  · rw [List.getElem?_range hi, List.getElem?_eq_getElem hi]
    simp [hi]
  · have h1 : (List.range l.length)[i]? = none :=
      List.getElem?_eq_none (by rw [List.length_range]; omega)
    have h2 : l[i]? = none := List.getElem?_eq_none (by omega)
    rw [h1, h2]
    rfl

theorem allRemaining_start (sp : List (Prediction3DColour Payload)) :
    allRemaining sp.length sp (List.replicate sp.length 0) = sp.flatMap validModes := by
  unfold allRemaining
  have h1 : ∀ t ∈ List.range sp.length,
      remainingModes sp (List.replicate sp.length 0) t =
        (fun o : Option (Prediction3DColour Payload) =>
          match o with
          | some p => validModes p
          | none => []) (sp[t]?) := by
    intro t ht
    have hlt : t < sp.length := List.mem_range.1 ht
    unfold remainingModes
    rw [List.getElem?_replicate, if_pos hlt, List.getElem?_eq_getElem hlt]
    rfl
  rw [List.flatMap_congr h1]
  have h2 := List.flatMap_map (fun t => sp[t]?)
    (fun o : Option (Prediction3DColour Payload) =>
      match o with
      | some p => validModes p
      | none => []) (List.range sp.length)
  rw [map_getElem?_range, List.flatMap_map] at h2
  exact h2.symm

theorem top_counts_of_merge (cA cE cR : List Int) (M : Nat)
    (hperm : cA.Perm (cE ++ cR)) (hsorted : cE.Sorted (· ≥ ·))
    (hpos : ∀ e ∈ cE, 0 < e) (hle : ∀ e ∈ cE, ∀ x ∈ cR, x ≤ e) (hlen : cE.length ≤ M)
    (hstop : cE.length < M → ∀ x ∈ cR, x ≤ 0) :
    cE = (List.insertionSort (· ≥ ·) (cA.filter (fun n => decide (0 < n)))).take M ∧
    cE.length = min M (cA.countP (fun n => decide (0 < n))) := by
  have hfE : cE.filter (fun n => decide (0 < n)) = cE :=
    List.filter_eq_self.2 (fun a ha => by simpa using hpos a ha)
  have hfperm : (cA.filter (fun n => decide (0 < n))).Perm
      (cE ++ cR.filter (fun n => decide (0 < n))) := by
    have := List.Perm.filter (fun n => decide (0 < n)) hperm
    rw [List.filter_append, hfE] at this
    exact this
  have hsortR := List.sorted_insertionSort (· ≥ · : Int → Int → Prop)
    (cR.filter (fun n => decide (0 < n)))
  have hpermR := List.perm_insertionSort (· ≥ · : Int → Int → Prop)
    (cR.filter (fun n => decide (0 < n)))
  have hS : List.insertionSort (· ≥ ·) (cA.filter (fun n => decide (0 < n)))
      = cE ++ List.insertionSort (· ≥ ·) (cR.filter (fun n => decide (0 < n))) := by
    apply List.eq_of_perm_of_sorted (r := (· ≥ · : Int → Int → Prop))
    · exact (List.perm_insertionSort _ _).trans
        (hfperm.trans (List.Perm.append_left cE hpermR.symm))
    · exact List.sorted_insertionSort _ _
    · refine List.pairwise_append.2 ⟨hsorted, hsortR, fun a ha b hb => ?_⟩
      have hb1 : b ∈ cR := List.mem_of_mem_filter (hpermR.subset hb)
      exact hle a ha b hb1
  have hcount : cA.countP (fun n => decide (0 < n))
      = cE.length + (cR.filter (fun n => decide (0 < n))).length := by
    rw [List.countP_eq_length_filter, hfperm.length_eq, List.length_append]
  by_cases hfull : cE.length < M
  · have hnil : cR.filter (fun n => decide (0 < n)) = [] :=
      List.filter_eq_nil_iff.2 (fun a ha => by
        have := hstop hfull a ha
        simp only [decide_eq_true_eq]
        omega)
    rw [hS, hnil, hcount, hnil]
    simp only [List.insertionSort, List.append_nil, List.length_nil, Nat.add_zero]
    exact ⟨(List.take_of_length_le hlen).symm, by omega⟩
  · have hM : cE.length = M := by omega
    rw [hS, hcount]
    refine ⟨?_, by omega⟩
    rw [List.take_append_of_le_length (by omega), List.take_of_length_le (by omega)]

end merge4

section merge5
variable {Payload : Type}

theorem select_predictions_length (leafPredictions : List (Prediction3DColour Payload))
    (selectedLeaves : List Int) (ts : List Nat) :
    ∀ sp, select_predictions leafPredictions selectedLeaves ts = some sp →
      sp.length = ts.length := by
  induction ts with
  | nil =>
    intro sp h
    unfold select_predictions at h
    have hsp := Option.some.inj h
    subst hsp
    rfl
  | cons t rest ih =>
    intro sp h
    unfold select_predictions at h
    cases h1 : selectedLeaves[t]? with
    | none => rw [h1] at h; exact Option.noConfusion h
    | some leafIdx =>
      rw [h1] at h
      dsimp only at h
      cases h2 : readAt leafPredictions leafIdx with
      | none => rw [h2] at h; exact Option.noConfusion h
      | some prediction =>
        rw [h2] at h
        dsimp only at h
        cases h3 : select_predictions leafPredictions selectedLeaves rest with
        | none => rw [h3] at h; exact Option.noConfusion h
        | some predictions =>
          rw [h3] at h
          dsimp only at h
          rw [← Option.some.inj h, List.length_cons, List.length_cons, ih predictions h3]

theorem selectedPredictionsAt_length (NTREES : Nat)
    (leafPredictions : List (Prediction3DColour Payload)) (leafIndices : List (List Int))
    (linearIdx : Int) (sp : List (Prediction3DColour Payload))
    (h : selectedPredictionsAt NTREES leafPredictions leafIndices linearIdx = some sp) :
    sp.length = NTREES := by
  unfold selectedPredictionsAt at h
  cases h1 : readAt leafIndices linearIdx with
  | none => rw [h1] at h; exact Option.noConfusion h
  | some selectedLeaves =>
    rw [h1] at h
    dsimp only at h
    rw [select_predictions_length _ _ _ sp h, List.length_range]

theorem readAt_set_self {α : Type} (a : List α) (i : Int) (v w : α)
    (h : readAt a i = some w) : readAt (a.set i.toNat v) i = some v := by
  obtain ⟨hi, hget⟩ := readAt_nonneg h
  have hlt : i.toNat < a.length := (List.getElem?_eq_some_iff.1 hget).1
  unfold readAt
  rw [if_pos hi, List.getElem?_set_self hlt]

/-- What a successful call of `get_prediction_for_leaf_shared` did: it gathered the
    selected predictions, ran the merge loop from cursors 0 and an output count of 0,
    and stored the merged prediction at the pixel's entry of the output. -/
theorem get_prediction_for_leaf_shared_ok (MAX_MODES NTREES : Nat)
    (leafPredictions : List (Prediction3DColour Payload)) (leafIndices : List (List Int))
    (outPredictions : List (Prediction3DColour Payload)) (width x y : Int)
    (out : List (Prediction3DColour Payload))
    (h : get_prediction_for_leaf_shared MAX_MODES NTREES leafPredictions leafIndices
      outPredictions width x y = Except.ok out) :
    ∃ sp p0 r,
      selectedPredictionsAt NTREES leafPredictions leafIndices (y * width + x) = some sp ∧
      readAt outPredictions (y * width + x) = some p0 ∧
      merge_modes MAX_MODES NTREES sp MAX_MODES (List.replicate NTREES 0)
        { p0 with nbModes := 0 } = Except.ok r ∧
      readAt out (y * width + x) = some r.2 ∧
      out.length = outPredictions.length ∧
      ∀ j : Int, j ≠ y * width + x → readAt out j = readAt outPredictions j := by
  unfold get_prediction_for_leaf_shared at h
  unfold selectedPredictionsAt
  dsimp only at h
  cases h1 : readAt leafIndices (y * width + x) with
  | none => rw [h1] at h; exact Except.noConfusion h
  | some selectedLeaves =>
    rw [h1] at h
    dsimp only at h ⊢
    cases h2 : select_predictions leafPredictions selectedLeaves (List.range NTREES) with
    | none => rw [h2] at h; exact Except.noConfusion h
    | some sp =>
      rw [h2] at h
      dsimp only at h
      cases h3 : readAt outPredictions (y * width + x) with
      | none => rw [h3] at h; exact Except.noConfusion h
      | some p0 =>
        rw [h3] at h
        dsimp only at h
        cases h4 : merge_modes MAX_MODES NTREES sp MAX_MODES (List.replicate NTREES 0)
            { p0 with nbModes := 0 } with
        | error e => rw [h4] at h; exact Except.noConfusion h
        | ok r =>
          rw [h4] at h
          dsimp only at h
          have hout := Except.ok.inj h
          subst hout
          exact ⟨sp, p0, r, rfl, rfl, h4, readAt_set_self _ _ _ _ h3,
            List.length_set _ _ _,
            fun j hj => readAt_set_ne _ _ _ _ (readAt_nonneg h3).1 hj⟩

theorem validModes_of_run (MAX_MODES NTREES : Nat) (sp : List (Prediction3DColour Payload))
    (cur cur1 : List Nat) (out out1 : Prediction3DColour Payload)
    (emitted : List (Nat × Mode Payload))
    (h : MergeRun MAX_MODES NTREES sp cur out emitted cur1 out1) (h0 : out.nbModes = 0) :
    validModes out1 = emitted.map Prod.snd ∧ out1.nbModes = (emitted.length : Int) ∧
    emitted.length ≤ MAX_MODES := by
  obtain ⟨h1, h2, _, h4, _⟩ := mergeRun_output MAX_MODES NTREES sp cur cur1 out out1 emitted h 0
    (by simpa using h0)
  simp only [Nat.zero_add, List.take_zero, List.nil_append] at h1 h2 h4
  refine ⟨?_, h1, by omega⟩
  unfold validModes
  rw [h1, Int.toNat_natCast]
  exact h4

theorem mergeRun_stop (MAX_MODES NTREES : Nat) (sp : List (Prediction3DColour Payload))
    (cur cur1 : List Nat) (out out1 : Prediction3DColour Payload)
    (emitted : List (Nat × Mode Payload))
    (h : MergeRun MAX_MODES NTREES sp cur out emitted cur1 out1) :
    out1.nbModes < (MAX_MODES : Int) →
    ∀ t, t < NTREES → ∀ m, cursorMode sp cur1 t = some m → m.nbInliers ≤ 0 := by
  induction h with
  | full cur out hg => intro hlt; exact absurd hlt hg
  | exhausted cur out _ hall => intro _; exact hall
  | emit cur out b c mode emitted cur1 out1 _ _ _ _ _ _ _ _ _ ih => exact ih

end merge5

/-- C31: for every input in which the mode array of the pixel's output prediction has
    at least `MAX_MODES` entries (it is declared with `MAX_MODES` entries),
    `get_prediction_for_leaf_shared` never writes outside that array and its loop
    finishes within `MAX_MODES` iterations (the only failure is a read outside the
    input arrays); the output prediction has `0 <= nbModes <= MAX_MODES`, its mode
    array keeps its length and every entry at an index from `nbModes` on is as it
    was, so that every write was at an index below `MAX_MODES`; and the call returns
    whenever the pixel is inside the arrays, the selected leaves exist and each
    selected prediction has `nbModes` within its mode array. -/
theorem get_prediction_for_leaf_shared_bounds {Payload : Type} (MAX_MODES NTREES : Nat)
    (leafPredictions : List (Prediction3DColour Payload)) (leafIndices : List (List Int))
    (outPredictions : List (Prediction3DColour Payload)) (width x y : Int)
    (hout : ∀ p0, readAt outPredictions (y * width + x) = some p0 →
      MAX_MODES ≤ p0.modes.length) :
    (∀ e, get_prediction_for_leaf_shared MAX_MODES NTREES leafPredictions leafIndices
        outPredictions width x y = Except.error e → e = MergeError.outOfBounds) ∧
    (∀ out, get_prediction_for_leaf_shared MAX_MODES NTREES leafPredictions leafIndices
        outPredictions width x y = Except.ok out →
      ∃ p0 p, readAt outPredictions (y * width + x) = some p0 ∧
        readAt out (y * width + x) = some p ∧
        0 ≤ p.nbModes ∧ p.nbModes ≤ (MAX_MODES : Int) ∧
        p.modes.length = p0.modes.length ∧
        p.modes.drop p.nbModes.toNat = p0.modes.drop p.nbModes.toNat) ∧
    (∀ sp p0,
      selectedPredictionsAt NTREES leafPredictions leafIndices (y * width + x) = some sp →
      (∀ p ∈ sp, p.nbModes ≤ (p.modes.length : Int)) →
      readAt outPredictions (y * width + x) = some p0 →
      ∃ out, get_prediction_for_leaf_shared MAX_MODES NTREES leafPredictions leafIndices
        outPredictions width x y = Except.ok out) := by
  refine ⟨?_, ?_, ?_⟩
  · intro e h
    unfold get_prediction_for_leaf_shared at h
    dsimp only at h
    cases h1 : readAt leafIndices (y * width + x) with
    | none => rw [h1] at h; exact (Except.error.inj h).symm
    | some selectedLeaves =>
      rw [h1] at h
      dsimp only at h
      cases h2 : select_predictions leafPredictions selectedLeaves (List.range NTREES) with
      | none => rw [h2] at h; exact (Except.error.inj h).symm
      | some sp =>
        rw [h2] at h
        dsimp only at h
        cases h3 : readAt outPredictions (y * width + x) with
        | none => rw [h3] at h; exact (Except.error.inj h).symm
        | some p0 =>
          rw [h3] at h
          dsimp only at h
          cases h4 : merge_modes MAX_MODES NTREES sp MAX_MODES (List.replicate NTREES 0)
              { p0 with nbModes := 0 } with
          | error e1 =>
            rw [h4] at h
            rw [← Except.error.inj h]
            exact merge_modes_error MAX_MODES NTREES sp MAX_MODES (List.replicate NTREES 0)
              { p0 with nbModes := 0 } 0 e1 rfl (hout p0 h3) (by omega) h4
          | ok r => rw [h4] at h; exact Except.noConfusion h
  · intro out h
    obtain ⟨sp, p0, r, _, hp0, hmerge, hread, _, _⟩ :=
      get_prediction_for_leaf_shared_ok _ _ _ _ _ _ _ _ out h
    obtain ⟨emitted, hrun⟩ := merge_modes_run MAX_MODES NTREES sp MAX_MODES _ _ r hmerge
    obtain ⟨h1, h2, h3, _, h5⟩ := mergeRun_output MAX_MODES NTREES sp
      (List.replicate NTREES 0) r.1 { p0 with nbModes := 0 } r.2 emitted hrun 0 rfl
    simp only [Nat.zero_add] at h1 h2 h3 h5
    refine ⟨p0, r.2, hp0, hread, by omega, by omega, h3, ?_⟩
    rw [h1, Int.toNat_natCast]
    exact h5
  · intro sp p0 hsel hwf hp0
    have hlen := selectedPredictionsAt_length NTREES _ _ _ sp hsel
    obtain ⟨r, hr⟩ := merge_modes_returns MAX_MODES NTREES sp
      (fun t ht => by
        have hlt : t < sp.length := by omega
        exact ⟨sp[t], List.getElem?_eq_getElem hlt, hwf _ (List.getElem_mem hlt)⟩)
      MAX_MODES (List.replicate NTREES 0) { p0 with nbModes := 0 } 0
      (fun t ht => ⟨0, by rw [List.getElem?_replicate, if_pos ht]⟩) rfl (hout p0 hp0)
      (by omega)
    unfold selectedPredictionsAt at hsel
    unfold get_prediction_for_leaf_shared
    dsimp only
    cases h1 : readAt leafIndices (y * width + x) with
    | none => rw [h1] at hsel; exact Option.noConfusion hsel
    | some selectedLeaves =>
      rw [h1] at hsel
      dsimp only at hsel ⊢
      rw [hsel]
      dsimp only
      rw [hp0]
      dsimp only
      rw [hr]
      exact ⟨_, rfl⟩

/-- Witness for C31: the trees select leaves 0 and 1 of the example; the call returns
    an output with 3 modes, the capacity. -/
theorem get_prediction_for_leaf_shared_bounds_witness :
    ∃ p0 p, readAt exampleOutPredictions (0 * 1 + 0) = some p0 ∧
      readAt [(⟨3, [⟨9, "a"⟩, ⟨7, "d"⟩, ⟨4, "b"⟩]⟩ : Prediction3DColour String)] (0 * 1 + 0)
        = some p ∧
      0 ≤ p.nbModes ∧ p.nbModes ≤ ((3 : Nat) : Int) ∧
      p.modes.length = p0.modes.length ∧
      p.modes.drop p.nbModes.toNat = p0.modes.drop p.nbModes.toNat :=
  (get_prediction_for_leaf_shared_bounds 3 2 exampleLeafPredictions [[0, 1]]
    exampleOutPredictions 1 0 0
    (fun p0 h => by
      have h1 : p0 = ⟨3, [⟨5, "x"⟩, ⟨5, "y"⟩, ⟨5, "z"⟩]⟩ := (Option.some.inj h).symm
      rw [h1]
      decide)).2.1
    [⟨3, [⟨9, "a"⟩, ⟨7, "d"⟩, ⟨4, "b"⟩]⟩] rfl

/-- C32: every mode in the output of `get_prediction_for_leaf_shared` has a strictly
    positive inlier count, so no zero-inlier mode is ever emitted; and the merge stops
    short of `MAX_MODES` modes only when no tree has a mode with a positive inlier
    count at its cursor. -/
theorem get_prediction_for_leaf_shared_positive {Payload : Type} (MAX_MODES NTREES : Nat)
    (leafPredictions : List (Prediction3DColour Payload)) (leafIndices : List (List Int))
    (outPredictions : List (Prediction3DColour Payload)) (width x y : Int)
    (out : List (Prediction3DColour Payload)) (p : Prediction3DColour Payload)
    (h : get_prediction_for_leaf_shared MAX_MODES NTREES leafPredictions leafIndices
      outPredictions width x y = Except.ok out)
    (hp : readAt out (y * width + x) = some p) :
    (∀ m ∈ validModes p, 0 < m.nbInliers) ∧
    ∃ sp p0 emitted treeModeIdx,
      selectedPredictionsAt NTREES leafPredictions leafIndices (y * width + x) = some sp ∧
      readAt outPredictions (y * width + x) = some p0 ∧
      MergeRun MAX_MODES NTREES sp (List.replicate NTREES 0) { p0 with nbModes := 0 }
        emitted treeModeIdx p ∧
      (p.nbModes < (MAX_MODES : Int) →
        ∀ t, t < NTREES → ∀ m, cursorMode sp treeModeIdx t = some m → m.nbInliers ≤ 0) := by
  obtain ⟨sp, p0, r, hsel, hp0, hmerge, hread, _, _⟩ :=
    get_prediction_for_leaf_shared_ok _ _ _ _ _ _ _ _ out h
  have hpr : r.2 = p := Option.some.inj (hread.symm.trans hp)
  obtain ⟨emitted, hrun⟩ := merge_modes_run MAX_MODES NTREES sp MAX_MODES _ _ r hmerge
  rw [hpr] at hrun
  obtain ⟨hvalid, _, _⟩ := validModes_of_run MAX_MODES NTREES sp _ _ _ _ emitted hrun rfl
  refine ⟨?_, sp, p0, emitted, r.1, hsel, hp0, hrun,
    mergeRun_stop MAX_MODES NTREES sp _ _ _ _ emitted hrun⟩
  intro m hm
  rw [hvalid] at hm
  obtain ⟨e, he, hem⟩ := List.mem_map.1 hm
  rw [← hem]
  exact mergeRun_positive MAX_MODES NTREES sp _ _ _ _ emitted hrun e he

/-- Witness for C32: in the example output the mode b, the last one emitted, has a
    positive inlier count. -/
theorem get_prediction_for_leaf_shared_positive_witness :
    0 < (⟨4, "b"⟩ : Mode String).nbInliers :=
  (get_prediction_for_leaf_shared_positive 3 2 exampleLeafPredictions [[0, 1]]
    exampleOutPredictions 1 0 0 [⟨3, [⟨9, "a"⟩, ⟨7, "d"⟩, ⟨4, "b"⟩]⟩]
    ⟨3, [⟨9, "a"⟩, ⟨7, "d"⟩, ⟨4, "b"⟩]⟩ rfl rfl).1 ⟨4, "b"⟩ (by decide)


/-- C33: if the modes of each selected leaf are in non-increasing order of inlier
    count, the inlier counts of the output of `get_prediction_for_leaf_shared` are the
    first `MAX_MODES` entries of the positive inlier counts of all the selected
    leaves' modes arranged in non-increasing order: the output has
    min(`MAX_MODES`, number of positive-inlier modes of the selected leaves) modes,
    whose counts are the largest that many positive counts; in particular, if every
    selected leaf has zero modes the output is empty. -/
theorem get_prediction_for_leaf_shared_top_modes {Payload : Type} (MAX_MODES NTREES : Nat)
    (leafPredictions : List (Prediction3DColour Payload)) (leafIndices : List (List Int))
    (outPredictions : List (Prediction3DColour Payload)) (width x y : Int)
    (out sp : List (Prediction3DColour Payload)) (p : Prediction3DColour Payload)
    (h : get_prediction_for_leaf_shared MAX_MODES NTREES leafPredictions leafIndices
      outPredictions width x y = Except.ok out)
    (hsel : selectedPredictionsAt NTREES leafPredictions leafIndices (y * width + x)
      = some sp)
    (hsorted : ∀ q ∈ sp, sortedByInliers (validModes q))
    (hp : readAt out (y * width + x) = some p) :
    inlierCounts (validModes p) =
      (List.insertionSort (· ≥ ·)
        ((inlierCounts (sp.flatMap validModes)).filter (fun n => decide (0 < n)))).take
          MAX_MODES ∧
    (validModes p).length =
      min MAX_MODES ((inlierCounts (sp.flatMap validModes)).countP (fun n => decide (0 < n))) ∧
    ((∀ q ∈ sp, q.nbModes = 0) → validModes p = [] ∧ p.nbModes = 0) := by
  obtain ⟨sp1, p0, r, hsel1, hp0, hmerge, hread, _, _⟩ :=
    get_prediction_for_leaf_shared_ok _ _ _ _ _ _ _ _ out h
  have hsp : sp1 = sp := Option.some.inj (hsel1.symm.trans hsel)
  subst hsp
  have hpr : r.2 = p := Option.some.inj (hread.symm.trans hp)
  have hlen := selectedPredictionsAt_length NTREES _ _ _ sp1 hsel
  obtain ⟨emitted, hrun⟩ := merge_modes_run MAX_MODES NTREES sp1 MAX_MODES _ _ r hmerge
  rw [hpr] at hrun
  obtain ⟨hvalid, hnb, hle⟩ := validModes_of_run MAX_MODES NTREES sp1 _ _ _ _ emitted hrun rfl
  obtain ⟨hperm, hsort, hbound, hstop⟩ :=
    mergeRun_sorted MAX_MODES NTREES sp1 hsorted _ _ _ _ emitted hrun
  have hstart : allRemaining NTREES sp1 (List.replicate NTREES 0)
      = sp1.flatMap validModes := by
    rw [← hlen]
    exact allRemaining_start sp1
  rw [hstart] at hperm
  have htop := top_counts_of_merge (inlierCounts (sp1.flatMap validModes))
    (inlierCounts (emitted.map Prod.snd)) (inlierCounts (allRemaining NTREES sp1 r.1))
    MAX_MODES
    (by
      unfold inlierCounts
      rw [← List.map_append]
      exact hperm.map _)
    (by
      unfold inlierCounts
      exact List.pairwise_map.2 hsort)
    (by
      intro e he
      obtain ⟨m, hm, hme⟩ := List.mem_map.1 he
      obtain ⟨e1, he1, hem⟩ := List.mem_map.1 hm
      rw [← hme, ← hem]
      exact mergeRun_positive MAX_MODES NTREES sp1 _ _ _ _ emitted hrun e1 he1)
    (by
      intro e he a ha
      obtain ⟨m, hm, hme⟩ := List.mem_map.1 he
      obtain ⟨e1, he1, hem⟩ := List.mem_map.1 hm
      obtain ⟨a1, ha1, haa⟩ := List.mem_map.1 ha
      rw [← hme, ← hem, ← haa]
      exact hbound e1 he1 a1 ha1)
    (by
      unfold inlierCounts
      rw [List.length_map, List.length_map]
      exact hle)
    (by
      intro hlt a ha
      unfold inlierCounts at hlt
      rw [List.length_map, List.length_map] at hlt
      obtain ⟨a1, ha1, haa⟩ := List.mem_map.1 ha
      rw [← haa]
      exact hstop (by rw [hnb]; exact_mod_cast hlt) a1 ha1)
  rw [← hvalid] at htop
  have hlen2 : (inlierCounts (validModes p)).length = (validModes p).length := by
    unfold inlierCounts
    rw [List.length_map]
  refine ⟨htop.1, by rw [← hlen2]; exact htop.2, ?_⟩
  intro hzero
  have hnil : sp1.flatMap validModes = [] := by
    apply List.eq_nil_iff_forall_not_mem.2
    intro a ha
    obtain ⟨q, hq, haq⟩ := List.mem_flatMap.1 ha
    unfold validModes at haq
    rw [hzero q hq] at haq
    exact absurd haq (List.not_mem_nil a)
  have hl := htop.2
  rw [hnil, hlen2] at hl
  have hl0 : (validModes p).length = 0 := by
    rw [hl]
    simp [inlierCounts]
  have hem : emitted.length = 0 := by
    rw [hvalid, List.length_map] at hl0
    exact hl0
  refine ⟨List.length_eq_zero.1 hl0, ?_⟩
  rw [hnb, hem]
  rfl

/-- Witness for C33: leaves 0 and 1 of the example hold the positive counts 9, 4, 1
    and 7, 4; with `MAX_MODES` = 3 the output counts are the largest three. -/
theorem get_prediction_for_leaf_shared_top_modes_witness :
    inlierCounts (validModes (⟨3, [⟨9, "a"⟩, ⟨7, "d"⟩, ⟨4, "b"⟩]⟩ : Prediction3DColour String))
      = (List.insertionSort (· ≥ ·)
          ((inlierCounts
            (([⟨3, [⟨9, "a"⟩, ⟨4, "b"⟩, ⟨1, "c"⟩]⟩, ⟨2, [⟨7, "d"⟩, ⟨4, "e"⟩, ⟨0, ""⟩]⟩] :
              List (Prediction3DColour String)).flatMap validModes)).filter
            (fun n => decide (0 < n)))).take 3 :=
  (get_prediction_for_leaf_shared_top_modes 3 2 exampleLeafPredictions [[0, 1]]
    exampleOutPredictions 1 0 0 [⟨3, [⟨9, "a"⟩, ⟨7, "d"⟩, ⟨4, "b"⟩]⟩]
    [⟨3, [⟨9, "a"⟩, ⟨4, "b"⟩, ⟨1, "c"⟩]⟩, ⟨2, [⟨7, "d"⟩, ⟨4, "e"⟩, ⟨0, ""⟩]⟩]
    ⟨3, [⟨9, "a"⟩, ⟨7, "d"⟩, ⟨4, "b"⟩]⟩ rfl rfl
    (fun q hq => by
      simp only [List.mem_cons, List.mem_singleton, List.not_mem_nil, or_false] at hq
      rcases hq with rfl | rfl <;> (unfold sortedByInliers validModes; decide))
    rfl).1

/-- C35: the output of `get_prediction_for_leaf_shared` is produced by the merge of the
    specification, run from cursors 0 and an empty output: at each step the mode
    emitted is the one at the cursor of the tree whose cursor mode has the largest
    inlier count among the trees that still have unemitted modes, the lowest tree
    index winning ties, and only that tree's cursor advances, by one; the modes of the
    output are the modes emitted, in order, and those taken from any one tree are a
    prefix of that tree's modes, in their original order, as long as the tree's final
    cursor. -/
theorem get_prediction_for_leaf_shared_merge_order {Payload : Type} (MAX_MODES NTREES : Nat)
    (leafPredictions : List (Prediction3DColour Payload)) (leafIndices : List (List Int))
    (outPredictions : List (Prediction3DColour Payload)) (width x y : Int)
    (out sp : List (Prediction3DColour Payload)) (p0 p : Prediction3DColour Payload)
    (h : get_prediction_for_leaf_shared MAX_MODES NTREES leafPredictions leafIndices
      outPredictions width x y = Except.ok out)
    (hsel : selectedPredictionsAt NTREES leafPredictions leafIndices (y * width + x)
      = some sp)
    (hp0 : readAt outPredictions (y * width + x) = some p0)
    (hp : readAt out (y * width + x) = some p) :
    ∃ emitted treeModeIdx,
      MergeRun MAX_MODES NTREES sp (List.replicate NTREES 0) { p0 with nbModes := 0 }
        emitted treeModeIdx p ∧
      validModes p = emitted.map Prod.snd ∧
      ∀ t, t < NTREES → ∃ q n, sp[t]? = some q ∧ treeModeIdx[t]? = some n ∧
        (emitted.filter (fun e => decide (e.1 = t))).map Prod.snd = (validModes q).take n := by
  obtain ⟨sp1, p1, r, hsel1, hp1, hmerge, hread, _, _⟩ :=
    get_prediction_for_leaf_shared_ok _ _ _ _ _ _ _ _ out h
  have hsp : sp1 = sp := Option.some.inj (hsel1.symm.trans hsel)
  have hpp : p1 = p0 := Option.some.inj (hp1.symm.trans hp0)
  subst hsp hpp
  have hpr : r.2 = p := Option.some.inj (hread.symm.trans hp)
  have hlen := selectedPredictionsAt_length NTREES _ _ _ sp1 hsel
  obtain ⟨emitted, hrun⟩ := merge_modes_run MAX_MODES NTREES sp1 MAX_MODES _ _ r hmerge
  rw [hpr] at hrun
  obtain ⟨hvalid, _, _⟩ := validModes_of_run MAX_MODES NTREES sp1 _ _ _ _ emitted hrun rfl
  refine ⟨emitted, r.1, hrun, hvalid, fun t ht => ?_⟩
  have hlt : t < sp1.length := by omega
  obtain ⟨n, hn1, hn2⟩ := mergeRun_initial_segment MAX_MODES NTREES sp1 _ _ _ _ emitted hrun t sp1[t] 0
    (List.getElem?_eq_getElem hlt) (by rw [List.getElem?_replicate, if_pos ht])
  refine ⟨sp1[t], n, List.getElem?_eq_getElem hlt, by simpa using hn1, ?_⟩
  rw [hn2, List.drop_zero]

/-- Witness for C35: the example output a, d, b is the merge of leaf 0 (a, b, c) and
    leaf 1 (d, e). -/
theorem get_prediction_for_leaf_shared_merge_order_witness :
    ∃ emitted treeModeIdx,
      MergeRun 3 2
        ([⟨3, [⟨9, "a"⟩, ⟨4, "b"⟩, ⟨1, "c"⟩]⟩, ⟨2, [⟨7, "d"⟩, ⟨4, "e"⟩, ⟨0, ""⟩]⟩] :
          List (Prediction3DColour String))
        (List.replicate 2 0)
        { (⟨3, [⟨5, "x"⟩, ⟨5, "y"⟩, ⟨5, "z"⟩]⟩ : Prediction3DColour String) with nbModes := 0 }
        emitted treeModeIdx ⟨3, [⟨9, "a"⟩, ⟨7, "d"⟩, ⟨4, "b"⟩]⟩ ∧
      validModes (⟨3, [⟨9, "a"⟩, ⟨7, "d"⟩, ⟨4, "b"⟩]⟩ : Prediction3DColour String)
        = emitted.map Prod.snd ∧
      ∀ t, t < 2 → ∃ q n,
        ([⟨3, [⟨9, "a"⟩, ⟨4, "b"⟩, ⟨1, "c"⟩]⟩, ⟨2, [⟨7, "d"⟩, ⟨4, "e"⟩, ⟨0, ""⟩]⟩] :
          List (Prediction3DColour String))[t]? = some q ∧
        treeModeIdx[t]? = some n ∧
        (emitted.filter (fun e => decide (e.1 = t))).map Prod.snd = (validModes q).take n :=
  get_prediction_for_leaf_shared_merge_order 3 2 exampleLeafPredictions [[0, 1]]
    exampleOutPredictions 1 0 0 [⟨3, [⟨9, "a"⟩, ⟨7, "d"⟩, ⟨4, "b"⟩]⟩]
    [⟨3, [⟨9, "a"⟩, ⟨4, "b"⟩, ⟨1, "c"⟩]⟩, ⟨2, [⟨7, "d"⟩, ⟨4, "e"⟩, ⟨0, ""⟩]⟩]
    ⟨3, [⟨5, "x"⟩, ⟨5, "y"⟩, ⟨5, "z"⟩]⟩ ⟨3, [⟨9, "a"⟩, ⟨7, "d"⟩, ⟨4, "b"⟩]⟩ rfl rfl rfl rfl

/-- C36: if the modes of each selected leaf are in non-increasing order of inlier
    count, the modes of the output of `get_prediction_for_leaf_shared` are in
    non-increasing order of inlier count. -/
theorem get_prediction_for_leaf_shared_sorted {Payload : Type} (MAX_MODES NTREES : Nat)
    (leafPredictions : List (Prediction3DColour Payload)) (leafIndices : List (List Int))
    (outPredictions : List (Prediction3DColour Payload)) (width x y : Int)
    (out sp : List (Prediction3DColour Payload)) (p : Prediction3DColour Payload)
    (h : get_prediction_for_leaf_shared MAX_MODES NTREES leafPredictions leafIndices
      outPredictions width x y = Except.ok out)
    (hsel : selectedPredictionsAt NTREES leafPredictions leafIndices (y * width + x)
      = some sp)
    (hsorted : ∀ q ∈ sp, sortedByInliers (validModes q))
    (hp : readAt out (y * width + x) = some p) :
    sortedByInliers (validModes p) ∧
    List.Sorted (· ≥ ·) (inlierCounts (validModes p)) := by
  obtain ⟨sp1, p0, r, hsel1, _, hmerge, hread, _, _⟩ :=
    get_prediction_for_leaf_shared_ok _ _ _ _ _ _ _ _ out h
  have hsp : sp1 = sp := Option.some.inj (hsel1.symm.trans hsel)
  subst hsp
  have hpr : r.2 = p := Option.some.inj (hread.symm.trans hp)
  obtain ⟨emitted, hrun⟩ := merge_modes_run MAX_MODES NTREES sp1 MAX_MODES _ _ r hmerge
  rw [hpr] at hrun
  obtain ⟨hvalid, _, _⟩ := validModes_of_run MAX_MODES NTREES sp1 _ _ _ _ emitted hrun rfl
  have hs := (mergeRun_sorted MAX_MODES NTREES sp1 hsorted _ _ _ _ emitted hrun).2.1
  rw [← hvalid] at hs
  refine ⟨hs, ?_⟩
  unfold inlierCounts
  exact List.pairwise_map.2 hs

/-- Witness for C36: the example output has the counts 9, 7, 4. -/
theorem get_prediction_for_leaf_shared_sorted_witness :
    List.Sorted (· ≥ ·)
      (inlierCounts
        (validModes (⟨3, [⟨9, "a"⟩, ⟨7, "d"⟩, ⟨4, "b"⟩]⟩ : Prediction3DColour String))) :=
  (get_prediction_for_leaf_shared_sorted 3 2 exampleLeafPredictions [[0, 1]]
    exampleOutPredictions 1 0 0 [⟨3, [⟨9, "a"⟩, ⟨7, "d"⟩, ⟨4, "b"⟩]⟩]
    [⟨3, [⟨9, "a"⟩, ⟨4, "b"⟩, ⟨1, "c"⟩]⟩, ⟨2, [⟨7, "d"⟩, ⟨4, "e"⟩, ⟨0, ""⟩]⟩]
    ⟨3, [⟨9, "a"⟩, ⟨7, "d"⟩, ⟨4, "b"⟩]⟩ rfl rfl
    (fun q hq => by
      simp only [List.mem_cons, List.mem_singleton, List.not_mem_nil, or_false] at hq
      rcases hq with rfl | rfl <;> (unfold sortedByInliers validModes; decide))
    rfl).2


/-- C34: `make_tracker` applied to a configuration node whose "type" is not a recognised
    tracker type fails, at every nesting depth, with a configuration error whose
    message names the offending type value, and returns no tracker; so does
    `make_simple_tracker` on such a type. -/
theorem make_tracker_unknown_type (primitiveTypes : List String)
    (load : String → Option ConfigNode) (fuel : Nat)
    (trackerType trackerParams policy : String) (children : List ConfigNode)
    (h : ¬ recognisedTrackerType primitiveTypes trackerType) :
    make_tracker primitiveTypes load fuel
        (ConfigNode.node trackerType trackerParams policy children)
      = Except.error ("Unknown tracker type: " ++ trackerType) ∧
    (make_tracker primitiveTypes load fuel
        (ConfigNode.node trackerType trackerParams policy children)).toOption = none ∧
    ∀ expand, make_simple_tracker primitiveTypes expand trackerType trackerParams
      = Except.error ("Unknown tracker type: " ++ trackerType) := by
  unfold recognisedTrackerType at h
  have h1 : ¬ trackerType = "composite" := fun hh => h (Or.inl hh)
  have h2 : ¬ trackerType = "import" := fun hh => h (Or.inr (Or.inl hh))
  have h3 : ¬ trackerType ∈ primitiveTypes := fun hh => h (Or.inr (Or.inr hh))
  have hsimple : ∀ expand, make_simple_tracker primitiveTypes expand trackerType trackerParams
      = Except.error ("Unknown tracker type: " ++ trackerType) := by
    intro expand
    unfold make_simple_tracker
    rw [if_neg h2, if_neg h3]
  have hmain : make_tracker primitiveTypes load fuel
      (ConfigNode.node trackerType trackerParams policy children)
      = Except.error ("Unknown tracker type: " ++ trackerType) := by
    cases fuel with
    | zero =>
      unfold make_tracker make_tracker_node
      dsimp only
      rw [if_neg h1]
      exact hsimple _
    | succ fuel =>
      unfold make_tracker make_tracker_node
      dsimp only
      rw [if_neg h1]
      exact hsimple _
  refine ⟨hmain, ?_, hsimple⟩
  rw [hmain]
  rfl

/-- Witness for C34: a node of type "fancy" where the primitive trackers are "icp" and
    "rgb". -/
theorem make_tracker_unknown_type_witness :
    make_tracker ["icp", "rgb"] (fun _ => none) 3 (ConfigNode.node "fancy" "level=1" "" [])
      = Except.error ("Unknown tracker type: " ++ "fancy") :=
  (make_tracker_unknown_type ["icp", "rgb"] (fun _ => none) 3 "fancy" "level=1" "" []
    (by unfold recognisedTrackerType; decide)).1


end spaint
